import Mathlib

/-! Cache-Benchmark: a shallow embedding of `cache-benchmark.c`.

The program is a double-buffered diffusion stencil on a 1-, 2- or 3-dimensional
grid of `_DIM` cells per axis.  All of its configuration is preprocessor
symbols; here they are the fields of `Config`.

Conventions of the embedding:

* `int` values (coordinates, offsets, `_DIM`, `_ITERATIONS`) are integers (`Int`).  The
  `int` operations of the program that can leave the range of a 32-bit `int` are the
  products and sums of the two- and three-dimensional `getOffset`, and these have two
  forms: `getOffset2` and `getOffset3` compute them exactly, `getOffset2I32` and
  `getOffset3I32` compute them as the machine does, each product and each sum reduced
  modulo `2^32` into `[-2^31, 2^31)` (`wrapInt`; C leaves the overflow undefined, and this
  is what it becomes on the usual two's-complement targets).  Whatever calls `getOffset`
  has the two forms as well: `step2D` and `step2DI32`, ..., `step` and `stepI32`,
  `seedOffset` and `seedOffsetI32`, `initBuffers` and `initBuffersI32`, `afterIterations`
  and `afterIterationsI32`.  Statements made in exact arithmetic are about the first form;
  statements about every extent the program can be built with are about the second.  The
  one-dimensional `getOffset` does no arithmetic, and with `_DIM` an `int` the loop
  counters, `i + 1`, `i - 1`, `_DIM - 1` and `_DIM / 2` stay in range.  `SIZE` occurs only
  as a factor of `sizeof(cell) * SIZE`, which is `size_t` arithmetic, taken exactly;
* a `cell` (a C `float`) is an exact rational, and `DIFFUSE_FACTOR` is `1/10`;
* a `cell *` is an integer address (`0` is `NULL`), and adding `k` to it moves
  it by `k * sizeof(cell)`;
* the heap maps a cell pointer to the array of cells seen through it, a total
  map from index to cell: C does no bounds checking and neither does the map.  Two equal
  pointers see the same cells and two different pointers see different cells, as the
  pointers of two disjoint blocks do; buffers that overlap without being equal are not
  represented;
* a `for (i = lo; i < hi; i++)` loop is `forRange lo hi`;
* the three `getOffset` and the six `step` functions, of which the preprocessor keeps one
  each, are `getOffset1`, `getOffset2`, `getOffset3` and `step1D`, `stepAlt1D`, ...,
  `stepAlt3D` (`Alt` for `_STEP_ALTERNATIVE`); `step` picks the one a configuration keeps;
* `main` is cut into `allocate`, `failurePath`, `initBuffers`, `mainLoop` and `release`,
  and records each `memset`, seeding store, `step` and `free` in a trace;
* each kernel has a second, bounds-checked form (`step1DChecked`, ...) in which every read
  and write is tested against the number of cells of the buffers and the result is `none`
  once an index is out of range;
* `pureStep1`, `pureStep2`, `pureStep3` are the diffusion map written as a function on
  grids, for comparison with the double-buffered run.
-/

namespace CacheBenchmark

/-! ## Memory -/

/-- A cell pointer: an integer address, `0` being `NULL`. -/
abbrev Ptr := Int

/-- The cells seen through one cell pointer, by index. -/
abbrev Buffer := Int → ℚ

/-- The heap: for each cell pointer, the cells seen through it. -/
abbrev Heap := Ptr → Buffer

/-- Constant `sizeof(cell)`, with `typedef float cell`. -/
def sizeofCell : Int := 4

/-- Constant `DIFFUSE_FACTOR` (`0.1f`), taken exactly. -/
def DIFFUSE_FACTOR : ℚ := 1 / 10

/-- The rvalue `p[i]`. -/
def readCell (h : Heap) (p : Ptr) (i : Int) : ℚ := h p i

/-- The assignment `p[i] = v`. -/
def writeCell (h : Heap) (p : Ptr) (i : Int) (v : ℚ) : Heap :=
  Function.update h p (Function.update (h p) i v)

/-- The compound assignment `p[i] += v`. -/
def addCell (h : Heap) (p : Ptr) (i : Int) (v : ℚ) : Heap :=
  writeCell h p i (readCell h p i + v)

/-! ## Loops -/

/-- Runs `n` rounds of a counting loop whose counter currently is `i`. -/
def forLoop {σ : Type} (body : Int → σ → σ) : Nat → Int → σ → σ
  | 0, _, s => s
  | n + 1, i, s => forLoop body n (i + 1) (body i s)

/-- The loop `for (i = lo; i < hi; i++) body`: it runs `hi - lo` rounds when
`lo < hi` and none otherwise. -/
def forRange {σ : Type} (lo hi : Int) (body : Int → σ → σ) (s : σ) : σ :=
  forLoop body (hi - lo).toNat lo s

/-! ## Addressing -/

/-- One-dimensional `getOffset`. -/
def getOffset1 (x : Int) : Int := x

/-- Two-dimensional `getOffset`, `D` being `_DIM`. -/
def getOffset2 (D : Int) (x y : Int) : Int := (x * D) + y

/-- Three-dimensional `getOffset`, `D` being `_DIM`. -/
def getOffset3 (D : Int) (x y z : Int) : Int := (x * D * D) + y * D + z

/-! ## The kernels -/

/-- Body of the one-dimensional `step` without `_STEP_ALTERNATIVE`. -/
def body1D (read_buffer write_buffer : Ptr) (i : Int) (h : Heap) : Heap :=
  writeCell h write_buffer (getOffset1 i)
    (readCell h read_buffer (getOffset1 i) +
      (DIFFUSE_FACTOR *
        (readCell h read_buffer (getOffset1 (i + 1)) +
          readCell h read_buffer (getOffset1 (i - 1)) -
          2 * readCell h read_buffer (getOffset1 i))))

/-- One-dimensional `step` without `_STEP_ALTERNATIVE`. -/
def step1D (D : Int) (read_buffer write_buffer : Ptr) (h : Heap) : Heap :=
  forRange 1 (D - 1) (fun i h => body1D read_buffer write_buffer i h) h

/-- Body of the one-dimensional `step` with `_STEP_ALTERNATIVE`. -/
def altBody1D (read_buffer write_buffer : Ptr) (i : Int) (h : Heap) : Heap :=
  let h1 := addCell h write_buffer (getOffset1 i)
    (readCell h read_buffer (getOffset1 i) -
      readCell h read_buffer (getOffset1 i) * 2 * DIFFUSE_FACTOR)
  let temp := readCell h1 read_buffer (getOffset1 i) * DIFFUSE_FACTOR
  let h2 := addCell h1 write_buffer (getOffset1 (i + 1)) temp
  addCell h2 write_buffer (getOffset1 (i - 1)) temp

/-- One-dimensional `step` with `_STEP_ALTERNATIVE`. -/
def stepAlt1D (D : Int) (read_buffer write_buffer : Ptr) (h : Heap) : Heap :=
  forRange 1 (D - 1) (fun i h => altBody1D read_buffer write_buffer i h) h

/-- Body of the two-dimensional `step` without `_STEP_ALTERNATIVE`. -/
def body2D (D : Int) (read_buffer write_buffer : Ptr) (i j : Int) (h : Heap) : Heap :=
  writeCell h write_buffer (getOffset2 D i j)
    (readCell h read_buffer (getOffset2 D i j) +
      (DIFFUSE_FACTOR *
        (readCell h read_buffer (getOffset2 D (i + 1) j) +
          readCell h read_buffer (getOffset2 D (i - 1) j) +
          readCell h read_buffer (getOffset2 D i (j + 1)) +
          readCell h read_buffer (getOffset2 D i (j - 1)) -
          4 * readCell h read_buffer (getOffset2 D i j))))

/-- Two-dimensional `step` without `_STEP_ALTERNATIVE`. -/
def step2D (D : Int) (read_buffer write_buffer : Ptr) (h : Heap) : Heap :=
  forRange 1 (D - 1) (fun i h =>
    forRange 1 (D - 1) (fun j h => body2D D read_buffer write_buffer i j h) h) h

/-- Body of the two-dimensional `step` with `_STEP_ALTERNATIVE`. -/
def altBody2D (D : Int) (read_buffer write_buffer : Ptr) (i j : Int) (h : Heap) : Heap :=
  let celula := readCell h read_buffer (getOffset2 D i j)
  let h1 := addCell h write_buffer (getOffset2 D i j) (celula - (celula * 4 * DIFFUSE_FACTOR))
  let temp := celula * DIFFUSE_FACTOR
  let h2 := addCell h1 write_buffer (getOffset2 D (i + 1) j) temp
  let h3 := addCell h2 write_buffer (getOffset2 D (i - 1) j) temp
  let h4 := addCell h3 write_buffer (getOffset2 D i (j + 1)) temp
  addCell h4 write_buffer (getOffset2 D i (j - 1)) temp

/-- Two-dimensional `step` with `_STEP_ALTERNATIVE`. -/
def stepAlt2D (D : Int) (read_buffer write_buffer : Ptr) (h : Heap) : Heap :=
  forRange 1 (D - 1) (fun i h =>
    forRange 1 (D - 1) (fun j h => altBody2D D read_buffer write_buffer i j h) h) h

/-- Body of the three-dimensional `step` without `_STEP_ALTERNATIVE`. -/
def body3D (D : Int) (read_buffer write_buffer : Ptr) (i j k : Int) (h : Heap) : Heap :=
  writeCell h write_buffer (getOffset3 D i j k)
    (readCell h read_buffer (getOffset3 D i j k) +
      (DIFFUSE_FACTOR *
        (readCell h read_buffer (getOffset3 D (i + 1) j k) +
          readCell h read_buffer (getOffset3 D (i - 1) j k) +
          readCell h read_buffer (getOffset3 D i (j + 1) k) +
          readCell h read_buffer (getOffset3 D i (j - 1) k) +
          readCell h read_buffer (getOffset3 D i j (k - 1)) +
          readCell h read_buffer (getOffset3 D i j (k + 1)) -
          6 * readCell h read_buffer (getOffset3 D i j k))))

/-- Three-dimensional `step` without `_STEP_ALTERNATIVE`. -/
def step3D (D : Int) (read_buffer write_buffer : Ptr) (h : Heap) : Heap :=
  forRange 1 (D - 1) (fun i h =>
    forRange 1 (D - 1) (fun j h =>
      forRange 1 (D - 1) (fun k h => body3D D read_buffer write_buffer i j k h) h) h) h

/-- Body of the three-dimensional `step` with `_STEP_ALTERNATIVE`. -/
def altBody3D (D : Int) (read_buffer write_buffer : Ptr) (i j k : Int) (h : Heap) : Heap :=
  let celula := readCell h read_buffer (getOffset3 D i j k)
  let h1 := addCell h write_buffer (getOffset3 D i j k) (celula - (celula * 6 * DIFFUSE_FACTOR))
  let temp := celula * DIFFUSE_FACTOR
  let h2 := addCell h1 write_buffer (getOffset3 D (i + 1) j k) temp
  let h3 := addCell h2 write_buffer (getOffset3 D (i - 1) j k) temp
  let h4 := addCell h3 write_buffer (getOffset3 D i (j + 1) k) temp
  let h5 := addCell h4 write_buffer (getOffset3 D i (j - 1) k) temp
  let h6 := addCell h5 write_buffer (getOffset3 D i j (k + 1)) temp
  addCell h6 write_buffer (getOffset3 D i j (k - 1)) temp

/-- Three-dimensional `step` with `_STEP_ALTERNATIVE`. -/
def stepAlt3D (D : Int) (read_buffer write_buffer : Ptr) (h : Heap) : Heap :=
  forRange 1 (D - 1) (fun i h =>
    forRange 1 (D - 1) (fun j h =>
      forRange 1 (D - 1) (fun k h => altBody3D D read_buffer write_buffer i j k h) h) h) h

/-! ## Configuration -/

/-- Which of `_1D`, `_2D`, `_3D` is defined (exactly one must be). -/
inductive Dimension
  | d1
  | d2
  | d3
  deriving DecidableEq

/-- The preprocessor configuration of one build. -/
structure Config where
  /-- Which of `_1D`, `_2D`, `_3D` is defined. -/
  dimension : Dimension
  /-- Value of `_DIM`. -/
  DIM : Int
  /-- Value of `_ITERATIONS`. -/
  ITERATIONS : Int
  /-- Whether `_STEP_ALTERNATIVE` is defined. -/
  STEP_ALTERNATIVE : Bool
  /-- Holds `some k` when `_OFFSET_BUFFER` is defined with `_OFFSET_BUFFER_SIZE=k`. -/
  OFFSET_BUFFER : Option Int

/-- The value of `SIZE`: the number of cells of a buffer. -/
def SIZE (cfg : Config) : Int :=
  match cfg.dimension with
  | .d1 => cfg.DIM
  | .d2 => cfg.DIM * cfg.DIM
  | .d3 => cfg.DIM * cfg.DIM * cfg.DIM

/-- The `step` function the configuration compiles. -/
def step (cfg : Config) (read_buffer write_buffer : Ptr) (h : Heap) : Heap :=
  match cfg.dimension, cfg.STEP_ALTERNATIVE with
  | .d1, false => step1D cfg.DIM read_buffer write_buffer h
  | .d1, true => stepAlt1D cfg.DIM read_buffer write_buffer h
  | .d2, false => step2D cfg.DIM read_buffer write_buffer h
  | .d2, true => stepAlt2D cfg.DIM read_buffer write_buffer h
  | .d3, false => step3D cfg.DIM read_buffer write_buffer h
  | .d3, true => stepAlt3D cfg.DIM read_buffer write_buffer h

/-- The index `main` seeds: `getOffset(_DIM / 2, ...)`, with C's truncating division. -/
def seedOffset (cfg : Config) : Int :=
  match cfg.dimension with
  | .d1 => getOffset1 (cfg.DIM.tdiv 2)
  | .d2 => getOffset2 cfg.DIM (cfg.DIM.tdiv 2) (cfg.DIM.tdiv 2)
  | .d3 => getOffset3 cfg.DIM (cfg.DIM.tdiv 2) (cfg.DIM.tdiv 2) (cfg.DIM.tdiv 2)

/-- The value `main` seeds. -/
def seedValue (cfg : Config) : ℚ :=
  match cfg.dimension with
  | .d1 => 1000
  | .d2 => 10000
  | .d3 => 10000

/-! ## The driver -/

/-- What `main` does to memory, in order. -/
inductive Event
  /-- A call `memset(p, 0, sizeof(cell) * cells)`. -/
  | memset (p : Ptr) (cells : Int)
  /-- The seeding store `p[i] = ...`. -/
  | seed (p : Ptr) (i : Int)
  /-- A call `step(r, w)`. -/
  | step (r w : Ptr)
  /-- A call `free(p)`. -/
  | free (p : Ptr)
  deriving DecidableEq

/-- The variables of `main` together with the heap and the record of what was done. -/
structure MainState where
  /-- The pointer `buffer[0]`. -/
  buffer0 : Ptr
  /-- The pointer `buffer[1]`. -/
  buffer1 : Ptr
  /-- The contents of memory. -/
  heap : Heap
  /-- The memory operations done so far, oldest first. -/
  trace : List Event

/-- The call `memset(p, 0, sizeof(cell) * cells)`: cells `0 .. cells - 1` become `0`. -/
def memset (h : Heap) (p : Ptr) (cells : Int) : Heap :=
  Function.update h p (fun i => if 0 ≤ i ∧ i < cells then 0 else h p i)

/-- Lines 248-254: the two `malloc` calls return `m0` and `m1` (`0` on failure); with
`_OFFSET_BUFFER` the first result is advanced by `_OFFSET_BUFFER_SIZE` cells. -/
def allocate (cfg : Config) (m0 m1 : Ptr) (h : Heap) : MainState :=
  { buffer0 :=
      match cfg.OFFSET_BUFFER with
      | none => m0
      | some k => m0 + k * sizeofCell
    buffer1 := m1
    heap := h
    trace := [] }

/-- Lines 261-266: the clean-up of the failure branch. -/
def failurePath (cfg : Config) (s : MainState) : MainState :=
  let b0 :=
    match cfg.OFFSET_BUFFER with
    | none => s.buffer0
    | some k => if s.buffer0 ≠ 0 then s.buffer0 - k * sizeofCell else s.buffer0
  { s with buffer0 := b0, trace := s.trace ++ [Event.free b0, Event.free s.buffer1] }

/-- Lines 270-283: both buffers are zero-filled and the centre of `buffer[0]` is seeded. -/
def initBuffers (cfg : Config) (s : MainState) : MainState :=
  let h1 := memset s.heap s.buffer0 (SIZE cfg)
  let h2 := memset h1 s.buffer1 (SIZE cfg)
  let h3 := writeCell h2 s.buffer0 (seedOffset cfg) (seedValue cfg)
  { s with
    heap := h3
    trace := s.trace ++ [Event.memset s.buffer0 (SIZE cfg), Event.memset s.buffer1 (SIZE cfg),
      Event.seed s.buffer0 (seedOffset cfg)] }

/-- Lines 291-294: one round of the loop, a kernel step and the swap of the two pointers. -/
def iteration (cfg : Config) (s : MainState) : MainState :=
  let h1 := step cfg s.buffer0 s.buffer1 s.heap
  let aux := s.buffer0
  { buffer0 := s.buffer1
    buffer1 := aux
    heap := h1
    trace := s.trace ++ [Event.step s.buffer0 s.buffer1] }

/-- Lines 286-295: the loop `for (iteration = 0; iteration < _ITERATIONS; iteration++)`. -/
def mainLoop (cfg : Config) (s : MainState) : MainState :=
  forRange 0 cfg.ITERATIONS (fun _ s => iteration cfg s) s

/-- Lines 296-301: the offset is taken off `buffer[0]` and both pointers are freed. -/
def release (cfg : Config) (s : MainState) : MainState :=
  let b0 :=
    match cfg.OFFSET_BUFFER with
    | none => s.buffer0
    | some k => s.buffer0 - k * sizeofCell
  { s with buffer0 := b0, trace := s.trace ++ [Event.free b0, Event.free s.buffer1] }

/-- The function `main`: `m0` and `m1` are what the two `malloc` calls return and `h` is
memory at entry.  The result is the exit status and the final state. -/
def main (cfg : Config) (m0 m1 : Ptr) (h : Heap) : Int × MainState :=
  let s := allocate cfg m0 m1 h
  if s.buffer0 = 0 ∨ s.buffer1 = 0 then
    (-1, failurePath cfg s)
  else
    (0, release cfg (mainLoop cfg (initBuffers cfg s)))

/-- The kernel calls of a trace, as pairs (read pointer, write pointer), oldest first. -/
def kernelCalls : List Event → List (Ptr × Ptr)
  | [] => []
  | Event.step r w :: es => (r, w) :: kernelCalls es
  | _ :: es => kernelCalls es

/-- The pointers given to `free` in a trace, oldest first. -/
def freed : List Event → List Ptr
  | [] => []
  | Event.free p :: es => p :: freed es
  | _ :: es => freed es

/-! ## Vocabulary of the statements -/

/-- A coordinate of the grid: `0 ≤ x < D`. -/
def inGrid (D x : Int) : Prop := 0 ≤ x ∧ x < D

/-- An interior coordinate: `1 ≤ x ≤ D - 2`. -/
def interior (D x : Int) : Prop := 1 ≤ x ∧ x ≤ D - 2

instance (D x : Int) : Decidable (inGrid D x) :=
  inferInstanceAs (Decidable (0 ≤ x ∧ x < D))

instance (D x : Int) : Decidable (interior D x) :=
  inferInstanceAs (Decidable (1 ≤ x ∧ x ≤ D - 2))

/-! ## Values of the direct kernels -/

/-- The value the direct one-dimensional kernel stores at `x`, from the read buffer `R`. -/
def direct1 (R : Buffer) (x : Int) : ℚ :=
  R (getOffset1 x) +
    DIFFUSE_FACTOR * (R (getOffset1 (x + 1)) + R (getOffset1 (x - 1)) - 2 * R (getOffset1 x))

/-- The value the direct two-dimensional kernel stores at `(x, y)`. -/
def direct2 (D : Int) (R : Buffer) (x y : Int) : ℚ :=
  R (getOffset2 D x y) +
    DIFFUSE_FACTOR * (R (getOffset2 D (x + 1) y) + R (getOffset2 D (x - 1) y) +
      R (getOffset2 D x (y + 1)) + R (getOffset2 D x (y - 1)) - 4 * R (getOffset2 D x y))

/-- The value the direct three-dimensional kernel stores at `(x, y, z)`. -/
def direct3 (D : Int) (R : Buffer) (x y z : Int) : ℚ :=
  R (getOffset3 D x y z) +
    DIFFUSE_FACTOR * (R (getOffset3 D (x + 1) y z) + R (getOffset3 D (x - 1) y z) +
      R (getOffset3 D x (y + 1) z) + R (getOffset3 D x (y - 1) z) +
      R (getOffset3 D x y (z - 1)) + R (getOffset3 D x y (z + 1)) -
      6 * R (getOffset3 D x y z))

/-! ## What one round of the accumulative kernels adds -/

/-- What round `i` of the accumulative one-dimensional kernel adds to the cell at index `p`,
from the read buffer `R`. -/
def scatter1 (R : Buffer) (p i : Int) : ℚ :=
  (if p = getOffset1 i then R (getOffset1 i) - R (getOffset1 i) * 2 * DIFFUSE_FACTOR else 0) +
    (if p = getOffset1 (i + 1) then R (getOffset1 i) * DIFFUSE_FACTOR else 0) +
    (if p = getOffset1 (i - 1) then R (getOffset1 i) * DIFFUSE_FACTOR else 0)

/-- What round `(i, j)` of the accumulative two-dimensional kernel adds to the cell at
index `p`. -/
def scatter2 (D : Int) (R : Buffer) (p i j : Int) : ℚ :=
  (if p = getOffset2 D i j then
      R (getOffset2 D i j) - R (getOffset2 D i j) * 4 * DIFFUSE_FACTOR else 0) +
    (if p = getOffset2 D (i + 1) j then R (getOffset2 D i j) * DIFFUSE_FACTOR else 0) +
    (if p = getOffset2 D (i - 1) j then R (getOffset2 D i j) * DIFFUSE_FACTOR else 0) +
    (if p = getOffset2 D i (j + 1) then R (getOffset2 D i j) * DIFFUSE_FACTOR else 0) +
    (if p = getOffset2 D i (j - 1) then R (getOffset2 D i j) * DIFFUSE_FACTOR else 0)

/-- What round `(i, j, k)` of the accumulative three-dimensional kernel adds to the cell at
index `p`. -/
def scatter3 (D : Int) (R : Buffer) (p i j k : Int) : ℚ :=
  (if p = getOffset3 D i j k then
      R (getOffset3 D i j k) - R (getOffset3 D i j k) * 6 * DIFFUSE_FACTOR else 0) +
    (if p = getOffset3 D (i + 1) j k then R (getOffset3 D i j k) * DIFFUSE_FACTOR else 0) +
    (if p = getOffset3 D (i - 1) j k then R (getOffset3 D i j k) * DIFFUSE_FACTOR else 0) +
    (if p = getOffset3 D i (j + 1) k then R (getOffset3 D i j k) * DIFFUSE_FACTOR else 0) +
    (if p = getOffset3 D i (j - 1) k then R (getOffset3 D i j k) * DIFFUSE_FACTOR else 0) +
    (if p = getOffset3 D i j (k + 1) then R (getOffset3 D i j k) * DIFFUSE_FACTOR else 0) +
    (if p = getOffset3 D i j (k - 1) then R (getOffset3 D i j k) * DIFFUSE_FACTOR else 0)

/-- A coordinate on an edge of the grid: `0` or `D - 1`. -/
def onEdge (D x : Int) : Prop := x = 0 ∨ x = D - 1

instance (D x : Int) : Decidable (onEdge D x) :=
  inferInstanceAs (Decidable (x = 0 ∨ x = D - 1))

/-- The index `p` is that of a boundary cell of the grid: a cell with every coordinate in
`[0, D)` and some coordinate equal to `0` or `D - 1`. -/
def boundaryIndex (cfg : Config) (p : Int) : Prop :=
  match cfg.dimension with
  | .d1 => ∃ x, inGrid cfg.DIM x ∧ onEdge cfg.DIM x ∧ p = getOffset1 x
  | .d2 => ∃ x y, inGrid cfg.DIM x ∧ inGrid cfg.DIM y ∧
      (onEdge cfg.DIM x ∨ onEdge cfg.DIM y) ∧ p = getOffset2 cfg.DIM x y
  | .d3 => ∃ x y z, inGrid cfg.DIM x ∧ inGrid cfg.DIM y ∧ inGrid cfg.DIM z ∧
      (onEdge cfg.DIM x ∨ onEdge cfg.DIM y ∨ onEdge cfg.DIM z) ∧ p = getOffset3 cfg.DIM x y z

/-- The state of `main` after `n` rounds of its loop, started in state `s`. -/
def afterIterations (cfg : Config) (n : Nat) (s : MainState) : MainState :=
  mainLoop { cfg with ITERATIONS := (n : Int) } s

/-- The argument of the first `malloc` call (lines 249 and 251), in bytes. -/
def mallocBytes0 (cfg : Config) : Int :=
  match cfg.OFFSET_BUFFER with
  | none => sizeofCell * SIZE cfg
  | some k => sizeofCell * SIZE cfg + k

/-- The argument of the second `malloc` call (line 254), in bytes. -/
def mallocBytes1 (cfg : Config) : Int := sizeofCell * SIZE cfg

/-! ## The kernels with bounds-checked indexing -/

/-- The rvalue `p[i]` of a buffer of `n` cells, `none` when `i` is out of range. -/
def readChecked (n : Int) (h : Heap) (p : Ptr) (i : Int) : Option ℚ :=
  if inGrid n i then some (readCell h p i) else none

/-- The assignment `p[i] = v` to a buffer of `n` cells, `none` when `i` is out of range. -/
def writeChecked (n : Int) (h : Heap) (p : Ptr) (i : Int) (v : ℚ) : Option Heap :=
  if inGrid n i then some (writeCell h p i v) else none

/-- The compound assignment `p[i] += v` to a buffer of `n` cells, `none` when `i` is out of
range. -/
def addChecked (n : Int) (h : Heap) (p : Ptr) (i : Int) (v : ℚ) : Option Heap :=
  if inGrid n i then some (addCell h p i v) else none

/-- Body of the one-dimensional `step` without `_STEP_ALTERNATIVE`, bounds-checked. -/
def body1DChecked (n : Int) (read_buffer write_buffer : Ptr) (i : Int) (h : Heap) :
    Option Heap := do
  let c ← readChecked n h read_buffer (getOffset1 i)
  let e ← readChecked n h read_buffer (getOffset1 (i + 1))
  let f ← readChecked n h read_buffer (getOffset1 (i - 1))
  let c2 ← readChecked n h read_buffer (getOffset1 i)
  writeChecked n h write_buffer (getOffset1 i) (c + (DIFFUSE_FACTOR * (e + f - 2 * c2)))

/-- One-dimensional `step` without `_STEP_ALTERNATIVE`, bounds-checked. -/
def step1DChecked (n D : Int) (read_buffer write_buffer : Ptr) (h : Heap) : Option Heap :=
  forRange 1 (D - 1) (fun i o => o.bind (body1DChecked n read_buffer write_buffer i)) (some h)

/-- Body of the one-dimensional `step` with `_STEP_ALTERNATIVE`, bounds-checked. -/
def altBody1DChecked (n : Int) (read_buffer write_buffer : Ptr) (i : Int) (h : Heap) :
    Option Heap := do
  let c ← readChecked n h read_buffer (getOffset1 i)
  let c2 ← readChecked n h read_buffer (getOffset1 i)
  let h1 ← addChecked n h write_buffer (getOffset1 i) (c - c2 * 2 * DIFFUSE_FACTOR)
  let c3 ← readChecked n h1 read_buffer (getOffset1 i)
  let temp := c3 * DIFFUSE_FACTOR
  let h2 ← addChecked n h1 write_buffer (getOffset1 (i + 1)) temp
  addChecked n h2 write_buffer (getOffset1 (i - 1)) temp

/-- One-dimensional `step` with `_STEP_ALTERNATIVE`, bounds-checked. -/
def stepAlt1DChecked (n D : Int) (read_buffer write_buffer : Ptr) (h : Heap) : Option Heap :=
  forRange 1 (D - 1)
    (fun i o => o.bind (altBody1DChecked n read_buffer write_buffer i)) (some h)

/-- Body of the two-dimensional `step` without `_STEP_ALTERNATIVE`, bounds-checked. -/
def body2DChecked (n D : Int) (read_buffer write_buffer : Ptr) (i j : Int) (h : Heap) :
    Option Heap := do
  let c ← readChecked n h read_buffer (getOffset2 D i j)
  let e ← readChecked n h read_buffer (getOffset2 D (i + 1) j)
  let f ← readChecked n h read_buffer (getOffset2 D (i - 1) j)
  let g ← readChecked n h read_buffer (getOffset2 D i (j + 1))
  let k ← readChecked n h read_buffer (getOffset2 D i (j - 1))
  let c2 ← readChecked n h read_buffer (getOffset2 D i j)
  writeChecked n h write_buffer (getOffset2 D i j)
    (c + (DIFFUSE_FACTOR * (e + f + g + k - 4 * c2)))

/-- Two-dimensional `step` without `_STEP_ALTERNATIVE`, bounds-checked. -/
def step2DChecked (n D : Int) (read_buffer write_buffer : Ptr) (h : Heap) : Option Heap :=
  forRange 1 (D - 1) (fun i o =>
    forRange 1 (D - 1)
      (fun j o => o.bind (body2DChecked n D read_buffer write_buffer i j)) o) (some h)

/-- Body of the two-dimensional `step` with `_STEP_ALTERNATIVE`, bounds-checked. -/
def altBody2DChecked (n D : Int) (read_buffer write_buffer : Ptr) (i j : Int) (h : Heap) :
    Option Heap := do
  let celula ← readChecked n h read_buffer (getOffset2 D i j)
  let h1 ← addChecked n h write_buffer (getOffset2 D i j)
    (celula - (celula * 4 * DIFFUSE_FACTOR))
  let temp := celula * DIFFUSE_FACTOR
  let h2 ← addChecked n h1 write_buffer (getOffset2 D (i + 1) j) temp
  let h3 ← addChecked n h2 write_buffer (getOffset2 D (i - 1) j) temp
  let h4 ← addChecked n h3 write_buffer (getOffset2 D i (j + 1)) temp
  addChecked n h4 write_buffer (getOffset2 D i (j - 1)) temp

/-- Two-dimensional `step` with `_STEP_ALTERNATIVE`, bounds-checked. -/
def stepAlt2DChecked (n D : Int) (read_buffer write_buffer : Ptr) (h : Heap) : Option Heap :=
  forRange 1 (D - 1) (fun i o =>
    forRange 1 (D - 1)
      (fun j o => o.bind (altBody2DChecked n D read_buffer write_buffer i j)) o) (some h)

/-- Body of the three-dimensional `step` without `_STEP_ALTERNATIVE`, bounds-checked. -/
def body3DChecked (n D : Int) (read_buffer write_buffer : Ptr) (i j k : Int) (h : Heap) :
    Option Heap := do
  let c ← readChecked n h read_buffer (getOffset3 D i j k)
  let e ← readChecked n h read_buffer (getOffset3 D (i + 1) j k)
  let f ← readChecked n h read_buffer (getOffset3 D (i - 1) j k)
  let g ← readChecked n h read_buffer (getOffset3 D i (j + 1) k)
  let l ← readChecked n h read_buffer (getOffset3 D i (j - 1) k)
  let m ← readChecked n h read_buffer (getOffset3 D i j (k - 1))
  let q ← readChecked n h read_buffer (getOffset3 D i j (k + 1))
  let c2 ← readChecked n h read_buffer (getOffset3 D i j k)
  writeChecked n h write_buffer (getOffset3 D i j k)
    (c + (DIFFUSE_FACTOR * (e + f + g + l + m + q - 6 * c2)))

/-- Three-dimensional `step` without `_STEP_ALTERNATIVE`, bounds-checked. -/
def step3DChecked (n D : Int) (read_buffer write_buffer : Ptr) (h : Heap) : Option Heap :=
  forRange 1 (D - 1) (fun i o =>
    forRange 1 (D - 1) (fun j o =>
      forRange 1 (D - 1)
        (fun k o => o.bind (body3DChecked n D read_buffer write_buffer i j k)) o) o) (some h)

/-- Body of the three-dimensional `step` with `_STEP_ALTERNATIVE`, bounds-checked. -/
def altBody3DChecked (n D : Int) (read_buffer write_buffer : Ptr) (i j k : Int) (h : Heap) :
    Option Heap := do
  let celula ← readChecked n h read_buffer (getOffset3 D i j k)
  let h1 ← addChecked n h write_buffer (getOffset3 D i j k)
    (celula - (celula * 6 * DIFFUSE_FACTOR))
  let temp := celula * DIFFUSE_FACTOR
  let h2 ← addChecked n h1 write_buffer (getOffset3 D (i + 1) j k) temp
  let h3 ← addChecked n h2 write_buffer (getOffset3 D (i - 1) j k) temp
  let h4 ← addChecked n h3 write_buffer (getOffset3 D i (j + 1) k) temp
  let h5 ← addChecked n h4 write_buffer (getOffset3 D i (j - 1) k) temp
  let h6 ← addChecked n h5 write_buffer (getOffset3 D i j (k + 1)) temp
  addChecked n h6 write_buffer (getOffset3 D i j (k - 1)) temp

/-- Three-dimensional `step` with `_STEP_ALTERNATIVE`, bounds-checked. -/
def stepAlt3DChecked (n D : Int) (read_buffer write_buffer : Ptr) (h : Heap) : Option Heap :=
  forRange 1 (D - 1) (fun i o =>
    forRange 1 (D - 1) (fun j o =>
      forRange 1 (D - 1)
        (fun k o => o.bind (altBody3DChecked n D read_buffer write_buffer i j k)) o) o)
    (some h)

/-- The `step` function the configuration compiles, bounds-checked against buffers of `n`
cells: `none` as soon as one index read or written is outside `[0, n)`. -/
def stepChecked (n : Int) (cfg : Config) (read_buffer write_buffer : Ptr) (h : Heap) :
    Option Heap :=
  match cfg.dimension, cfg.STEP_ALTERNATIVE with
  | .d1, false => step1DChecked n cfg.DIM read_buffer write_buffer h
  | .d1, true => stepAlt1DChecked n cfg.DIM read_buffer write_buffer h
  | .d2, false => step2DChecked n cfg.DIM read_buffer write_buffer h
  | .d2, true => stepAlt2DChecked n cfg.DIM read_buffer write_buffer h
  | .d3, false => step3DChecked n cfg.DIM read_buffer write_buffer h
  | .d3, true => stepAlt3DChecked n cfg.DIM read_buffer write_buffer h

/-- The seeding store of `main` (lines 275-283), bounds-checked against `SIZE` cells. -/
def seedChecked (cfg : Config) (h : Heap) (p : Ptr) : Option Heap :=
  writeChecked (SIZE cfg) h p (seedOffset cfg) (seedValue cfg)

/-- Two buffers hold the same value in each of their first `n` cells. -/
def agree (n : Int) (a b : Buffer) : Prop := ∀ p, inGrid n p → a p = b p

/-- The configuration `cfg` with its offset layout replaced: `none` for no `_OFFSET_BUFFER`,
`some k` for `_OFFSET_BUFFER` with `_OFFSET_BUFFER_SIZE=k`. -/
def withOffset (cfg : Config) (o : Option Int) : Config :=
  { cfg with OFFSET_BUFFER := o }

/-- The state of `main` at the end of its loop when the loop makes `n` rounds: after the
allocation (the two `malloc` calls returning `m0` and `m1`), the zero-fill and seeding, and
the `n` rounds, before the release. -/
def stateAfterLoop (cfg : Config) (n : Nat) (m0 m1 : Ptr) (h : Heap) : MainState :=
  afterIterations cfg n (initBuffers cfg (allocate cfg m0 m1 h))

/-- The value a 32-bit two's-complement `int` holds when the exact result of an operation is
`v`: `v` itself when `-2^31 ≤ v < 2^31`, and otherwise the one integer of that range that
differs from `v` by a multiple of `2^32`. -/
def wrapInt (v : Int) : Int := (v + 2147483648) % 4294967296 - 2147483648

/-- The `int` product `a * b`. -/
def mulInt (a b : Int) : Int := wrapInt (a * b)

/-- The `int` sum `a + b`. -/
def addInt (a b : Int) : Int := wrapInt (a + b)

/-- Two-dimensional `getOffset` as the machine computes it: `(x*_DIM) + y` in `int`. -/
def getOffset2I32 (D : Int) (x y : Int) : Int := addInt (mulInt x D) y

/-- Three-dimensional `getOffset` as the machine computes it: `(x*_DIM*_DIM) + y*_DIM + z`
in `int`, the products and sums taken in the order C gives them. -/
def getOffset3I32 (D : Int) (x y z : Int) : Int :=
  addInt (addInt (mulInt (mulInt x D) D) (mulInt y D)) z

/-- Body of the two-dimensional `step` without `_STEP_ALTERNATIVE`, its indices computed in
`int`. -/
def body2DI32 (D : Int) (read_buffer write_buffer : Ptr) (i j : Int) (h : Heap) : Heap :=
  writeCell h write_buffer (getOffset2I32 D i j)
    (readCell h read_buffer (getOffset2I32 D i j) +
      (DIFFUSE_FACTOR *
        (readCell h read_buffer (getOffset2I32 D (i + 1) j) +
          readCell h read_buffer (getOffset2I32 D (i - 1) j) +
          readCell h read_buffer (getOffset2I32 D i (j + 1)) +
          readCell h read_buffer (getOffset2I32 D i (j - 1)) -
          4 * readCell h read_buffer (getOffset2I32 D i j))))

/-- Two-dimensional `step` without `_STEP_ALTERNATIVE`, its indices computed in `int`. -/
def step2DI32 (D : Int) (read_buffer write_buffer : Ptr) (h : Heap) : Heap :=
  forRange 1 (D - 1) (fun i h =>
    forRange 1 (D - 1) (fun j h => body2DI32 D read_buffer write_buffer i j h) h) h

/-- Body of the two-dimensional `step` with `_STEP_ALTERNATIVE`, its indices computed in
`int`. -/
def altBody2DI32 (D : Int) (read_buffer write_buffer : Ptr) (i j : Int) (h : Heap) : Heap :=
  let celula := readCell h read_buffer (getOffset2I32 D i j)
  let h1 := addCell h write_buffer (getOffset2I32 D i j)
    (celula - (celula * 4 * DIFFUSE_FACTOR))
  let temp := celula * DIFFUSE_FACTOR
  let h2 := addCell h1 write_buffer (getOffset2I32 D (i + 1) j) temp
  let h3 := addCell h2 write_buffer (getOffset2I32 D (i - 1) j) temp
  let h4 := addCell h3 write_buffer (getOffset2I32 D i (j + 1)) temp
  addCell h4 write_buffer (getOffset2I32 D i (j - 1)) temp

/-- Two-dimensional `step` with `_STEP_ALTERNATIVE`, its indices computed in `int`. -/
def stepAlt2DI32 (D : Int) (read_buffer write_buffer : Ptr) (h : Heap) : Heap :=
  forRange 1 (D - 1) (fun i h =>
    forRange 1 (D - 1) (fun j h => altBody2DI32 D read_buffer write_buffer i j h) h) h

/-- Body of the three-dimensional `step` without `_STEP_ALTERNATIVE`, its indices computed
in `int`. -/
def body3DI32 (D : Int) (read_buffer write_buffer : Ptr) (i j k : Int) (h : Heap) : Heap :=
  writeCell h write_buffer (getOffset3I32 D i j k)
    (readCell h read_buffer (getOffset3I32 D i j k) +
      (DIFFUSE_FACTOR *
        (readCell h read_buffer (getOffset3I32 D (i + 1) j k) +
          readCell h read_buffer (getOffset3I32 D (i - 1) j k) +
          readCell h read_buffer (getOffset3I32 D i (j + 1) k) +
          readCell h read_buffer (getOffset3I32 D i (j - 1) k) +
          readCell h read_buffer (getOffset3I32 D i j (k - 1)) +
          readCell h read_buffer (getOffset3I32 D i j (k + 1)) -
          6 * readCell h read_buffer (getOffset3I32 D i j k))))

/-- Three-dimensional `step` without `_STEP_ALTERNATIVE`, its indices computed in `int`. -/
def step3DI32 (D : Int) (read_buffer write_buffer : Ptr) (h : Heap) : Heap :=
  forRange 1 (D - 1) (fun i h =>
    forRange 1 (D - 1) (fun j h =>
      forRange 1 (D - 1) (fun k h => body3DI32 D read_buffer write_buffer i j k h) h) h) h

/-- Body of the three-dimensional `step` with `_STEP_ALTERNATIVE`, its indices computed in
`int`. -/
def altBody3DI32 (D : Int) (read_buffer write_buffer : Ptr) (i j k : Int) (h : Heap) : Heap :=
  let celula := readCell h read_buffer (getOffset3I32 D i j k)
  let h1 := addCell h write_buffer (getOffset3I32 D i j k)
    (celula - (celula * 6 * DIFFUSE_FACTOR))
  let temp := celula * DIFFUSE_FACTOR
  let h2 := addCell h1 write_buffer (getOffset3I32 D (i + 1) j k) temp
  let h3 := addCell h2 write_buffer (getOffset3I32 D (i - 1) j k) temp
  let h4 := addCell h3 write_buffer (getOffset3I32 D i (j + 1) k) temp
  let h5 := addCell h4 write_buffer (getOffset3I32 D i (j - 1) k) temp
  let h6 := addCell h5 write_buffer (getOffset3I32 D i j (k + 1)) temp
  addCell h6 write_buffer (getOffset3I32 D i j (k - 1)) temp

/-- Three-dimensional `step` with `_STEP_ALTERNATIVE`, its indices computed in `int`. -/
def stepAlt3DI32 (D : Int) (read_buffer write_buffer : Ptr) (h : Heap) : Heap :=
  forRange 1 (D - 1) (fun i h =>
    forRange 1 (D - 1) (fun j h =>
      forRange 1 (D - 1) (fun k h => altBody3DI32 D read_buffer write_buffer i j k h) h) h) h

/-- The `step` function the configuration compiles, its indices computed in `int`.  The
one-dimensional `getOffset` does no arithmetic, so the one-dimensional kernels are the ones
above. -/
def stepI32 (cfg : Config) (read_buffer write_buffer : Ptr) (h : Heap) : Heap :=
  match cfg.dimension, cfg.STEP_ALTERNATIVE with
  | .d1, false => step1D cfg.DIM read_buffer write_buffer h
  | .d1, true => stepAlt1D cfg.DIM read_buffer write_buffer h
  | .d2, false => step2DI32 cfg.DIM read_buffer write_buffer h
  | .d2, true => stepAlt2DI32 cfg.DIM read_buffer write_buffer h
  | .d3, false => step3DI32 cfg.DIM read_buffer write_buffer h
  | .d3, true => stepAlt3DI32 cfg.DIM read_buffer write_buffer h

/-- The index `main` seeds, `getOffset(_DIM / 2, ...)`, computed in `int`. -/
def seedOffsetI32 (cfg : Config) : Int :=
  match cfg.dimension with
  | .d1 => getOffset1 (cfg.DIM.tdiv 2)
  | .d2 => getOffset2I32 cfg.DIM (cfg.DIM.tdiv 2) (cfg.DIM.tdiv 2)
  | .d3 => getOffset3I32 cfg.DIM (cfg.DIM.tdiv 2) (cfg.DIM.tdiv 2) (cfg.DIM.tdiv 2)

/-- Lines 270-283 with the seeded index computed in `int`: both buffers are zero-filled and
`buffer[0]` is seeded. -/
def initBuffersI32 (cfg : Config) (s : MainState) : MainState :=
  let h1 := memset s.heap s.buffer0 (SIZE cfg)
  let h2 := memset h1 s.buffer1 (SIZE cfg)
  let h3 := writeCell h2 s.buffer0 (seedOffsetI32 cfg) (seedValue cfg)
  { s with
    heap := h3
    trace := s.trace ++ [Event.memset s.buffer0 (SIZE cfg), Event.memset s.buffer1 (SIZE cfg),
      Event.seed s.buffer0 (seedOffsetI32 cfg)] }

/-- Lines 291-294 with the kernel indices computed in `int`: one round of the loop, a kernel
step and the swap of the two pointers. -/
def iterationI32 (cfg : Config) (s : MainState) : MainState :=
  let h1 := stepI32 cfg s.buffer0 s.buffer1 s.heap
  let aux := s.buffer0
  { buffer0 := s.buffer1
    buffer1 := aux
    heap := h1
    trace := s.trace ++ [Event.step s.buffer0 s.buffer1] }

/-- Lines 286-295 with the kernel indices computed in `int`: the loop of `main`. -/
def mainLoopI32 (cfg : Config) (s : MainState) : MainState :=
  forRange 0 cfg.ITERATIONS (fun _ s => iterationI32 cfg s) s

/-- The state of `main` after `n` rounds of its loop, started in state `s`, the kernel
indices computed in `int`. -/
def afterIterationsI32 (cfg : Config) (n : Nat) (s : MainState) : MainState :=
  mainLoopI32 { cfg with ITERATIONS := (n : Int) } s

/-- Body of the two-dimensional `step` without `_STEP_ALTERNATIVE`, bounds-checked, its
indices computed in `int`. -/
def body2DCheckedI32 (n D : Int) (read_buffer write_buffer : Ptr) (i j : Int) (h : Heap) :
    Option Heap := do
  let c ← readChecked n h read_buffer (getOffset2I32 D i j)
  let e ← readChecked n h read_buffer (getOffset2I32 D (i + 1) j)
  let f ← readChecked n h read_buffer (getOffset2I32 D (i - 1) j)
  let g ← readChecked n h read_buffer (getOffset2I32 D i (j + 1))
  let k ← readChecked n h read_buffer (getOffset2I32 D i (j - 1))
  let c2 ← readChecked n h read_buffer (getOffset2I32 D i j)
  writeChecked n h write_buffer (getOffset2I32 D i j)
    (c + (DIFFUSE_FACTOR * (e + f + g + k - 4 * c2)))

/-- Two-dimensional `step` without `_STEP_ALTERNATIVE`, bounds-checked, its indices
computed in `int`. -/
def step2DCheckedI32 (n D : Int) (read_buffer write_buffer : Ptr) (h : Heap) : Option Heap :=
  forRange 1 (D - 1) (fun i o =>
    forRange 1 (D - 1)
      (fun j o => o.bind (body2DCheckedI32 n D read_buffer write_buffer i j)) o) (some h)

/-- Body of the two-dimensional `step` with `_STEP_ALTERNATIVE`, bounds-checked, its
indices computed in `int`. -/
def altBody2DCheckedI32 (n D : Int) (read_buffer write_buffer : Ptr) (i j : Int) (h : Heap) :
    Option Heap := do
  let celula ← readChecked n h read_buffer (getOffset2I32 D i j)
  let h1 ← addChecked n h write_buffer (getOffset2I32 D i j)
    (celula - (celula * 4 * DIFFUSE_FACTOR))
  let temp := celula * DIFFUSE_FACTOR
  let h2 ← addChecked n h1 write_buffer (getOffset2I32 D (i + 1) j) temp
  let h3 ← addChecked n h2 write_buffer (getOffset2I32 D (i - 1) j) temp
  let h4 ← addChecked n h3 write_buffer (getOffset2I32 D i (j + 1)) temp
  addChecked n h4 write_buffer (getOffset2I32 D i (j - 1)) temp

/-- Two-dimensional `step` with `_STEP_ALTERNATIVE`, bounds-checked, its indices computed in
`int`. -/
def stepAlt2DCheckedI32 (n D : Int) (read_buffer write_buffer : Ptr) (h : Heap) : Option Heap :=
  forRange 1 (D - 1) (fun i o =>
    forRange 1 (D - 1)
      (fun j o => o.bind (altBody2DCheckedI32 n D read_buffer write_buffer i j)) o) (some h)

/-- Body of the three-dimensional `step` without `_STEP_ALTERNATIVE`, bounds-checked, its
indices computed in `int`. -/
def body3DCheckedI32 (n D : Int) (read_buffer write_buffer : Ptr) (i j k : Int) (h : Heap) :
    Option Heap := do
  let c ← readChecked n h read_buffer (getOffset3I32 D i j k)
  let e ← readChecked n h read_buffer (getOffset3I32 D (i + 1) j k)
  let f ← readChecked n h read_buffer (getOffset3I32 D (i - 1) j k)
  let g ← readChecked n h read_buffer (getOffset3I32 D i (j + 1) k)
  let l ← readChecked n h read_buffer (getOffset3I32 D i (j - 1) k)
  let m ← readChecked n h read_buffer (getOffset3I32 D i j (k - 1))
  let q ← readChecked n h read_buffer (getOffset3I32 D i j (k + 1))
  let c2 ← readChecked n h read_buffer (getOffset3I32 D i j k)
  writeChecked n h write_buffer (getOffset3I32 D i j k)
    (c + (DIFFUSE_FACTOR * (e + f + g + l + m + q - 6 * c2)))

/-- Three-dimensional `step` without `_STEP_ALTERNATIVE`, bounds-checked, its indices
computed in `int`. -/
def step3DCheckedI32 (n D : Int) (read_buffer write_buffer : Ptr) (h : Heap) : Option Heap :=
  forRange 1 (D - 1) (fun i o =>
    forRange 1 (D - 1) (fun j o =>
      forRange 1 (D - 1)
        (fun k o => o.bind (body3DCheckedI32 n D read_buffer write_buffer i j k)) o) o) (some h)

/-- Body of the three-dimensional `step` with `_STEP_ALTERNATIVE`, bounds-checked, its
indices computed in `int`. -/
def altBody3DCheckedI32 (n D : Int) (read_buffer write_buffer : Ptr) (i j k : Int) (h : Heap) :
    Option Heap := do
  let celula ← readChecked n h read_buffer (getOffset3I32 D i j k)
  let h1 ← addChecked n h write_buffer (getOffset3I32 D i j k)
    (celula - (celula * 6 * DIFFUSE_FACTOR))
  let temp := celula * DIFFUSE_FACTOR
  let h2 ← addChecked n h1 write_buffer (getOffset3I32 D (i + 1) j k) temp
  let h3 ← addChecked n h2 write_buffer (getOffset3I32 D (i - 1) j k) temp
  let h4 ← addChecked n h3 write_buffer (getOffset3I32 D i (j + 1) k) temp
  let h5 ← addChecked n h4 write_buffer (getOffset3I32 D i (j - 1) k) temp
  let h6 ← addChecked n h5 write_buffer (getOffset3I32 D i j (k + 1)) temp
  addChecked n h6 write_buffer (getOffset3I32 D i j (k - 1)) temp

/-- Three-dimensional `step` with `_STEP_ALTERNATIVE`, bounds-checked, its indices computed
in `int`. -/
def stepAlt3DCheckedI32 (n D : Int) (read_buffer write_buffer : Ptr) (h : Heap) : Option Heap :=
  forRange 1 (D - 1) (fun i o =>
    forRange 1 (D - 1) (fun j o =>
      forRange 1 (D - 1)
        (fun k o => o.bind (altBody3DCheckedI32 n D read_buffer write_buffer i j k)) o) o)
    (some h)

/-- The `step` function the configuration compiles, its indices computed in `int` and
bounds-checked against buffers of `n` cells: `none` as soon as one index read or written is
outside `[0, n)`. -/
def stepCheckedI32 (n : Int) (cfg : Config) (read_buffer write_buffer : Ptr) (h : Heap) :
    Option Heap :=
  match cfg.dimension, cfg.STEP_ALTERNATIVE with
  | .d1, false => step1DChecked n cfg.DIM read_buffer write_buffer h
  | .d1, true => stepAlt1DChecked n cfg.DIM read_buffer write_buffer h
  | .d2, false => step2DCheckedI32 n cfg.DIM read_buffer write_buffer h
  | .d2, true => stepAlt2DCheckedI32 n cfg.DIM read_buffer write_buffer h
  | .d3, false => step3DCheckedI32 n cfg.DIM read_buffer write_buffer h
  | .d3, true => stepAlt3DCheckedI32 n cfg.DIM read_buffer write_buffer h

/-- The seeding store of `main` (lines 275-283), its index computed in `int` and
bounds-checked against `SIZE` cells. -/
def seedCheckedI32 (cfg : Config) (h : Heap) (p : Ptr) : Option Heap :=
  writeChecked (SIZE cfg) h p (seedOffsetI32 cfg) (seedValue cfg)

/-! # Theorems -/

/-! ## Rules for loops -/

theorem forLoop_inv {σ : Type} (body : Int → σ → σ) (I : σ → Prop) :
    ∀ (n : Nat) (lo : Int) (s : σ),
      (∀ i s, lo ≤ i → i < lo + n → I s → I (body i s)) → I s → I (forLoop body n lo s) := by
  intro n
  induction n with
  | zero => intro lo s _ hs; exact hs
  | succ n ih =>
    intro lo s hb hs
    simp only [forLoop]
    apply ih
    · intro i t h1 h2 ht
      exact hb i t (by omega) (by push_cast; omega) ht
    · exact hb lo s le_rfl (by push_cast; omega) hs

/-- An invariant kept by every round of a loop holds when the loop ends. -/
theorem forRange_inv {σ : Type} {lo hi : Int} {body : Int → σ → σ} (I : σ → Prop)
    (hb : ∀ i s, lo ≤ i → i < hi → I s → I (body i s)) {s : σ} (hs : I s) :
    I (forRange lo hi body s) := by
  unfold forRange
  apply forLoop_inv body I _ _ _ _ hs
  intro i t h1 h2 ht
  exact hb i t h1 (by omega) ht

theorem forLoop_set {σ : Type} (body : Int → σ → σ) (I T : σ → Prop) (i0 : Int) :
    ∀ (n : Nat) (lo : Int) (s : σ), lo ≤ i0 → i0 < lo + n →
      (∀ i s, lo ≤ i → i < lo + n → I s → I (body i s)) →
      (∀ s, I s → T (body i0 s)) →
      (∀ i s, lo ≤ i → i < lo + n → i ≠ i0 → I s → T s → T (body i s)) →
      I s → T (forLoop body n lo s) := by
  intro n
  induction n with
  | zero => intro lo s h0 h1; simp at h1; omega
  | succ n ih =>
    intro lo s h0 h1 hI hset hkeep hs
    simp only [forLoop]
    by_cases hlo : lo = i0
    · subst hlo
      have hinv := forLoop_inv body (fun t => I t ∧ T t) n (lo + 1) (body lo s)
        (fun i t h2 h3 ht =>
          ⟨hI i t (by omega) (by push_cast; omega) ht.1,
            hkeep i t (by omega) (by push_cast; omega) (by omega) ht.1 ht.2⟩)
        ⟨hI lo s le_rfl (by push_cast; omega) hs, hset s hs⟩
      exact hinv.2
    · apply ih (lo + 1) (body lo s) (by omega) (by push_cast at h1; omega)
      · intro i t h2 h3 ht
        exact hI i t (by omega) (by push_cast; omega) ht
      · exact hset
      · intro i t h2 h3 hne ht hT
        exact hkeep i t (by omega) (by push_cast; omega) hne ht hT
      · exact hI lo s le_rfl (by push_cast; omega) hs

/-- If round `i0` of a loop establishes `T` and every other round keeps it, `T` holds
when the loop ends (`I` is an invariant the rounds may rely on). -/
theorem forRange_set {σ : Type} {lo hi : Int} {body : Int → σ → σ} (I T : σ → Prop)
    (i0 : Int) (h0 : lo ≤ i0) (h1 : i0 < hi)
    (hI : ∀ i s, lo ≤ i → i < hi → I s → I (body i s))
    (hset : ∀ s, I s → T (body i0 s))
    (hkeep : ∀ i s, lo ≤ i → i < hi → i ≠ i0 → I s → T s → T (body i s))
    {s : σ} (hs : I s) : T (forRange lo hi body s) := by
  unfold forRange
  apply forLoop_set body I T i0 _ lo s h0 (by omega) _ hset _ hs
  · intro i t h2 h3 ht
    exact hI i t h2 (by omega) ht
  · intro i t h2 h3 hne ht hT
    exact hkeep i t h2 (by omega) hne ht hT

theorem Ico_succ_left_eq (lo : Int) (n : Nat) :
    Finset.Ico lo (lo + (n + 1 : Nat)) = insert lo (Finset.Ico (lo + 1) (lo + 1 + n)) := by
  ext x
  simp only [Finset.mem_Ico, Finset.mem_insert]
  push_cast
  omega

theorem forLoop_sum {σ : Type} (body : Int → σ → σ) (I : σ → Prop) (obs : σ → ℚ)
    (d : Int → ℚ) :
    ∀ (n : Nat) (lo : Int) (s : σ),
      (∀ i s, lo ≤ i → i < lo + n → I s → I (body i s) ∧ obs (body i s) = obs s + d i) →
      I s → obs (forLoop body n lo s) = obs s + ∑ i ∈ Finset.Ico lo (lo + n), d i := by
  intro n
  induction n with
  | zero => intro lo s _ _; simp [forLoop]
  | succ n ih =>
    intro lo s hb hs
    simp only [forLoop]
    have hlo := hb lo s le_rfl (by push_cast; omega) hs
    rw [ih (lo + 1) (body lo s)
      (fun i t h1 h2 ht => hb i t (by omega) (by push_cast; omega) ht) hlo.1, hlo.2,
      Ico_succ_left_eq, Finset.sum_insert (by simp)]
    ring

/-- If every round of a loop adds `d i` to an observed quantity, the loop adds the sum of
the `d i` over its range (`I` is an invariant the rounds may rely on). -/
theorem forRange_sum {σ : Type} {lo hi : Int} {body : Int → σ → σ} (I : σ → Prop)
    (obs : σ → ℚ) (d : Int → ℚ)
    (hb : ∀ i s, lo ≤ i → i < hi → I s → I (body i s) ∧ obs (body i s) = obs s + d i)
    {s : σ} (hs : I s) :
    obs (forRange lo hi body s) = obs s + ∑ i ∈ Finset.Ico lo hi, d i := by
  unfold forRange
  rw [forLoop_sum body I obs d _ lo s _ hs]
  · by_cases h : lo ≤ hi
    · rw [Int.toNat_of_nonneg (by omega)]
      congr 2
      ring_nf
    · have h1 : (hi - lo).toNat = 0 := by omega
      have h2 : hi ≤ lo := by omega
      rw [h1, Finset.Ico_eq_empty_of_le h2, Finset.Ico_eq_empty_of_le (by simp)]
  · intro i t h1 h2 ht
    exact hb i t h1 (by omega) ht

/-! ## Addressing -/

theorem getOffset2_inj {D x y x' y' : Int} (hy : inGrid D y) (hy' : inGrid D y')
    (h : getOffset2 D x y = getOffset2 D x' y') : x = x' ∧ y = y' := by
  unfold getOffset2 at h
  obtain ⟨hy0, hy1⟩ := hy
  obtain ⟨hy0', hy1'⟩ := hy'
  have hx : x = x' := by
    rcases lt_trichotomy x x' with hlt | heq | hgt
    · exfalso
      nlinarith
    · exact heq
    · exfalso
      nlinarith
  subst hx
  exact ⟨rfl, by linarith⟩

theorem getOffset2_inGrid {D x y : Int} (hx : inGrid D x) (hy : inGrid D y) :
    inGrid (D * D) (getOffset2 D x y) := by
  unfold getOffset2
  obtain ⟨hx0, hx1⟩ := hx
  obtain ⟨hy0, hy1⟩ := hy
  constructor
  · nlinarith
  · nlinarith

theorem getOffset3_eq (D x y z : Int) :
    getOffset3 D x y z = getOffset2 D (getOffset2 D x y) z := by
  unfold getOffset3 getOffset2
  ring

theorem getOffset3_inj {D x y z x' y' z' : Int} (hy : inGrid D y) (hy' : inGrid D y')
    (hz : inGrid D z) (hz' : inGrid D z')
    (h : getOffset3 D x y z = getOffset3 D x' y' z') : x = x' ∧ y = y' ∧ z = z' := by
  rw [getOffset3_eq, getOffset3_eq] at h
  obtain ⟨h1, h2⟩ := getOffset2_inj hz hz' h
  obtain ⟨h3, h4⟩ := getOffset2_inj hy hy' h1
  exact ⟨h3, h4, h2⟩

theorem getOffset3_inGrid {D x y z : Int} (hx : inGrid D x) (hy : inGrid D y)
    (hz : inGrid D z) : inGrid (D * D * D) (getOffset3 D x y z) := by
  rw [getOffset3_eq]
  have h1 := getOffset2_inGrid hx hy
  unfold getOffset2 inGrid at *
  obtain ⟨h2, h3⟩ := h1
  obtain ⟨hz0, hz1⟩ := hz
  constructor
  · nlinarith
  · nlinarith

theorem getOffset2_surj {D p : Int} (hD : 0 < D) (hp : inGrid (D * D) p) :
    ∃ x y, inGrid D x ∧ inGrid D y ∧ getOffset2 D x y = p := by
  obtain ⟨hp0, hp1⟩ := hp
  refine ⟨p / D, p % D, ⟨Int.ediv_nonneg hp0 hD.le, ?_⟩,
    ⟨Int.emod_nonneg p hD.ne', Int.emod_lt_of_pos p hD⟩, ?_⟩
  · exact Int.ediv_lt_of_lt_mul hD hp1
  · unfold getOffset2
    rw [mul_comm]
    exact Int.ediv_add_emod p D

theorem getOffset3_surj {D p : Int} (hD : 0 < D) (hp : inGrid (D * D * D) p) :
    ∃ x y z, inGrid D x ∧ inGrid D y ∧ inGrid D z ∧ getOffset3 D x y z = p := by
  obtain ⟨hp0, hp1⟩ := hp
  have hq : inGrid (D * D) (p / D) :=
    ⟨Int.ediv_nonneg hp0 hD.le, Int.ediv_lt_of_lt_mul hD hp1⟩
  obtain ⟨x, y, hx, hy, hxy⟩ := getOffset2_surj hD hq
  refine ⟨x, y, p % D, hx, hy, ⟨Int.emod_nonneg p hD.ne', Int.emod_lt_of_pos p hD⟩, ?_⟩
  rw [getOffset3_eq, hxy]
  unfold getOffset2
  rw [mul_comm]
  exact Int.ediv_add_emod p D

/-- Claim C2.  For every extent `D ≥ 1`, each `getOffset` is injective on the coordinates
whose components all lie in `[0, D)`, sends them into `[0, D^N)`, and reaches every index
of `[0, D^N)`, for `N = 1`, `2` and `3`. -/
theorem getOffset_bijection (D : Int) (hD : 1 ≤ D) :
    ((∀ x x', inGrid D x → inGrid D x' → getOffset1 x = getOffset1 x' → x = x') ∧
      (∀ x, inGrid D x → 0 ≤ getOffset1 x ∧ getOffset1 x < D ^ 1) ∧
      (∀ p, 0 ≤ p → p < D ^ 1 → ∃ x, inGrid D x ∧ getOffset1 x = p)) ∧
    ((∀ x y x' y', inGrid D x → inGrid D y → inGrid D x' → inGrid D y' →
        getOffset2 D x y = getOffset2 D x' y' → x = x' ∧ y = y') ∧
      (∀ x y, inGrid D x → inGrid D y →
        0 ≤ getOffset2 D x y ∧ getOffset2 D x y < D ^ 2) ∧
      (∀ p, 0 ≤ p → p < D ^ 2 → ∃ x y, inGrid D x ∧ inGrid D y ∧ getOffset2 D x y = p)) ∧
    ((∀ x y z x' y' z', inGrid D x → inGrid D y → inGrid D z →
        inGrid D x' → inGrid D y' → inGrid D z' →
        getOffset3 D x y z = getOffset3 D x' y' z' → x = x' ∧ y = y' ∧ z = z') ∧
      (∀ x y z, inGrid D x → inGrid D y → inGrid D z →
        0 ≤ getOffset3 D x y z ∧ getOffset3 D x y z < D ^ 3) ∧
      (∀ p, 0 ≤ p → p < D ^ 3 →
        ∃ x y z, inGrid D x ∧ inGrid D y ∧ inGrid D z ∧ getOffset3 D x y z = p)) := by
  have hpos : 0 < D := by omega
  refine ⟨⟨?_, ?_, ?_⟩, ⟨?_, ?_, ?_⟩, ⟨?_, ?_, ?_⟩⟩
  · intro x x' _ _ h
    exact h
  · intro x hx
    rw [pow_one]
    exact hx
  · intro p hp0 hp1
    rw [pow_one] at hp1
    exact ⟨p, ⟨hp0, hp1⟩, rfl⟩
  · intro x y x' y' _ hy _ hy' h
    exact getOffset2_inj hy hy' h
  · intro x y hx hy
    rw [pow_two]
    exact getOffset2_inGrid hx hy
  · intro p hp0 hp1
    rw [pow_two] at hp1
    exact getOffset2_surj hpos ⟨hp0, hp1⟩
  · intro x y z x' y' z' _ hy hz _ hy' hz' h
    exact getOffset3_inj hy hy' hz hz' h
  · intro x y z hx hy hz
    have h3 : D ^ 3 = D * D * D := by ring
    rw [h3]
    exact getOffset3_inGrid hx hy hz
  · intro p hp0 hp1
    have h3 : D ^ 3 = D * D * D := by ring
    rw [h3] at hp1
    exact getOffset3_surj hpos ⟨hp0, hp1⟩

/-- Witness for claim C2, at extent 3. -/
theorem getOffset_bijection_witness :
    (1 : Int) ≤ 3 ∧
    ((∀ x x', inGrid 3 x → inGrid 3 x' → getOffset1 x = getOffset1 x' → x = x') ∧
      (∀ x, inGrid 3 x → 0 ≤ getOffset1 x ∧ getOffset1 x < 3 ^ 1) ∧
      (∀ p, 0 ≤ p → p < 3 ^ 1 → ∃ x, inGrid 3 x ∧ getOffset1 x = p)) :=
  ⟨by decide, (getOffset_bijection 3 (by decide)).1⟩

/-! ## Cells -/

theorem writeCell_other_ptr (h : Heap) (p : Ptr) (i : Int) (v : ℚ) {q : Ptr} (hq : q ≠ p) :
    writeCell h p i v q = h q := by
  unfold writeCell
  exact Function.update_noteq hq _ _

theorem writeCell_apply (h : Heap) (p : Ptr) (i : Int) (v : ℚ) (j : Int) :
    writeCell h p i v p j = if j = i then v else h p j := by
  unfold writeCell
  rw [Function.update_same, Function.update_apply]

theorem addCell_other_ptr (h : Heap) (p : Ptr) (i : Int) (v : ℚ) {q : Ptr} (hq : q ≠ p) :
    addCell h p i v q = h q := by
  unfold addCell
  exact writeCell_other_ptr h p i _ hq

theorem addCell_apply (h : Heap) (p : Ptr) (i : Int) (v : ℚ) (j : Int) :
    addCell h p i v p j = h p j + if j = i then v else 0 := by
  unfold addCell
  rw [writeCell_apply]
  unfold readCell
  split_ifs with hj
  · rw [hj]
  · rw [add_zero]

/-! ## The direct kernels -/

theorem body1D_other_ptr (r w : Ptr) (i : Int) (h : Heap) {q : Ptr} (hq : q ≠ w) :
    body1D r w i h q = h q :=
  writeCell_other_ptr h w _ _ hq

theorem body1D_apply (r w : Ptr) (i : Int) (h : Heap) (p : Int) :
    body1D r w i h w p = if p = getOffset1 i then direct1 (h r) i else h w p := by
  unfold body1D
  rw [writeCell_apply]
  rfl

theorem body2D_other_ptr (D : Int) (r w : Ptr) (i j : Int) (h : Heap) {q : Ptr} (hq : q ≠ w) :
    body2D D r w i j h q = h q :=
  writeCell_other_ptr h w _ _ hq

theorem body2D_apply (D : Int) (r w : Ptr) (i j : Int) (h : Heap) (p : Int) :
    body2D D r w i j h w p = if p = getOffset2 D i j then direct2 D (h r) i j else h w p := by
  unfold body2D
  rw [writeCell_apply]
  rfl

theorem body3D_other_ptr (D : Int) (r w : Ptr) (i j k : Int) (h : Heap) {q : Ptr}
    (hq : q ≠ w) : body3D D r w i j k h q = h q :=
  writeCell_other_ptr h w _ _ hq

theorem body3D_apply (D : Int) (r w : Ptr) (i j k : Int) (h : Heap) (p : Int) :
    body3D D r w i j k h w p =
      if p = getOffset3 D i j k then direct3 D (h r) i j k else h w p := by
  unfold body3D
  rw [writeCell_apply]
  rfl

/-- The bounds of the kernel loops are the interior coordinates. -/
theorem interior_iff (D i : Int) : interior D i ↔ 1 ≤ i ∧ i < D - 1 := by
  unfold interior
  omega

theorem interior_inGrid {D i : Int} (h : interior D i) : inGrid D i := by
  unfold interior at h
  unfold inGrid
  omega

/-- The direct one-dimensional kernel leaves every buffer but the write buffer alone. -/
theorem step1D_other_ptr (D : Int) (r w : Ptr) (h : Heap) {q : Ptr} (hq : q ≠ w) :
    step1D D r w h q = h q := by
  unfold step1D
  apply forRange_inv (fun (t : Heap) => t q = h q) _ rfl
  intro i t _ _ ht
  rw [body1D_other_ptr r w i t hq, ht]

/-- The direct one-dimensional kernel leaves alone every index that is not the offset of an
interior coordinate. -/
theorem step1D_other (D : Int) (r w : Ptr) (h : Heap) (p : Int)
    (hp : ∀ i, interior D i → p ≠ getOffset1 i) : step1D D r w h w p = h w p := by
  unfold step1D
  apply forRange_inv (fun (t : Heap) => t w p = h w p) _ rfl
  intro i t h1 h2 ht
  rw [body1D_apply, if_neg (hp i ((interior_iff D i).2 ⟨h1, h2⟩)), ht]

/-- The direct one-dimensional kernel at an interior coordinate. -/
theorem step1D_interior (D : Int) (r w : Ptr) (h : Heap) (hrw : r ≠ w) (x : Int)
    (hx : interior D x) : step1D D r w h w (getOffset1 x) = direct1 (h r) x := by
  unfold step1D
  rw [interior_iff] at hx
  apply forRange_set (fun (t : Heap) => t r = h r) (fun (t : Heap) => t w (getOffset1 x) = direct1 (h r) x)
    x hx.1 hx.2 _ _ _ rfl
  · intro i t _ _ ht
    rw [body1D_other_ptr r w i t hrw, ht]
  · intro t ht
    rw [body1D_apply, if_pos rfl, ht]
  · intro i t _ _ hne _ hT
    have hoff : getOffset1 x ≠ getOffset1 i := fun e => hne (Eq.symm e)
    rw [body1D_apply, if_neg hoff, hT]

/-- The direct two-dimensional kernel leaves every buffer but the write buffer alone. -/
theorem step2D_other_ptr (D : Int) (r w : Ptr) (h : Heap) {q : Ptr} (hq : q ≠ w) :
    step2D D r w h q = h q := by
  unfold step2D
  apply forRange_inv (fun (t : Heap) => t q = h q) _ rfl
  intro i t _ _ ht
  apply forRange_inv (fun (t : Heap) => t q = h q) _ ht
  intro j u _ _ hu
  rw [body2D_other_ptr D r w i j u hq, hu]

/-- The direct two-dimensional kernel leaves alone every index that is not the offset of an
interior coordinate. -/
theorem step2D_other (D : Int) (r w : Ptr) (h : Heap) (p : Int)
    (hp : ∀ i j, interior D i → interior D j → p ≠ getOffset2 D i j) :
    step2D D r w h w p = h w p := by
  unfold step2D
  apply forRange_inv (fun (t : Heap) => t w p = h w p) _ rfl
  intro i t hi1 hi2 ht
  apply forRange_inv (fun (t : Heap) => t w p = h w p) _ ht
  intro j u hj1 hj2 hu
  rw [body2D_apply,
    if_neg (hp i j ((interior_iff D i).2 ⟨hi1, hi2⟩) ((interior_iff D j).2 ⟨hj1, hj2⟩)), hu]

/-- The direct two-dimensional kernel at an interior coordinate. -/
theorem step2D_interior (D : Int) (r w : Ptr) (h : Heap) (hrw : r ≠ w) (x y : Int)
    (hx : interior D x) (hy : interior D y) :
    step2D D r w h w (getOffset2 D x y) = direct2 D (h r) x y := by
  unfold step2D
  have hyg := interior_inGrid hy
  rw [interior_iff] at hx hy
  have hrow : ∀ i t, t r = h r →
      forRange 1 (D - 1) (fun j h => body2D D r w i j h) t r = h r := by
    intro i t ht
    apply forRange_inv (fun (u : Heap) => u r = h r) _ ht
    intro j u _ _ hu
    rw [body2D_other_ptr D r w i j u hrw, hu]
  apply forRange_set (fun (t : Heap) => t r = h r)
    (fun (t : Heap) => t w (getOffset2 D x y) = direct2 D (h r) x y) x hx.1 hx.2 _ _ _ rfl
  · intro i t _ _ ht
    exact hrow i t ht
  · intro t ht
    apply forRange_set (fun (u : Heap) => u r = h r)
      (fun (u : Heap) => u w (getOffset2 D x y) = direct2 D (h r) x y) y hy.1 hy.2 _ _ _ ht
    · intro j u _ _ hu
      rw [body2D_other_ptr D r w x j u hrw, hu]
    · intro u hu
      rw [body2D_apply, if_pos rfl, hu]
    · intro j u hj1 hj2 hne _ hT
      have hjg : inGrid D j := interior_inGrid ((interior_iff D j).2 ⟨hj1, hj2⟩)
      rw [body2D_apply, if_neg (fun e => hne (getOffset2_inj hyg hjg e).2.symm), hT]
  · intro i t _ _ hne _ hT
    apply forRange_inv (fun (u : Heap) => u w (getOffset2 D x y) = direct2 D (h r) x y) _ hT
    intro j u hj1 hj2 hu
    have hjg : inGrid D j := interior_inGrid ((interior_iff D j).2 ⟨hj1, hj2⟩)
    rw [body2D_apply, if_neg (fun e => hne (getOffset2_inj hyg hjg e).1.symm), hu]

/-- The direct three-dimensional kernel leaves every buffer but the write buffer alone. -/
theorem step3D_other_ptr (D : Int) (r w : Ptr) (h : Heap) {q : Ptr} (hq : q ≠ w) :
    step3D D r w h q = h q := by
  unfold step3D
  apply forRange_inv (fun (t : Heap) => t q = h q) _ rfl
  intro i t _ _ ht
  apply forRange_inv (fun (t : Heap) => t q = h q) _ ht
  intro j u _ _ hu
  apply forRange_inv (fun (t : Heap) => t q = h q) _ hu
  intro k v _ _ hv
  rw [body3D_other_ptr D r w i j k v hq, hv]

/-- The direct three-dimensional kernel leaves alone every index that is not the offset of
an interior coordinate. -/
theorem step3D_other (D : Int) (r w : Ptr) (h : Heap) (p : Int)
    (hp : ∀ i j k, interior D i → interior D j → interior D k → p ≠ getOffset3 D i j k) :
    step3D D r w h w p = h w p := by
  unfold step3D
  apply forRange_inv (fun (t : Heap) => t w p = h w p) _ rfl
  intro i t hi1 hi2 ht
  apply forRange_inv (fun (t : Heap) => t w p = h w p) _ ht
  intro j u hj1 hj2 hu
  apply forRange_inv (fun (t : Heap) => t w p = h w p) _ hu
  intro k v hk1 hk2 hv
  rw [body3D_apply,
    if_neg (hp i j k ((interior_iff D i).2 ⟨hi1, hi2⟩) ((interior_iff D j).2 ⟨hj1, hj2⟩)
      ((interior_iff D k).2 ⟨hk1, hk2⟩)), hv]

/-- The direct three-dimensional kernel at an interior coordinate. -/
theorem step3D_interior (D : Int) (r w : Ptr) (h : Heap) (hrw : r ≠ w) (x y z : Int)
    (hx : interior D x) (hy : interior D y) (hz : interior D z) :
    step3D D r w h w (getOffset3 D x y z) = direct3 D (h r) x y z := by
  unfold step3D
  have hyg := interior_inGrid hy
  have hzg := interior_inGrid hz
  rw [interior_iff] at hx hy hz
  have hline : ∀ i j t, t r = h r →
      forRange 1 (D - 1) (fun k h => body3D D r w i j k h) t r = h r := by
    intro i j t ht
    apply forRange_inv (fun (u : Heap) => u r = h r) _ ht
    intro k u _ _ hu
    rw [body3D_other_ptr D r w i j k u hrw, hu]
  have hplane : ∀ i t, t r = h r →
      forRange 1 (D - 1) (fun j h =>
        forRange 1 (D - 1) (fun k h => body3D D r w i j k h) h) t r = h r := by
    intro i t ht
    apply forRange_inv (fun (u : Heap) => u r = h r) _ ht
    intro j u _ _ hu
    exact hline i j u hu
  have hkeep : ∀ i j t, 1 ≤ j → j < D - 1 → (i ≠ x ∨ j ≠ y) →
      t w (getOffset3 D x y z) = direct3 D (h r) x y z →
      forRange 1 (D - 1) (fun k h => body3D D r w i j k h) t w (getOffset3 D x y z) =
        direct3 D (h r) x y z := by
    intro i j t hj1 hj2 hne hT
    apply forRange_inv (fun (u : Heap) => u w (getOffset3 D x y z) = direct3 D (h r) x y z) _ hT
    intro k u hk1 hk2 hu
    have hkg : inGrid D k := interior_inGrid ((interior_iff D k).2 ⟨hk1, hk2⟩)
    have hjg : inGrid D j := interior_inGrid ((interior_iff D j).2 ⟨hj1, hj2⟩)
    rw [body3D_apply, if_neg, hu]
    intro e
    have h3 := getOffset3_inj hyg hjg hzg hkg e
    rcases hne with h1 | h1
    · exact h1 h3.1.symm
    · exact h1 h3.2.1.symm
  apply forRange_set (fun (t : Heap) => t r = h r)
    (fun (t : Heap) => t w (getOffset3 D x y z) = direct3 D (h r) x y z) x hx.1 hx.2 _ _ _ rfl
  · intro i t _ _ ht
    exact hplane i t ht
  · intro t ht
    apply forRange_set (fun (u : Heap) => u r = h r)
      (fun (u : Heap) => u w (getOffset3 D x y z) = direct3 D (h r) x y z) y hy.1 hy.2 _ _ _ ht
    · intro j u _ _ hu
      exact hline x j u hu
    · intro u hu
      apply forRange_set (fun (v : Heap) => v r = h r)
        (fun (v : Heap) => v w (getOffset3 D x y z) = direct3 D (h r) x y z) z hz.1 hz.2 _ _ _ hu
      · intro k v _ _ hv
        rw [body3D_other_ptr D r w x y k v hrw, hv]
      · intro v hv
        rw [body3D_apply, if_pos rfl, hv]
      · intro k v hk1 hk2 hne _ hT
        have hkg : inGrid D k := interior_inGrid ((interior_iff D k).2 ⟨hk1, hk2⟩)
        rw [body3D_apply, if_neg, hT]
        intro e
        exact hne (getOffset3_inj hyg hyg hzg hkg e).2.2.symm
    · intro j u hj1 hj2 hne _ hT
      exact hkeep x j u hj1 hj2 (Or.inr hne) hT
  · intro i t _ _ hne _ hT
    apply forRange_inv (fun (u : Heap) => u w (getOffset3 D x y z) = direct3 D (h r) x y z) _ hT
    intro j u hj1 hj2 hu
    exact hkeep i j u hj1 hj2 (Or.inl hne) hu
/-! ## The accumulative kernels -/

theorem altBody1D_other_ptr (r w : Ptr) (i : Int) (h : Heap) {q : Ptr} (hq : q ≠ w) :
    altBody1D r w i h q = h q := by
  unfold altBody1D
  simp only [addCell_other_ptr _ _ _ _ hq]

theorem altBody1D_apply (r w : Ptr) (i : Int) (h : Heap) (hrw : r ≠ w) (p : Int) :
    altBody1D r w i h w p = h w p + scatter1 (h r) p i := by
  unfold altBody1D scatter1
  simp only [addCell_apply, readCell, addCell_other_ptr _ _ _ _ hrw]
  ring

theorem altBody2D_other_ptr (D : Int) (r w : Ptr) (i j : Int) (h : Heap) {q : Ptr}
    (hq : q ≠ w) : altBody2D D r w i j h q = h q := by
  unfold altBody2D
  simp only [addCell_other_ptr _ _ _ _ hq]

theorem altBody2D_apply (D : Int) (r w : Ptr) (i j : Int) (h : Heap) (p : Int) :
    altBody2D D r w i j h w p = h w p + scatter2 D (h r) p i j := by
  unfold altBody2D scatter2
  simp only [addCell_apply, readCell]
  ring

theorem altBody3D_other_ptr (D : Int) (r w : Ptr) (i j k : Int) (h : Heap) {q : Ptr}
    (hq : q ≠ w) : altBody3D D r w i j k h q = h q := by
  unfold altBody3D
  simp only [addCell_other_ptr _ _ _ _ hq]

theorem altBody3D_apply (D : Int) (r w : Ptr) (i j k : Int) (h : Heap) (p : Int) :
    altBody3D D r w i j k h w p = h w p + scatter3 D (h r) p i j k := by
  unfold altBody3D scatter3
  simp only [addCell_apply, readCell]
  ring

/-- The accumulative one-dimensional kernel leaves every buffer but the write buffer
alone. -/
theorem stepAlt1D_other_ptr (D : Int) (r w : Ptr) (h : Heap) {q : Ptr} (hq : q ≠ w) :
    stepAlt1D D r w h q = h q := by
  unfold stepAlt1D
  apply forRange_inv (fun (t : Heap) => t q = h q) _ rfl
  intro i t _ _ ht
  rw [altBody1D_other_ptr r w i t hq, ht]

/-- The accumulative two-dimensional kernel leaves every buffer but the write buffer
alone. -/
theorem stepAlt2D_other_ptr (D : Int) (r w : Ptr) (h : Heap) {q : Ptr} (hq : q ≠ w) :
    stepAlt2D D r w h q = h q := by
  unfold stepAlt2D
  apply forRange_inv (fun (t : Heap) => t q = h q) _ rfl
  intro i t _ _ ht
  apply forRange_inv (fun (t : Heap) => t q = h q) _ ht
  intro j u _ _ hu
  rw [altBody2D_other_ptr D r w i j u hq, hu]

/-- The accumulative three-dimensional kernel leaves every buffer but the write buffer
alone. -/
theorem stepAlt3D_other_ptr (D : Int) (r w : Ptr) (h : Heap) {q : Ptr} (hq : q ≠ w) :
    stepAlt3D D r w h q = h q := by
  unfold stepAlt3D
  apply forRange_inv (fun (t : Heap) => t q = h q) _ rfl
  intro i t _ _ ht
  apply forRange_inv (fun (t : Heap) => t q = h q) _ ht
  intro j u _ _ hu
  apply forRange_inv (fun (t : Heap) => t q = h q) _ hu
  intro k v _ _ hv
  rw [altBody3D_other_ptr D r w i j k v hq, hv]

/-- The accumulative one-dimensional kernel adds to each cell the sum of what its rounds
add. -/
theorem stepAlt1D_sum (D : Int) (r w : Ptr) (h : Heap) (hrw : r ≠ w) (p : Int) :
    stepAlt1D D r w h w p = h w p + ∑ i ∈ Finset.Ico 1 (D - 1), scatter1 (h r) p i := by
  unfold stepAlt1D
  apply forRange_sum (fun (t : Heap) => t r = h r) (fun (t : Heap) => t w p)
    (fun i => scatter1 (h r) p i) _ rfl
  intro i t _ _ ht
  beta_reduce
  refine ⟨?_, ?_⟩
  · rw [altBody1D_other_ptr r w i t hrw, ht]
  · rw [altBody1D_apply r w i t hrw, ht]

/-- The accumulative two-dimensional kernel adds to each cell the sum of what its rounds
add. -/
theorem stepAlt2D_sum (D : Int) (r w : Ptr) (h : Heap) (hrw : r ≠ w) (p : Int) :
    stepAlt2D D r w h w p =
      h w p + ∑ i ∈ Finset.Ico 1 (D - 1), ∑ j ∈ Finset.Ico 1 (D - 1),
        scatter2 D (h r) p i j := by
  unfold stepAlt2D
  apply forRange_sum (fun (t : Heap) => t r = h r) (fun (t : Heap) => t w p)
    (fun i => ∑ j ∈ Finset.Ico 1 (D - 1), scatter2 D (h r) p i j) _ rfl
  intro i t _ _ ht
  beta_reduce
  refine ⟨?_, ?_⟩
  · apply forRange_inv (fun (u : Heap) => u r = h r) _ ht
    intro j u _ _ hu
    rw [altBody2D_other_ptr D r w i j u hrw, hu]
  · apply forRange_sum (fun (u : Heap) => u r = h r) (fun (u : Heap) => u w p)
      (fun j => scatter2 D (h r) p i j) _ ht
    intro j u _ _ hu
    beta_reduce
    refine ⟨?_, ?_⟩
    · rw [altBody2D_other_ptr D r w i j u hrw, hu]
    · rw [altBody2D_apply, hu]

/-- The accumulative three-dimensional kernel adds to each cell the sum of what its rounds
add. -/
theorem stepAlt3D_sum (D : Int) (r w : Ptr) (h : Heap) (hrw : r ≠ w) (p : Int) :
    stepAlt3D D r w h w p =
      h w p + ∑ i ∈ Finset.Ico 1 (D - 1), ∑ j ∈ Finset.Ico 1 (D - 1),
        ∑ k ∈ Finset.Ico 1 (D - 1), scatter3 D (h r) p i j k := by
  unfold stepAlt3D
  apply forRange_sum (fun (t : Heap) => t r = h r) (fun (t : Heap) => t w p)
    (fun i => ∑ j ∈ Finset.Ico 1 (D - 1), ∑ k ∈ Finset.Ico 1 (D - 1),
      scatter3 D (h r) p i j k) _ rfl
  intro i t _ _ ht
  have hline : ∀ j (u : Heap), u r = h r →
      forRange 1 (D - 1) (fun k h => altBody3D D r w i j k h) u r = h r := by
    intro j u hu
    apply forRange_inv (fun (v : Heap) => v r = h r) _ hu
    intro k v _ _ hv
    rw [altBody3D_other_ptr D r w i j k v hrw, hv]
  beta_reduce
  refine ⟨?_, ?_⟩
  · apply forRange_inv (fun (u : Heap) => u r = h r) _ ht
    intro j u _ _ hu
    exact hline j u hu
  · apply forRange_sum (fun (u : Heap) => u r = h r) (fun (u : Heap) => u w p)
      (fun j => ∑ k ∈ Finset.Ico 1 (D - 1), scatter3 D (h r) p i j k) _ ht
    intro j u _ _ hu
    beta_reduce
    refine ⟨hline j u hu, ?_⟩
    apply forRange_sum (fun (v : Heap) => v r = h r) (fun (v : Heap) => v w p)
      (fun k => scatter3 D (h r) p i j k) _ hu
    intro k v _ _ hv
    beta_reduce
    refine ⟨?_, ?_⟩
    · rw [altBody3D_other_ptr D r w i j k v hrw, hv]
    · rw [altBody3D_apply, hv]
/-! ## Sums that select one term -/

theorem sum_ite_iff (S : Finset Int) (a : Int) (P : Int → Prop) [DecidablePred P]
    (g : Int → ℚ) (hP : ∀ i ∈ S, (P i ↔ i = a)) :
    ∑ i ∈ S, (if P i then g i else 0) = if a ∈ S then g a else 0 := by
  rw [← Finset.sum_ite_eq' S a g]
  apply Finset.sum_congr rfl
  intro i hi
  by_cases h : i = a
  · rw [if_pos h, if_pos ((hP i hi).2 h)]
  · rw [if_neg h, if_neg (fun hp => h ((hP i hi).1 hp))]

theorem sum2_ite_iff (S : Finset Int) (a b : Int) (P : Int → Int → Prop)
    [∀ i j, Decidable (P i j)] (g : Int → Int → ℚ)
    (hP : ∀ i ∈ S, ∀ j ∈ S, (P i j ↔ i = a ∧ j = b)) :
    ∑ i ∈ S, ∑ j ∈ S, (if P i j then g i j else 0) =
      if a ∈ S ∧ b ∈ S then g a b else 0 := by
  have inner : ∀ i ∈ S, ∑ j ∈ S, (if P i j then g i j else 0) =
      if i = a then (if b ∈ S then g a b else 0) else 0 := by
    intro i hi
    by_cases h : i = a
    · subst h
      rw [if_pos rfl]
      exact sum_ite_iff S b (P i) (g i) (fun j hj => by rw [hP i hi j hj]; simp)
    · rw [if_neg h]
      apply Finset.sum_eq_zero
      intro j hj
      rw [if_neg]
      intro hp
      exact h ((hP i hi j hj).1 hp).1
  rw [Finset.sum_congr rfl inner, Finset.sum_ite_eq' S a (fun _ => if b ∈ S then g a b else 0)]
  by_cases ha : a ∈ S <;> by_cases hb : b ∈ S <;> simp [ha, hb]

theorem sum3_ite_iff (S : Finset Int) (a b c : Int) (P : Int → Int → Int → Prop)
    [∀ i j k, Decidable (P i j k)] (g : Int → Int → Int → ℚ)
    (hP : ∀ i ∈ S, ∀ j ∈ S, ∀ k ∈ S, (P i j k ↔ i = a ∧ j = b ∧ k = c)) :
    ∑ i ∈ S, ∑ j ∈ S, ∑ k ∈ S, (if P i j k then g i j k else 0) =
      if a ∈ S ∧ b ∈ S ∧ c ∈ S then g a b c else 0 := by
  have inner : ∀ i ∈ S, ∑ j ∈ S, ∑ k ∈ S, (if P i j k then g i j k else 0) =
      if i = a then (if b ∈ S ∧ c ∈ S then g a b c else 0) else 0 := by
    intro i hi
    by_cases h : i = a
    · subst h
      rw [if_pos rfl]
      exact sum2_ite_iff S b c (P i) (g i)
        (fun j hj k hk => by rw [hP i hi j hj k hk]; simp)
    · rw [if_neg h]
      apply Finset.sum_eq_zero
      intro j hj
      apply Finset.sum_eq_zero
      intro k hk
      rw [if_neg]
      intro hp
      exact h ((hP i hi j hj k hk).1 hp).1
  rw [Finset.sum_congr rfl inner,
    Finset.sum_ite_eq' S a (fun _ => if b ∈ S ∧ c ∈ S then g a b c else 0)]
  by_cases ha : a ∈ S <;> by_cases hb : b ∈ S <;> by_cases hc : c ∈ S <;> simp [ha, hb, hc]

theorem ite_scale (c : Prop) [Decidable c] (u f : ℚ) :
    (if c then u * f else 0) = f * (if c then u else 0) := by
  split_ifs
  · ring
  · ring

theorem mem_Ico_interior (D i : Int) : i ∈ Finset.Ico 1 (D - 1) ↔ interior D i := by
  rw [Finset.mem_Ico, interior_iff]

theorem getOffset2_eq_iff {D x y i j : Int} (hy : inGrid D y) (hj : inGrid D j) :
    getOffset2 D x y = getOffset2 D i j ↔ i = x ∧ j = y := by
  constructor
  · intro e
    have h := getOffset2_inj hy hj e
    exact ⟨h.1.symm, h.2.symm⟩
  · rintro ⟨rfl, rfl⟩
    rfl

theorem getOffset3_eq_iff {D x y z i j k : Int} (hy : inGrid D y) (hz : inGrid D z)
    (hj : inGrid D j) (hk : inGrid D k) :
    getOffset3 D x y z = getOffset3 D i j k ↔ i = x ∧ j = y ∧ k = z := by
  constructor
  · intro e
    have h := getOffset3_inj hy hj hz hk e
    exact ⟨h.1.symm, h.2.1.symm, h.2.2.symm⟩
  · rintro ⟨rfl, rfl, rfl⟩
    rfl

/-- The accumulative one-dimensional kernel, cell by cell. -/
theorem stepAlt1D_cell (D : Int) (r w : Ptr) (h : Heap) (hrw : r ≠ w) (x : Int) :
    stepAlt1D D r w h w (getOffset1 x) =
      h w (getOffset1 x) +
        (if interior D x then
          h r (getOffset1 x) - h r (getOffset1 x) * 2 * DIFFUSE_FACTOR else 0) +
        DIFFUSE_FACTOR *
          ((if interior D (x + 1) then h r (getOffset1 (x + 1)) else 0) +
            (if interior D (x - 1) then h r (getOffset1 (x - 1)) else 0)) := by
  rw [stepAlt1D_sum D r w h hrw]
  unfold scatter1
  rw [Finset.sum_add_distrib, Finset.sum_add_distrib,
    sum_ite_iff _ x (fun i => getOffset1 x = getOffset1 i) _
      (fun i _ => by unfold getOffset1; omega),
    sum_ite_iff _ (x - 1) (fun i => getOffset1 x = getOffset1 (i + 1)) _
      (fun i _ => by unfold getOffset1; omega),
    sum_ite_iff _ (x + 1) (fun i => getOffset1 x = getOffset1 (i - 1)) _
      (fun i _ => by unfold getOffset1; omega)]
  simp only [mem_Ico_interior, ite_scale]
  ring

theorem Ico_inGrid {D j : Int} (hj : j ∈ Finset.Ico 1 (D - 1)) : inGrid D j := by
  rw [Finset.mem_Ico] at hj
  unfold inGrid
  omega

theorem Ico_inGrid_succ {D j : Int} (hj : j ∈ Finset.Ico 1 (D - 1)) : inGrid D (j + 1) := by
  rw [Finset.mem_Ico] at hj
  unfold inGrid
  omega

theorem Ico_inGrid_pred {D j : Int} (hj : j ∈ Finset.Ico 1 (D - 1)) : inGrid D (j - 1) := by
  rw [Finset.mem_Ico] at hj
  unfold inGrid
  omega

/-- The accumulative two-dimensional kernel, cell by cell. -/
theorem stepAlt2D_cell (D : Int) (r w : Ptr) (h : Heap) (hrw : r ≠ w) (x y : Int)
    (hy : inGrid D y) :
    stepAlt2D D r w h w (getOffset2 D x y) =
      h w (getOffset2 D x y) +
        (if interior D x ∧ interior D y then
          h r (getOffset2 D x y) - h r (getOffset2 D x y) * 4 * DIFFUSE_FACTOR else 0) +
        DIFFUSE_FACTOR *
          ((if interior D (x + 1) ∧ interior D y then h r (getOffset2 D (x + 1) y) else 0) +
            (if interior D (x - 1) ∧ interior D y then h r (getOffset2 D (x - 1) y) else 0) +
            (if interior D x ∧ interior D (y + 1) then h r (getOffset2 D x (y + 1)) else 0) +
            (if interior D x ∧ interior D (y - 1) then
              h r (getOffset2 D x (y - 1)) else 0)) := by
  rw [stepAlt2D_sum D r w h hrw]
  unfold scatter2
  simp only [Finset.sum_add_distrib]
  rw [sum2_ite_iff _ x y (fun i j => getOffset2 D x y = getOffset2 D i j) _
      (fun i _ j hj => by beta_reduce; rw [getOffset2_eq_iff hy (Ico_inGrid hj)]),
    sum2_ite_iff _ (x - 1) y (fun i j => getOffset2 D x y = getOffset2 D (i + 1) j) _
      (fun i _ j hj => by beta_reduce; rw [getOffset2_eq_iff hy (Ico_inGrid hj)]; omega),
    sum2_ite_iff _ (x + 1) y (fun i j => getOffset2 D x y = getOffset2 D (i - 1) j) _
      (fun i _ j hj => by beta_reduce; rw [getOffset2_eq_iff hy (Ico_inGrid hj)]; omega),
    sum2_ite_iff _ x (y - 1) (fun i j => getOffset2 D x y = getOffset2 D i (j + 1)) _
      (fun i _ j hj => by beta_reduce; rw [getOffset2_eq_iff hy (Ico_inGrid_succ hj)]; omega),
    sum2_ite_iff _ x (y + 1) (fun i j => getOffset2 D x y = getOffset2 D i (j - 1)) _
      (fun i _ j hj => by beta_reduce; rw [getOffset2_eq_iff hy (Ico_inGrid_pred hj)]; omega)]
  simp only [mem_Ico_interior, ite_scale]
  ring

/-- The accumulative three-dimensional kernel, cell by cell. -/
theorem stepAlt3D_cell (D : Int) (r w : Ptr) (h : Heap) (hrw : r ≠ w) (x y z : Int)
    (hy : inGrid D y) (hz : inGrid D z) :
    stepAlt3D D r w h w (getOffset3 D x y z) =
      h w (getOffset3 D x y z) +
        (if interior D x ∧ interior D y ∧ interior D z then
          h r (getOffset3 D x y z) - h r (getOffset3 D x y z) * 6 * DIFFUSE_FACTOR else 0) +
        DIFFUSE_FACTOR *
          ((if interior D (x + 1) ∧ interior D y ∧ interior D z then
              h r (getOffset3 D (x + 1) y z) else 0) +
            (if interior D (x - 1) ∧ interior D y ∧ interior D z then
              h r (getOffset3 D (x - 1) y z) else 0) +
            (if interior D x ∧ interior D (y + 1) ∧ interior D z then
              h r (getOffset3 D x (y + 1) z) else 0) +
            (if interior D x ∧ interior D (y - 1) ∧ interior D z then
              h r (getOffset3 D x (y - 1) z) else 0) +
            (if interior D x ∧ interior D y ∧ interior D (z + 1) then
              h r (getOffset3 D x y (z + 1)) else 0) +
            (if interior D x ∧ interior D y ∧ interior D (z - 1) then
              h r (getOffset3 D x y (z - 1)) else 0)) := by
  rw [stepAlt3D_sum D r w h hrw]
  unfold scatter3
  simp only [Finset.sum_add_distrib]
  rw [sum3_ite_iff _ x y z (fun i j k => getOffset3 D x y z = getOffset3 D i j k) _
      (fun i _ j hj k hk => by
        beta_reduce; rw [getOffset3_eq_iff hy hz (Ico_inGrid hj) (Ico_inGrid hk)]),
    sum3_ite_iff _ (x - 1) y z (fun i j k => getOffset3 D x y z = getOffset3 D (i + 1) j k) _
      (fun i _ j hj k hk => by
        beta_reduce; rw [getOffset3_eq_iff hy hz (Ico_inGrid hj) (Ico_inGrid hk)]; omega),
    sum3_ite_iff _ (x + 1) y z (fun i j k => getOffset3 D x y z = getOffset3 D (i - 1) j k) _
      (fun i _ j hj k hk => by
        beta_reduce; rw [getOffset3_eq_iff hy hz (Ico_inGrid hj) (Ico_inGrid hk)]; omega),
    sum3_ite_iff _ x (y - 1) z (fun i j k => getOffset3 D x y z = getOffset3 D i (j + 1) k) _
      (fun i _ j hj k hk => by
        beta_reduce; rw [getOffset3_eq_iff hy hz (Ico_inGrid_succ hj) (Ico_inGrid hk)]; omega),
    sum3_ite_iff _ x (y + 1) z (fun i j k => getOffset3 D x y z = getOffset3 D i (j - 1) k) _
      (fun i _ j hj k hk => by
        beta_reduce; rw [getOffset3_eq_iff hy hz (Ico_inGrid_pred hj) (Ico_inGrid hk)]; omega),
    sum3_ite_iff _ x y (z - 1) (fun i j k => getOffset3 D x y z = getOffset3 D i j (k + 1)) _
      (fun i _ j hj k hk => by
        beta_reduce; rw [getOffset3_eq_iff hy hz (Ico_inGrid hj) (Ico_inGrid_succ hk)]; omega),
    sum3_ite_iff _ x y (z + 1) (fun i j k => getOffset3 D x y z = getOffset3 D i j (k - 1)) _
      (fun i _ j hj k hk => by
        beta_reduce; rw [getOffset3_eq_iff hy hz (Ico_inGrid hj) (Ico_inGrid_pred hk)]; omega)]
  simp only [mem_Ico_interior, ite_scale]
  ring
/-! ## The kernel contracts -/

theorem forLoop_succ_last {σ : Type} (body : Int → σ → σ) :
    ∀ (n : Nat) (i : Int) (s : σ),
      forLoop body (n + 1) i s = body (i + n) (forLoop body n i s) := by
  intro n
  induction n with
  | zero => intro i s; simp [forLoop]
  | succ n ih =>
    intro i s
    rw [forLoop, ih (i + 1) (body i s)]
    have e : i + 1 + (n : Int) = i + ((n + 1 : Nat) : Int) := by push_cast; ring
    rw [e]
    rfl

theorem afterIterations_zero (cfg : Config) (s : MainState) : afterIterations cfg 0 s = s := by
  simp [afterIterations, mainLoop, forRange, forLoop]

/-- One more round of the loop of `main` is one more call of `iteration`. -/
theorem afterIterations_succ (cfg : Config) (n : Nat) (s : MainState) :
    afterIterations cfg (n + 1) s = iteration cfg (afterIterations cfg n s) := by
  simp only [afterIterations, mainLoop, forRange, sub_zero, Int.toNat_ofNat, iteration, step]
  rw [forLoop_succ_last]

/-- The loop of `main` with `_ITERATIONS = n`. -/
theorem mainLoop_eq (cfg : Config) (n : Nat) (hn : cfg.ITERATIONS = n) (s : MainState) :
    mainLoop cfg s = afterIterations cfg n s := by
  simp only [afterIterations, mainLoop, forRange, hn, iteration, step]

/-- With `_ITERATIONS` negative the loop of `main` does nothing. -/
theorem mainLoop_neg (cfg : Config) (hn : cfg.ITERATIONS ≤ 0) (s : MainState) :
    mainLoop cfg s = s := by
  have e : (cfg.ITERATIONS - 0).toNat = 0 := by omega
  simp only [mainLoop, forRange, e, forLoop]

/-- The loop of `main` always is some number of rounds. -/
theorem mainLoop_cases (cfg : Config) (s : MainState) :
    ∃ n : Nat, mainLoop cfg s = afterIterations cfg n s := by
  by_cases h : 0 ≤ cfg.ITERATIONS
  · exact ⟨cfg.ITERATIONS.toNat, mainLoop_eq cfg _ (Int.toNat_of_nonneg h).symm s⟩
  · exact ⟨0, by rw [mainLoop_neg cfg (by omega), afterIterations_zero]⟩

theorem kernelCalls_append (a b : List Event) :
    kernelCalls (a ++ b) = kernelCalls a ++ kernelCalls b := by
  induction a with
  | nil => rfl
  | cons e es ih =>
    cases e <;> simp [kernelCalls, ih]

theorem iteration_buffer0 (cfg : Config) (s : MainState) :
    (iteration cfg s).buffer0 = s.buffer1 := rfl

theorem iteration_buffer1 (cfg : Config) (s : MainState) :
    (iteration cfg s).buffer1 = s.buffer0 := rfl

theorem iteration_heap (cfg : Config) (s : MainState) :
    (iteration cfg s).heap = step cfg s.buffer0 s.buffer1 s.heap := rfl

theorem iteration_trace (cfg : Config) (s : MainState) :
    (iteration cfg s).trace = s.trace ++ [Event.step s.buffer0 s.buffer1] := rfl

/-- The two pointers of `main` after `n` rounds: swapped when `n` is odd. -/
theorem afterIterations_buffers (cfg : Config) (s : MainState) (n : Nat) :
    (afterIterations cfg n s).buffer0 = (if n % 2 = 0 then s.buffer0 else s.buffer1) ∧
      (afterIterations cfg n s).buffer1 = (if n % 2 = 0 then s.buffer1 else s.buffer0) := by
  induction n with
  | zero => simp [afterIterations_zero]
  | succ n ih =>
    rw [afterIterations_succ, iteration_buffer0, iteration_buffer1, ih.1, ih.2]
    rcases Nat.mod_two_eq_zero_or_one n with h | h
    · have h1 : (n + 1) % 2 = 1 := by omega
      simp [h, h1]
    · have h1 : (n + 1) % 2 = 0 := by omega
      simp [h, h1]

/-- The kernel calls of `n` rounds of the loop of `main`: round `k` calls the kernel on the
two pointers the state has after `k` rounds. -/
theorem afterIterations_calls (cfg : Config) (s : MainState) (n : Nat) :
    kernelCalls (afterIterations cfg n s).trace =
      kernelCalls s.trace ++ (List.range n).map (fun k =>
        ((afterIterations cfg k s).buffer0, (afterIterations cfg k s).buffer1)) := by
  induction n with
  | zero => simp [afterIterations_zero]
  | succ n ih =>
    rw [afterIterations_succ, iteration_trace, kernelCalls_append, ih, List.range_succ,
      List.map_append, List.append_assoc]
    rfl

/-- The loop of `main` keeps two distinct pointers distinct.  In a run with
`_ITERATIONS = n`, started with two distinct pointers in `buffer[0]` and `buffer[1]` and no
kernel call made yet: there are `n` kernel calls; call `k` has as read pointer the
`buffer[0]` and as write pointer the `buffer[1]` of the state after `k` rounds; the two are
distinct; and call `k + 1`, when there is one, has the write pointer of call `k` as its read
pointer and the read pointer of call `k` as its write pointer.  Whether the two pointers are
distinct when the loop starts is decided by the allocation. -/
theorem swap_of_distinct (cfg : Config) (s : MainState) (n : Nat)
    (hn : cfg.ITERATIONS = n) (hb : s.buffer0 ≠ s.buffer1) (hs : kernelCalls s.trace = []) :
    (kernelCalls (mainLoop cfg s).trace).length = n ∧
      ∀ k, k < n →
        (kernelCalls (mainLoop cfg s).trace)[k]? =
            some ((afterIterations cfg k s).buffer0, (afterIterations cfg k s).buffer1) ∧
          (afterIterations cfg k s).buffer0 ≠ (afterIterations cfg k s).buffer1 ∧
          (k + 1 < n →
            (kernelCalls (mainLoop cfg s).trace)[k + 1]? =
              some ((afterIterations cfg k s).buffer1, (afterIterations cfg k s).buffer0)) := by
  rw [mainLoop_eq cfg n hn, afterIterations_calls, hs, List.nil_append]
  refine ⟨by simp, ?_⟩
  intro k hk
  refine ⟨?_, ?_, ?_⟩
  · rw [List.getElem?_map, List.getElem?_range hk]
    rfl
  · have h := afterIterations_buffers cfg s k
    rw [h.1, h.2]
    split_ifs
    · exact hb
    · exact fun e => hb e.symm
  · intro hk1
    rw [List.getElem?_map, List.getElem?_range hk1, Option.map_some', afterIterations_succ]
    rfl

/-! ## The initial state -/

theorem memset_apply (h : Heap) (p : Ptr) (n : Int) (q : Ptr) (i : Int) :
    memset h p n q i = if q = p ∧ 0 ≤ i ∧ i < n then 0 else h q i := by
  unfold memset
  by_cases hq : q = p
  · subst hq
    rw [Function.update_same]
    simp
  · rw [Function.update_noteq hq]
    simp [hq]

theorem initBuffers_buffer0 (cfg : Config) (s : MainState) :
    (initBuffers cfg s).buffer0 = s.buffer0 := rfl

theorem initBuffers_buffer1 (cfg : Config) (s : MainState) :
    (initBuffers cfg s).buffer1 = s.buffer1 := rfl

theorem initBuffers_trace (cfg : Config) (s : MainState) :
    (initBuffers cfg s).trace =
      s.trace ++ [Event.memset s.buffer0 (SIZE cfg), Event.memset s.buffer1 (SIZE cfg),
        Event.seed s.buffer0 (seedOffset cfg)] := rfl

/-- After the zero-fill and the seeding, `buffer[1]` is `0` on its `SIZE` cells. -/
theorem initBuffers_heap_buffer1 (cfg : Config) (s : MainState)
    (hb : s.buffer0 ≠ s.buffer1) (p : Int) (hp0 : 0 ≤ p) (hp1 : p < SIZE cfg) :
    (initBuffers cfg s).heap s.buffer1 p = 0 := by
  unfold initBuffers
  simp only
  rw [writeCell_other_ptr _ _ _ _ (fun e => hb e.symm), memset_apply]
  simp [hp0, hp1]

/-- After the zero-fill and the seeding, `buffer[0]` holds the seed at the seeded index and
`0` on the rest of its `SIZE` cells. -/
theorem initBuffers_heap_buffer0 (cfg : Config) (s : MainState) (p : Int) (hp0 : 0 ≤ p)
    (hp1 : p < SIZE cfg) :
    (initBuffers cfg s).heap s.buffer0 p =
      if p = seedOffset cfg then seedValue cfg else 0 := by
  unfold initBuffers
  simp only
  rw [writeCell_apply]
  split_ifs with h
  · rfl
  · rw [memset_apply, memset_apply]
    simp [hp0, hp1]

theorem half_inGrid {D : Int} (hD : 1 ≤ D) : inGrid D (D / 2) := by
  unfold inGrid
  omega

theorem tdiv_two (D : Int) (hD : 1 ≤ D) : D.tdiv 2 = D / 2 :=
  Int.tdiv_eq_ediv (by omega) (by decide)

/-- The initial state when the seeded index is computed exactly.  For every dimensionality
and every extent `D ≥ 1`, with two distinct buffer pointers: after the zero-fill and the
seeding, `buffer[1]` is `0` on all `D^N` cells, and `buffer[0]` is `0` on all `D^N` cells
but one, the cell `getOffset(D/2, ..., D/2)`, which holds 1000 in one dimension and 10000 in
two and three; that cell is one of the `D^N` cells.  The two pointers are as before. -/
theorem initial_state_exact (cfg : Config) (s : MainState) (hD : 1 ≤ cfg.DIM)
    (hb : s.buffer0 ≠ s.buffer1) :
    (initBuffers cfg s).buffer0 = s.buffer0 ∧ (initBuffers cfg s).buffer1 = s.buffer1 ∧
    (cfg.dimension = Dimension.d1 →
      (0 ≤ getOffset1 (cfg.DIM / 2) ∧ getOffset1 (cfg.DIM / 2) < cfg.DIM ^ 1) ∧
      ∀ p, 0 ≤ p → p < cfg.DIM ^ 1 →
        (initBuffers cfg s).heap s.buffer1 p = 0 ∧
        (initBuffers cfg s).heap s.buffer0 p =
          if p = getOffset1 (cfg.DIM / 2) then 1000 else 0) ∧
    (cfg.dimension = Dimension.d2 →
      (0 ≤ getOffset2 cfg.DIM (cfg.DIM / 2) (cfg.DIM / 2) ∧
        getOffset2 cfg.DIM (cfg.DIM / 2) (cfg.DIM / 2) < cfg.DIM ^ 2) ∧
      ∀ p, 0 ≤ p → p < cfg.DIM ^ 2 →
        (initBuffers cfg s).heap s.buffer1 p = 0 ∧
        (initBuffers cfg s).heap s.buffer0 p =
          if p = getOffset2 cfg.DIM (cfg.DIM / 2) (cfg.DIM / 2) then 10000 else 0) ∧
    (cfg.dimension = Dimension.d3 →
      (0 ≤ getOffset3 cfg.DIM (cfg.DIM / 2) (cfg.DIM / 2) (cfg.DIM / 2) ∧
        getOffset3 cfg.DIM (cfg.DIM / 2) (cfg.DIM / 2) (cfg.DIM / 2) < cfg.DIM ^ 3) ∧
      ∀ p, 0 ≤ p → p < cfg.DIM ^ 3 →
        (initBuffers cfg s).heap s.buffer1 p = 0 ∧
        (initBuffers cfg s).heap s.buffer0 p =
          if p = getOffset3 cfg.DIM (cfg.DIM / 2) (cfg.DIM / 2) (cfg.DIM / 2)
          then 10000 else 0) := by
  have hc := half_inGrid hD
  refine ⟨rfl, rfl, ?_, ?_, ?_⟩
  · intro hdim
    have hS : SIZE cfg = cfg.DIM ^ 1 := by unfold SIZE; rw [hdim]; ring
    have hO : seedOffset cfg = getOffset1 (cfg.DIM / 2) := by
      unfold seedOffset; rw [hdim]; simp only; rw [tdiv_two _ hD]
    have hV : seedValue cfg = 1000 := by unfold seedValue; rw [hdim]
    refine ⟨by rw [pow_one]; exact hc, ?_⟩
    intro p hp0 hp1
    rw [← hS] at hp1
    rw [initBuffers_heap_buffer1 cfg s hb p hp0 hp1, initBuffers_heap_buffer0 cfg s p hp0 hp1,
      hO, hV]
    exact ⟨rfl, rfl⟩
  · intro hdim
    have hS : SIZE cfg = cfg.DIM ^ 2 := by unfold SIZE; rw [hdim]; ring
    have hO : seedOffset cfg = getOffset2 cfg.DIM (cfg.DIM / 2) (cfg.DIM / 2) := by
      unfold seedOffset; rw [hdim]; simp only; rw [tdiv_two _ hD]
    have hV : seedValue cfg = 10000 := by unfold seedValue; rw [hdim]
    refine ⟨by rw [pow_two]; exact getOffset2_inGrid hc hc, ?_⟩
    intro p hp0 hp1
    rw [← hS] at hp1
    rw [initBuffers_heap_buffer1 cfg s hb p hp0 hp1, initBuffers_heap_buffer0 cfg s p hp0 hp1,
      hO, hV]
    exact ⟨rfl, rfl⟩
  · intro hdim
    have hS : SIZE cfg = cfg.DIM ^ 3 := by unfold SIZE; rw [hdim]; ring
    have hO : seedOffset cfg =
        getOffset3 cfg.DIM (cfg.DIM / 2) (cfg.DIM / 2) (cfg.DIM / 2) := by
      unfold seedOffset; rw [hdim]; simp only; rw [tdiv_two _ hD]
    have hV : seedValue cfg = 10000 := by unfold seedValue; rw [hdim]
    have h3 : cfg.DIM ^ 3 = cfg.DIM * cfg.DIM * cfg.DIM := by ring
    refine ⟨by rw [h3]; exact getOffset3_inGrid hc hc hc, ?_⟩
    intro p hp0 hp1
    rw [← hS] at hp1
    rw [initBuffers_heap_buffer1 cfg s hb p hp0 hp1, initBuffers_heap_buffer0 cfg s p hp0 hp1,
      hO, hV]
    exact ⟨rfl, rfl⟩

/-! ## Boundary cells -/

theorem onEdge_not_interior {D x : Int} (h : onEdge D x) : ¬ interior D x := by
  unfold onEdge at h
  unfold interior
  omega

theorem step_d1 (cfg : Config) (hd : cfg.dimension = Dimension.d1)
    (ha : cfg.STEP_ALTERNATIVE = false) : step cfg = step1D cfg.DIM := by
  obtain ⟨dim, D, n, alt, off⟩ := cfg
  subst hd ha
  rfl

theorem step_d1_alt (cfg : Config) (hd : cfg.dimension = Dimension.d1)
    (ha : cfg.STEP_ALTERNATIVE = true) : step cfg = stepAlt1D cfg.DIM := by
  obtain ⟨dim, D, n, alt, off⟩ := cfg
  subst hd ha
  rfl

theorem step_d2 (cfg : Config) (hd : cfg.dimension = Dimension.d2)
    (ha : cfg.STEP_ALTERNATIVE = false) : step cfg = step2D cfg.DIM := by
  obtain ⟨dim, D, n, alt, off⟩ := cfg
  subst hd ha
  rfl

theorem step_d2_alt (cfg : Config) (hd : cfg.dimension = Dimension.d2)
    (ha : cfg.STEP_ALTERNATIVE = true) : step cfg = stepAlt2D cfg.DIM := by
  obtain ⟨dim, D, n, alt, off⟩ := cfg
  subst hd ha
  rfl

theorem step_d3 (cfg : Config) (hd : cfg.dimension = Dimension.d3)
    (ha : cfg.STEP_ALTERNATIVE = false) : step cfg = step3D cfg.DIM := by
  obtain ⟨dim, D, n, alt, off⟩ := cfg
  subst hd ha
  rfl

theorem step_d3_alt (cfg : Config) (hd : cfg.dimension = Dimension.d3)
    (ha : cfg.STEP_ALTERNATIVE = true) : step cfg = stepAlt3D cfg.DIM := by
  obtain ⟨dim, D, n, alt, off⟩ := cfg
  subst hd ha
  rfl

/-- Every kernel leaves every buffer but the write buffer alone. -/
theorem step_other_ptr (cfg : Config) (r w : Ptr) (h : Heap) {q : Ptr} (hq : q ≠ w) :
    step cfg r w h q = h q := by
  cases hd : cfg.dimension <;> cases ha : cfg.STEP_ALTERNATIVE
  · rw [step_d1 cfg hd ha]
    exact step1D_other_ptr _ r w h hq
  · rw [step_d1_alt cfg hd ha]
    exact stepAlt1D_other_ptr _ r w h hq
  · rw [step_d2 cfg hd ha]
    exact step2D_other_ptr _ r w h hq
  · rw [step_d2_alt cfg hd ha]
    exact stepAlt2D_other_ptr _ r w h hq
  · rw [step_d3 cfg hd ha]
    exact step3D_other_ptr _ r w h hq
  · rw [step_d3_alt cfg hd ha]
    exact stepAlt3D_other_ptr _ r w h hq

theorem boundaryIndex_d1 (cfg : Config) (hd : cfg.dimension = Dimension.d1) (p : Int) :
    boundaryIndex cfg p ↔ ∃ x, inGrid cfg.DIM x ∧ onEdge cfg.DIM x ∧ p = getOffset1 x := by
  unfold boundaryIndex
  rw [hd]

theorem boundaryIndex_d2 (cfg : Config) (hd : cfg.dimension = Dimension.d2) (p : Int) :
    boundaryIndex cfg p ↔ ∃ x y, inGrid cfg.DIM x ∧ inGrid cfg.DIM y ∧
      (onEdge cfg.DIM x ∨ onEdge cfg.DIM y) ∧ p = getOffset2 cfg.DIM x y := by
  unfold boundaryIndex
  rw [hd]

theorem boundaryIndex_d3 (cfg : Config) (hd : cfg.dimension = Dimension.d3) (p : Int) :
    boundaryIndex cfg p ↔ ∃ x y z, inGrid cfg.DIM x ∧ inGrid cfg.DIM y ∧ inGrid cfg.DIM z ∧
      (onEdge cfg.DIM x ∨ onEdge cfg.DIM y ∨ onEdge cfg.DIM z) ∧
      p = getOffset3 cfg.DIM x y z := by
  unfold boundaryIndex
  rw [hd]

/-- The direct kernels do not change a boundary cell of the write buffer. -/
theorem step_direct_boundary (cfg : Config) (halt : cfg.STEP_ALTERNATIVE = false)
    (r w : Ptr) (h : Heap) (p : Int) (hp : boundaryIndex cfg p) :
    step cfg r w h w p = h w p := by
  cases hd : cfg.dimension
  · rw [boundaryIndex_d1 cfg hd] at hp
    rw [step_d1 cfg hd halt]
    obtain ⟨x, _, hx, rfl⟩ := hp
    apply step1D_other
    intro i hi e
    unfold getOffset1 at e
    exact onEdge_not_interior hx (e ▸ hi)
  · rw [boundaryIndex_d2 cfg hd] at hp
    rw [step_d2 cfg hd halt]
    obtain ⟨x, y, _, hy, hxy, rfl⟩ := hp
    apply step2D_other
    intro i j hi hj e
    obtain ⟨rfl, rfl⟩ := getOffset2_inj hy (interior_inGrid hj) e
    rcases hxy with h1 | h1
    · exact onEdge_not_interior h1 hi
    · exact onEdge_not_interior h1 hj
  · rw [boundaryIndex_d3 cfg hd] at hp
    rw [step_d3 cfg hd halt]
    obtain ⟨x, y, z, _, hy, hz, hxyz, rfl⟩ := hp
    apply step3D_other
    intro i j k hi hj hk e
    obtain ⟨rfl, rfl, rfl⟩ :=
      getOffset3_inj hy (interior_inGrid hj) hz (interior_inGrid hk) e
    rcases hxyz with h1 | h1 | h1
    · exact onEdge_not_interior h1 hi
    · exact onEdge_not_interior h1 hj
    · exact onEdge_not_interior h1 hk

theorem SIZE_d1 (cfg : Config) (hd : cfg.dimension = Dimension.d1) : SIZE cfg = cfg.DIM := by
  unfold SIZE
  rw [hd]

theorem SIZE_d2 (cfg : Config) (hd : cfg.dimension = Dimension.d2) :
    SIZE cfg = cfg.DIM * cfg.DIM := by
  unfold SIZE
  rw [hd]

theorem SIZE_d3 (cfg : Config) (hd : cfg.dimension = Dimension.d3) :
    SIZE cfg = cfg.DIM * cfg.DIM * cfg.DIM := by
  unfold SIZE
  rw [hd]

theorem seedOffset_d1 (cfg : Config) (hd : cfg.dimension = Dimension.d1) :
    seedOffset cfg = getOffset1 (cfg.DIM.tdiv 2) := by
  unfold seedOffset
  rw [hd]

theorem seedOffset_d2 (cfg : Config) (hd : cfg.dimension = Dimension.d2) :
    seedOffset cfg = getOffset2 cfg.DIM (cfg.DIM.tdiv 2) (cfg.DIM.tdiv 2) := by
  unfold seedOffset
  rw [hd]

theorem seedOffset_d3 (cfg : Config) (hd : cfg.dimension = Dimension.d3) :
    seedOffset cfg = getOffset3 cfg.DIM (cfg.DIM.tdiv 2) (cfg.DIM.tdiv 2) (cfg.DIM.tdiv 2) := by
  unfold seedOffset
  rw [hd]

/-- A boundary cell is one of the `SIZE` cells. -/
theorem boundaryIndex_range (cfg : Config) (p : Int) (hp : boundaryIndex cfg p) :
    0 ≤ p ∧ p < SIZE cfg := by
  cases hd : cfg.dimension
  · rw [boundaryIndex_d1 cfg hd] at hp
    rw [SIZE_d1 cfg hd]
    obtain ⟨x, hx, _, rfl⟩ := hp
    exact hx
  · rw [boundaryIndex_d2 cfg hd] at hp
    rw [SIZE_d2 cfg hd]
    obtain ⟨x, y, hx, hy, _, rfl⟩ := hp
    exact getOffset2_inGrid hx hy
  · rw [boundaryIndex_d3 cfg hd] at hp
    rw [SIZE_d3 cfg hd]
    obtain ⟨x, y, z, hx, hy, hz, _, rfl⟩ := hp
    exact getOffset3_inGrid hx hy hz

theorem half_interior {D : Int} (hD : 3 ≤ D) : interior D (D.tdiv 2) := by
  rw [tdiv_two D (by omega)]
  unfold interior
  omega

/-- With `D ≥ 3` the seeded cell is not a boundary cell. -/
theorem boundaryIndex_ne_seed (cfg : Config) (hD : 3 ≤ cfg.DIM) (p : Int)
    (hp : boundaryIndex cfg p) : p ≠ seedOffset cfg := by
  have hc := half_interior hD
  have hg := interior_inGrid hc
  cases hd : cfg.dimension
  · rw [boundaryIndex_d1 cfg hd] at hp
    rw [seedOffset_d1 cfg hd]
    obtain ⟨x, _, hx, rfl⟩ := hp
    intro e
    unfold getOffset1 at e
    exact onEdge_not_interior hx (e ▸ hc)
  · rw [boundaryIndex_d2 cfg hd] at hp
    rw [seedOffset_d2 cfg hd]
    obtain ⟨x, y, _, hy, hxy, rfl⟩ := hp
    intro e
    obtain ⟨rfl, rfl⟩ := getOffset2_inj hy hg e
    rcases hxy with h1 | h1
    · exact onEdge_not_interior h1 hc
    · exact onEdge_not_interior h1 hc
  · rw [boundaryIndex_d3 cfg hd] at hp
    rw [seedOffset_d3 cfg hd]
    obtain ⟨x, y, z, _, hy, hz, hxyz, rfl⟩ := hp
    intro e
    obtain ⟨rfl, rfl, rfl⟩ := getOffset3_inj hy hg hz hg e
    rcases hxyz with h1 | h1 | h1
    · exact onEdge_not_interior h1 hc
    · exact onEdge_not_interior h1 hc
    · exact onEdge_not_interior h1 hc

/-- Boundary cells when every index is computed exactly.  With the direct kernel, any
dimensionality, extent `D ≥ 3` and two distinct buffer pointers: after the zero-fill and
seeding of `main` and any number `n` of rounds of its loop, every boundary cell of
`buffer[0]` and of `buffer[1]` is `0`; and a call of the direct kernel does not change a
boundary cell of its write buffer. -/
theorem boundary_invariance_exact (cfg : Config) (s : MainState) (n : Nat)
    (hD : 3 ≤ cfg.DIM) (halt : cfg.STEP_ALTERNATIVE = false) (hb : s.buffer0 ≠ s.buffer1) :
    (∀ p, boundaryIndex cfg p →
      (afterIterations cfg n (initBuffers cfg s)).heap
          (afterIterations cfg n (initBuffers cfg s)).buffer0 p = 0 ∧
        (afterIterations cfg n (initBuffers cfg s)).heap
          (afterIterations cfg n (initBuffers cfg s)).buffer1 p = 0) ∧
    (∀ (r w : Ptr) (h : Heap) (p : Int), boundaryIndex cfg p →
      step cfg r w h w p = h w p) := by
  refine ⟨?_, fun r w h p hp => step_direct_boundary cfg halt r w h p hp⟩
  have key : ∀ m : Nat,
      (afterIterations cfg m (initBuffers cfg s)).buffer0 ≠
          (afterIterations cfg m (initBuffers cfg s)).buffer1 ∧
        ∀ p, boundaryIndex cfg p →
          (afterIterations cfg m (initBuffers cfg s)).heap
              (afterIterations cfg m (initBuffers cfg s)).buffer0 p = 0 ∧
            (afterIterations cfg m (initBuffers cfg s)).heap
              (afterIterations cfg m (initBuffers cfg s)).buffer1 p = 0 := by
    intro m
    induction m with
    | zero =>
      rw [afterIterations_zero]
      refine ⟨hb, ?_⟩
      intro p hp
      obtain ⟨hp0, hp1⟩ := boundaryIndex_range cfg p hp
      rw [initBuffers_buffer0, initBuffers_buffer1, initBuffers_heap_buffer1 cfg s hb p hp0 hp1,
        initBuffers_heap_buffer0 cfg s p hp0 hp1, if_neg (boundaryIndex_ne_seed cfg hD p hp)]
      exact ⟨rfl, rfl⟩
    | succ m ih =>
      obtain ⟨hne, hz⟩ := ih
      rw [afterIterations_succ, iteration_buffer0, iteration_buffer1, iteration_heap]
      refine ⟨fun e => hne e.symm, ?_⟩
      intro p hp
      rw [step_direct_boundary cfg halt _ _ _ p hp, step_other_ptr cfg _ _ _ hne]
      exact ⟨(hz p hp).2, (hz p hp).1⟩
  exact (key n).2

/-- The accumulative kernel reaches the boundary: one dimension, extent 3, one round.  Index
`0` is a boundary cell, and after the round `buffer[0]` holds 100 there, not 0. -/
theorem accumulative_reaches_boundary :
    boundaryIndex ⟨Dimension.d1, 3, 1, true, none⟩ 0 ∧
      (afterIterations ⟨Dimension.d1, 3, 1, true, none⟩ 1
        (initBuffers ⟨Dimension.d1, 3, 1, true, none⟩ ⟨100, 200, fun _ _ => 0, []⟩)).heap
          (afterIterations ⟨Dimension.d1, 3, 1, true, none⟩ 1
            (initBuffers ⟨Dimension.d1, 3, 1, true, none⟩
              ⟨100, 200, fun _ _ => 0, []⟩)).buffer0 0 = 100 ∧
      ¬ ((afterIterations ⟨Dimension.d1, 3, 1, true, none⟩ 1
        (initBuffers ⟨Dimension.d1, 3, 1, true, none⟩ ⟨100, 200, fun _ _ => 0, []⟩)).heap
          (afterIterations ⟨Dimension.d1, 3, 1, true, none⟩ 1
            (initBuffers ⟨Dimension.d1, 3, 1, true, none⟩
              ⟨100, 200, fun _ _ => 0, []⟩)).buffer0 0 = 0) := by
  have hval : (afterIterations ⟨Dimension.d1, 3, 1, true, none⟩ 1
        (initBuffers ⟨Dimension.d1, 3, 1, true, none⟩ ⟨100, 200, fun _ _ => 0, []⟩)).heap
          (afterIterations ⟨Dimension.d1, 3, 1, true, none⟩ 1
            (initBuffers ⟨Dimension.d1, 3, 1, true, none⟩
              ⟨100, 200, fun _ _ => 0, []⟩)).buffer0 0 = 100 := by
    rw [afterIterations_succ, afterIterations_zero, iteration_buffer0, iteration_heap,
      initBuffers_buffer0, initBuffers_buffer1,
      step_d1_alt ⟨Dimension.d1, 3, 1, true, none⟩ rfl rfl]
    have e := stepAlt1D_cell 3 100 200
      (initBuffers ⟨Dimension.d1, 3, 1, true, none⟩ ⟨100, 200, fun _ _ => 0, []⟩).heap
      (by decide) 0
    have h1 := initBuffers_heap_buffer1 ⟨Dimension.d1, 3, 1, true, none⟩
      ⟨100, 200, fun _ _ => 0, []⟩ (by decide) 0 (by decide) (by decide)
    have h2 : (initBuffers ⟨Dimension.d1, 3, 1, true, none⟩
        ⟨100, 200, fun _ _ => 0, []⟩).heap 100 (0 + 1) = 1000 :=
      (initBuffers_heap_buffer0 ⟨Dimension.d1, 3, 1, true, none⟩
        ⟨100, 200, fun _ _ => 0, []⟩ (0 + 1) (by decide) (by decide)).trans
        (if_pos (by decide))
    simp only [getOffset1] at e
    rw [e, if_neg (show ¬ interior 3 0 by decide),
      if_pos (show interior 3 (0 + 1) by decide),
      if_neg (show ¬ interior 3 (0 - 1) by decide), h1, h2]
    norm_num [DIFFUSE_FACTOR]
  refine ⟨⟨0, by decide, by decide, rfl⟩, hval, ?_⟩
  rw [hval]
  norm_num

/-- With no offset layout and both allocations successful, `main` zero-fills and seeds,
runs its loop, and releases. -/
theorem main_success (cfg : Config) (m0 m1 : Ptr) (h : Heap) (ho : cfg.OFFSET_BUFFER = none)
    (h0 : m0 ≠ 0) (h1 : m1 ≠ 0) :
    main cfg m0 m1 h = (0, release cfg (mainLoop cfg (initBuffers cfg ⟨m0, m1, h, []⟩))) := by
  unfold main allocate
  rw [ho]
  simp only
  rw [if_neg (by simp [h0, h1])]

theorem release_heap (cfg : Config) (s : MainState) : (release cfg s).heap = s.heap := rfl

theorem release_buffer0_none (cfg : Config) (s : MainState) (ho : cfg.OFFSET_BUFFER = none) :
    (release cfg s).buffer0 = s.buffer0 := by
  unfold release
  rw [ho]

/-- Claim C4.  One dimension, extent 5, the direct kernel, one iteration, no offset layout,
both allocations successful and distinct: `main` ends with `buffer[0]` holding
`[0, 100, 800, 100, 0]`. -/
theorem scenario_1d (m0 m1 : Ptr) (h : Heap) (h0 : m0 ≠ 0) (h1 : m1 ≠ 0) (h01 : m0 ≠ m1) :
    (main ⟨Dimension.d1, 5, 1, false, none⟩ m0 m1 h).1 = 0 ∧
      List.map
        ((main ⟨Dimension.d1, 5, 1, false, none⟩ m0 m1 h).2.heap
          (main ⟨Dimension.d1, 5, 1, false, none⟩ m0 m1 h).2.buffer0)
        [0, 1, 2, 3, 4] = [0, 100, 800, 100, 0] := by
  rw [main_success _ m0 m1 h rfl h0 h1]
  refine ⟨rfl, ?_⟩
  simp only
  rw [release_heap, release_buffer0_none _ _ rfl,
    mainLoop_eq ⟨Dimension.d1, 5, 1, false, none⟩ 1 rfl, afterIterations_succ,
    afterIterations_zero, iteration_buffer0, iteration_heap, initBuffers_buffer0,
    initBuffers_buffer1, step_d1 ⟨Dimension.d1, 5, 1, false, none⟩ rfl rfl]
  have hb1 : ∀ p, 0 ≤ p → p < 5 →
      (initBuffers ⟨Dimension.d1, 5, 1, false, none⟩ ⟨m0, m1, h, []⟩).heap m1 p = 0 :=
    fun p hp0 hp1 => initBuffers_heap_buffer1 ⟨Dimension.d1, 5, 1, false, none⟩
      ⟨m0, m1, h, []⟩ h01 p hp0 hp1
  have hb0 : ∀ p, 0 ≤ p → p < 5 →
      (initBuffers ⟨Dimension.d1, 5, 1, false, none⟩ ⟨m0, m1, h, []⟩).heap m0 p =
        if p = 2 then 1000 else 0 :=
    fun p hp0 hp1 => initBuffers_heap_buffer0 ⟨Dimension.d1, 5, 1, false, none⟩
      ⟨m0, m1, h, []⟩ p hp0 hp1
  have hi : ∀ x, interior 5 x →
      step1D 5 m0 m1 (initBuffers ⟨Dimension.d1, 5, 1, false, none⟩ ⟨m0, m1, h, []⟩).heap
        m1 x = direct1 ((initBuffers ⟨Dimension.d1, 5, 1, false, none⟩
          ⟨m0, m1, h, []⟩).heap m0) x :=
    fun x hx => step1D_interior 5 m0 m1 _ h01 x hx
  have ho : ∀ x, ¬ interior 5 x →
      step1D 5 m0 m1 (initBuffers ⟨Dimension.d1, 5, 1, false, none⟩ ⟨m0, m1, h, []⟩).heap
        m1 x = (initBuffers ⟨Dimension.d1, 5, 1, false, none⟩ ⟨m0, m1, h, []⟩).heap m1 x :=
    fun x hx => step1D_other 5 m0 m1 _ x (fun i hi e => hx (by
      unfold getOffset1 at e
      exact e ▸ hi))
  simp only [List.map_cons, List.map_nil]
  rw [ho 0 (by decide), ho 4 (by decide), hi 1 (by decide), hi 2 (by decide),
    hi 3 (by decide), hb1 0 (by decide) (by decide), hb1 4 (by decide) (by decide)]
  unfold direct1 getOffset1
  rw [hb0 1 (by decide) (by decide), hb0 (1 + 1) (by decide) (by decide),
    hb0 (1 - 1) (by decide) (by decide), hb0 2 (by decide) (by decide),
    hb0 (2 + 1) (by decide) (by decide), hb0 (2 - 1) (by decide) (by decide),
    hb0 3 (by decide) (by decide), hb0 (3 + 1) (by decide) (by decide),
    hb0 (3 - 1) (by decide) (by decide)]
  norm_num [DIFFUSE_FACTOR]

/-- Witness for claim C4: the allocations at 100 and 200, memory all 7 before. -/
theorem scenario_1d_witness :
    (100 : Ptr) ≠ 0 ∧ (200 : Ptr) ≠ 0 ∧ (100 : Ptr) ≠ 200 ∧
      (main ⟨Dimension.d1, 5, 1, false, none⟩ 100 200 (fun _ _ => 7)).1 = 0 :=
  ⟨by decide, by decide, by decide,
    (scenario_1d 100 200 (fun _ _ => 7) (by decide) (by decide) (by decide)).1⟩
/-! ## The first iteration -/

theorem shape1 (a0 a1 a2 : ℚ) (h0 : 0 ≤ a0) (h1 : 0 ≤ a1) (h2 : 0 ≤ a2) :
    a0 + 1 / 10 * (a1 + a2 - 2 * a0) ≠ 0 ↔ a0 ≠ 0 ∨ a1 ≠ 0 ∨ a2 ≠ 0 := by
  constructor
  · intro h
    by_contra hc
    push_neg at hc
    obtain ⟨e0, e1, e2⟩ := hc
    apply h
    rw [e0, e1, e2]
    norm_num
  · intro h
    have hpos : 0 < a0 + 1 / 10 * (a1 + a2 - 2 * a0) := by
      rcases h with h | h | h
      · have := lt_of_le_of_ne h0 (Ne.symm h)
        linarith
      · have := lt_of_le_of_ne h1 (Ne.symm h)
        linarith
      · have := lt_of_le_of_ne h2 (Ne.symm h)
        linarith
    exact ne_of_gt hpos

theorem shape2 (a0 a1 a2 a3 a4 : ℚ) (h0 : 0 ≤ a0) (h1 : 0 ≤ a1) (h2 : 0 ≤ a2)
    (h3 : 0 ≤ a3) (h4 : 0 ≤ a4) :
    a0 + 1 / 10 * (a1 + a2 + a3 + a4 - 4 * a0) ≠ 0 ↔
      a0 ≠ 0 ∨ a1 ≠ 0 ∨ a2 ≠ 0 ∨ a3 ≠ 0 ∨ a4 ≠ 0 := by
  constructor
  · intro h
    by_contra hc
    push_neg at hc
    obtain ⟨e0, e1, e2, e3, e4⟩ := hc
    apply h
    rw [e0, e1, e2, e3, e4]
    norm_num
  · intro h
    have hpos : 0 < a0 + 1 / 10 * (a1 + a2 + a3 + a4 - 4 * a0) := by
      rcases h with h | h | h | h | h
      · have := lt_of_le_of_ne h0 (Ne.symm h)
        linarith
      · have := lt_of_le_of_ne h1 (Ne.symm h)
        linarith
      · have := lt_of_le_of_ne h2 (Ne.symm h)
        linarith
      · have := lt_of_le_of_ne h3 (Ne.symm h)
        linarith
      · have := lt_of_le_of_ne h4 (Ne.symm h)
        linarith
    exact ne_of_gt hpos

theorem shape3 (a0 a1 a2 a3 a4 a5 a6 : ℚ) (h0 : 0 ≤ a0) (h1 : 0 ≤ a1) (h2 : 0 ≤ a2)
    (h3 : 0 ≤ a3) (h4 : 0 ≤ a4) (h5 : 0 ≤ a5) (h6 : 0 ≤ a6) :
    a0 + 1 / 10 * (a1 + a2 + a3 + a4 + a5 + a6 - 6 * a0) ≠ 0 ↔
      a0 ≠ 0 ∨ a1 ≠ 0 ∨ a2 ≠ 0 ∨ a3 ≠ 0 ∨ a4 ≠ 0 ∨ a5 ≠ 0 ∨ a6 ≠ 0 := by
  constructor
  · intro h
    by_contra hc
    push_neg at hc
    obtain ⟨e0, e1, e2, e3, e4, e5, e6⟩ := hc
    apply h
    rw [e0, e1, e2, e3, e4, e5, e6]
    norm_num
  · intro h
    have hpos : 0 < a0 + 1 / 10 * (a1 + a2 + a3 + a4 + a5 + a6 - 6 * a0) := by
      rcases h with h | h | h | h | h | h | h
      · have := lt_of_le_of_ne h0 (Ne.symm h)
        linarith
      · have := lt_of_le_of_ne h1 (Ne.symm h)
        linarith
      · have := lt_of_le_of_ne h2 (Ne.symm h)
        linarith
      · have := lt_of_le_of_ne h3 (Ne.symm h)
        linarith
      · have := lt_of_le_of_ne h4 (Ne.symm h)
        linarith
      · have := lt_of_le_of_ne h5 (Ne.symm h)
        linarith
      · have := lt_of_le_of_ne h6 (Ne.symm h)
        linarith
    exact ne_of_gt hpos

theorem seedValue_pos (cfg : Config) : 0 < seedValue cfg := by
  unfold seedValue
  cases cfg.dimension <;> norm_num

/-- Before the first round, a cell of `buffer[0]` is never negative. -/
theorem initBuffers_nonneg (cfg : Config) (s : MainState) (p : Int) (hp0 : 0 ≤ p)
    (hp1 : p < SIZE cfg) : 0 ≤ (initBuffers cfg s).heap s.buffer0 p := by
  rw [initBuffers_heap_buffer0 cfg s p hp0 hp1]
  split_ifs
  · exact (seedValue_pos cfg).le
  · exact le_rfl

/-- Before the first round, a cell of `buffer[0]` is nonzero exactly when it is the seeded
one. -/
theorem initBuffers_ne_zero (cfg : Config) (s : MainState) (p : Int) (hp0 : 0 ≤ p)
    (hp1 : p < SIZE cfg) : (initBuffers cfg s).heap s.buffer0 p ≠ 0 ↔ p = seedOffset cfg := by
  rw [initBuffers_heap_buffer0 cfg s p hp0 hp1]
  split_ifs with h
  · simp [h, (seedValue_pos cfg).ne']
  · simp [h]

theorem afterIterations_one (cfg : Config) (s : MainState) :
    afterIterations cfg 1 s = iteration cfg s := by
  rw [afterIterations_succ, afterIterations_zero]

/-- The first round in one dimension with the direct kernel. -/
theorem first_iteration_d1 (cfg : Config) (s : MainState) (hd : cfg.dimension = Dimension.d1)
    (hD : 3 ≤ cfg.DIM) (halt : cfg.STEP_ALTERNATIVE = false) (hb : s.buffer0 ≠ s.buffer1)
    (x : Int) (hx : inGrid cfg.DIM x) :
    (afterIterations cfg 1 (initBuffers cfg s)).heap s.buffer1 (getOffset1 x) ≠ 0 ↔
      interior cfg.DIM x ∧
        (x = cfg.DIM / 2 ∨ x = cfg.DIM / 2 - 1 ∨ x = cfg.DIM / 2 + 1) := by
  rw [afterIterations_one, iteration_heap, initBuffers_buffer0, initBuffers_buffer1,
    step_d1 cfg hd halt]
  have hS := SIZE_d1 cfg hd
  have hO : seedOffset cfg = cfg.DIM / 2 := by
    rw [seedOffset_d1 cfg hd, tdiv_two _ (by omega)]
    rfl
  by_cases hi : interior cfg.DIM x
  · rw [step1D_interior _ _ _ _ hb x hi]
    unfold direct1 DIFFUSE_FACTOR
    have r0 : 0 ≤ getOffset1 x ∧ getOffset1 x < SIZE cfg := by
      rw [hS]; exact hx
    have r1 : 0 ≤ getOffset1 (x + 1) ∧ getOffset1 (x + 1) < SIZE cfg := by
      rw [hS]; unfold getOffset1 interior at *; omega
    have r2 : 0 ≤ getOffset1 (x - 1) ∧ getOffset1 (x - 1) < SIZE cfg := by
      rw [hS]; unfold getOffset1 interior at *; omega
    rw [shape1 _ _ _ (initBuffers_nonneg cfg s _ r0.1 r0.2)
      (initBuffers_nonneg cfg s _ r1.1 r1.2) (initBuffers_nonneg cfg s _ r2.1 r2.2),
      initBuffers_ne_zero cfg s _ r0.1 r0.2, initBuffers_ne_zero cfg s _ r1.1 r1.2,
      initBuffers_ne_zero cfg s _ r2.1 r2.2, hO]
    unfold getOffset1
    constructor
    · intro h
      exact ⟨hi, by omega⟩
    · intro h
      omega
  · rw [step1D_other _ _ _ _ _ (fun i h e => hi (by unfold getOffset1 at e; exact e ▸ h)),
      initBuffers_heap_buffer1 cfg s hb _ (by rw [getOffset1]; exact hx.1)
        (by rw [hS, getOffset1]; exact hx.2)]
    simp [hi]

theorem interior_succ_inGrid {D x : Int} (h : interior D x) : inGrid D (x + 1) := by
  unfold interior at h
  unfold inGrid
  omega

theorem interior_pred_inGrid {D x : Int} (h : interior D x) : inGrid D (x - 1) := by
  unfold interior at h
  unfold inGrid
  omega

/-- The first round in two dimensions with the direct kernel. -/
theorem first_iteration_d2 (cfg : Config) (s : MainState) (hd : cfg.dimension = Dimension.d2)
    (hD : 3 ≤ cfg.DIM) (halt : cfg.STEP_ALTERNATIVE = false) (hb : s.buffer0 ≠ s.buffer1)
    (x y : Int) (hx : inGrid cfg.DIM x) (hy : inGrid cfg.DIM y) :
    (afterIterations cfg 1 (initBuffers cfg s)).heap s.buffer1 (getOffset2 cfg.DIM x y) ≠ 0 ↔
      (interior cfg.DIM x ∧ interior cfg.DIM y) ∧
        ((x = cfg.DIM / 2 ∧ y = cfg.DIM / 2) ∨
          (x = cfg.DIM / 2 - 1 ∧ y = cfg.DIM / 2) ∨ (x = cfg.DIM / 2 + 1 ∧ y = cfg.DIM / 2) ∨
          (x = cfg.DIM / 2 ∧ y = cfg.DIM / 2 - 1) ∨
          (x = cfg.DIM / 2 ∧ y = cfg.DIM / 2 + 1)) := by
  rw [afterIterations_one, iteration_heap, initBuffers_buffer0, initBuffers_buffer1,
    step_d2 cfg hd halt]
  have hS := SIZE_d2 cfg hd
  have hc : inGrid cfg.DIM (cfg.DIM / 2) := half_inGrid (by omega)
  have hO : seedOffset cfg = getOffset2 cfg.DIM (cfg.DIM / 2) (cfg.DIM / 2) := by
    rw [seedOffset_d2 cfg hd, tdiv_two _ (by omega)]
  have rng : ∀ i j, inGrid cfg.DIM i → inGrid cfg.DIM j →
      0 ≤ getOffset2 cfg.DIM i j ∧ getOffset2 cfg.DIM i j < SIZE cfg := by
    intro i j hi hj
    rw [hS]
    exact getOffset2_inGrid hi hj
  by_cases hi : interior cfg.DIM x ∧ interior cfg.DIM y
  · obtain ⟨hix, hiy⟩ := hi
    rw [step2D_interior _ _ _ _ hb x y hix hiy]
    unfold direct2 DIFFUSE_FACTOR
    have r0 := rng x y hx hy
    have r1 := rng (x + 1) y (interior_succ_inGrid hix) hy
    have r2 := rng (x - 1) y (interior_pred_inGrid hix) hy
    have r3 := rng x (y + 1) hx (interior_succ_inGrid hiy)
    have r4 := rng x (y - 1) hx (interior_pred_inGrid hiy)
    rw [shape2 _ _ _ _ _ (initBuffers_nonneg cfg s _ r0.1 r0.2)
      (initBuffers_nonneg cfg s _ r1.1 r1.2) (initBuffers_nonneg cfg s _ r2.1 r2.2)
      (initBuffers_nonneg cfg s _ r3.1 r3.2) (initBuffers_nonneg cfg s _ r4.1 r4.2),
      initBuffers_ne_zero cfg s _ r0.1 r0.2, initBuffers_ne_zero cfg s _ r1.1 r1.2,
      initBuffers_ne_zero cfg s _ r2.1 r2.2, initBuffers_ne_zero cfg s _ r3.1 r3.2,
      initBuffers_ne_zero cfg s _ r4.1 r4.2, hO,
      getOffset2_eq_iff hy hc, getOffset2_eq_iff hy hc, getOffset2_eq_iff hy hc,
      getOffset2_eq_iff (interior_succ_inGrid hiy) hc,
      getOffset2_eq_iff (interior_pred_inGrid hiy) hc]
    constructor
    · intro h
      exact ⟨⟨hix, hiy⟩, by omega⟩
    · intro h
      omega
  · rw [step2D_other _ _ _ _ _ (fun i j h1 h2 e => hi (by
        obtain ⟨rfl, rfl⟩ := getOffset2_inj hy (interior_inGrid h2) e
        exact ⟨h1, h2⟩)),
      initBuffers_heap_buffer1 cfg s hb _ (rng x y hx hy).1 (rng x y hx hy).2]
    simp [hi]

/-- The first round in three dimensions with the direct kernel. -/
theorem first_iteration_d3 (cfg : Config) (s : MainState) (hd : cfg.dimension = Dimension.d3)
    (hD : 3 ≤ cfg.DIM) (halt : cfg.STEP_ALTERNATIVE = false) (hb : s.buffer0 ≠ s.buffer1)
    (x y z : Int) (hx : inGrid cfg.DIM x) (hy : inGrid cfg.DIM y) (hz : inGrid cfg.DIM z) :
    (afterIterations cfg 1 (initBuffers cfg s)).heap s.buffer1
        (getOffset3 cfg.DIM x y z) ≠ 0 ↔
      (interior cfg.DIM x ∧ interior cfg.DIM y ∧ interior cfg.DIM z) ∧
        ((x = cfg.DIM / 2 ∧ y = cfg.DIM / 2 ∧ z = cfg.DIM / 2) ∨
          (x = cfg.DIM / 2 - 1 ∧ y = cfg.DIM / 2 ∧ z = cfg.DIM / 2) ∨
          (x = cfg.DIM / 2 + 1 ∧ y = cfg.DIM / 2 ∧ z = cfg.DIM / 2) ∨
          (x = cfg.DIM / 2 ∧ y = cfg.DIM / 2 - 1 ∧ z = cfg.DIM / 2) ∨
          (x = cfg.DIM / 2 ∧ y = cfg.DIM / 2 + 1 ∧ z = cfg.DIM / 2) ∨
          (x = cfg.DIM / 2 ∧ y = cfg.DIM / 2 ∧ z = cfg.DIM / 2 - 1) ∨
          (x = cfg.DIM / 2 ∧ y = cfg.DIM / 2 ∧ z = cfg.DIM / 2 + 1)) := by
  rw [afterIterations_one, iteration_heap, initBuffers_buffer0, initBuffers_buffer1,
    step_d3 cfg hd halt]
  have hS := SIZE_d3 cfg hd
  have hc : inGrid cfg.DIM (cfg.DIM / 2) := half_inGrid (by omega)
  have hO : seedOffset cfg =
      getOffset3 cfg.DIM (cfg.DIM / 2) (cfg.DIM / 2) (cfg.DIM / 2) := by
    rw [seedOffset_d3 cfg hd, tdiv_two _ (by omega)]
  have rng : ∀ i j k, inGrid cfg.DIM i → inGrid cfg.DIM j → inGrid cfg.DIM k →
      0 ≤ getOffset3 cfg.DIM i j k ∧ getOffset3 cfg.DIM i j k < SIZE cfg := by
    intro i j k hi hj hk
    rw [hS]
    exact getOffset3_inGrid hi hj hk
  by_cases hi : interior cfg.DIM x ∧ interior cfg.DIM y ∧ interior cfg.DIM z
  · obtain ⟨hix, hiy, hiz⟩ := hi
    rw [step3D_interior _ _ _ _ hb x y z hix hiy hiz]
    unfold direct3 DIFFUSE_FACTOR
    have r0 := rng x y z hx hy hz
    have r1 := rng (x + 1) y z (interior_succ_inGrid hix) hy hz
    have r2 := rng (x - 1) y z (interior_pred_inGrid hix) hy hz
    have r3 := rng x (y + 1) z hx (interior_succ_inGrid hiy) hz
    have r4 := rng x (y - 1) z hx (interior_pred_inGrid hiy) hz
    have r5 := rng x y (z - 1) hx hy (interior_pred_inGrid hiz)
    have r6 := rng x y (z + 1) hx hy (interior_succ_inGrid hiz)
    rw [shape3 _ _ _ _ _ _ _ (initBuffers_nonneg cfg s _ r0.1 r0.2)
      (initBuffers_nonneg cfg s _ r1.1 r1.2) (initBuffers_nonneg cfg s _ r2.1 r2.2)
      (initBuffers_nonneg cfg s _ r3.1 r3.2) (initBuffers_nonneg cfg s _ r4.1 r4.2)
      (initBuffers_nonneg cfg s _ r5.1 r5.2) (initBuffers_nonneg cfg s _ r6.1 r6.2),
      initBuffers_ne_zero cfg s _ r0.1 r0.2, initBuffers_ne_zero cfg s _ r1.1 r1.2,
      initBuffers_ne_zero cfg s _ r2.1 r2.2, initBuffers_ne_zero cfg s _ r3.1 r3.2,
      initBuffers_ne_zero cfg s _ r4.1 r4.2, initBuffers_ne_zero cfg s _ r5.1 r5.2,
      initBuffers_ne_zero cfg s _ r6.1 r6.2, hO,
      getOffset3_eq_iff hy hz hc hc, getOffset3_eq_iff hy hz hc hc,
      getOffset3_eq_iff hy hz hc hc,
      getOffset3_eq_iff (interior_succ_inGrid hiy) hz hc hc,
      getOffset3_eq_iff (interior_pred_inGrid hiy) hz hc hc,
      getOffset3_eq_iff hy (interior_pred_inGrid hiz) hc hc,
      getOffset3_eq_iff hy (interior_succ_inGrid hiz) hc hc]
    generalize cfg.DIM / 2 = c
    have e0 : (c = x ∧ c = y ∧ c = z) ↔ (x = c ∧ y = c ∧ z = c) := by omega
    have e1 : (c = x + 1 ∧ c = y ∧ c = z) ↔ (x = c - 1 ∧ y = c ∧ z = c) := by omega
    have e2 : (c = x - 1 ∧ c = y ∧ c = z) ↔ (x = c + 1 ∧ y = c ∧ z = c) := by omega
    have e3 : (c = x ∧ c = y + 1 ∧ c = z) ↔ (x = c ∧ y = c - 1 ∧ z = c) := by omega
    have e4 : (c = x ∧ c = y - 1 ∧ c = z) ↔ (x = c ∧ y = c + 1 ∧ z = c) := by omega
    have e5 : (c = x ∧ c = y ∧ c = z - 1) ↔ (x = c ∧ y = c ∧ z = c + 1) := by omega
    have e6 : (c = x ∧ c = y ∧ c = z + 1) ↔ (x = c ∧ y = c ∧ z = c - 1) := by omega
    rw [e0, e1, e2, e3, e4, e5, e6]
    have hswap := @or_comm (x = c ∧ y = c ∧ z = c + 1) (x = c ∧ y = c ∧ z = c - 1)
    rw [hswap]
    exact ⟨fun h => ⟨⟨hix, hiy, hiz⟩, h⟩, fun h => h.2⟩
  · rw [step3D_other _ _ _ _ _ (fun i j k h1 h2 h3 e => hi (by
        obtain ⟨rfl, rfl, rfl⟩ :=
          getOffset3_inj hy (interior_inGrid h2) hz (interior_inGrid h3) e
        exact ⟨h1, h2, h3⟩)),
      initBuffers_heap_buffer1 cfg s hb _ (rng x y z hx hy hz).1 (rng x y z hx hy hz).2]
    simp [hi]

/-- The first round when every index is computed exactly.  With the direct kernel, any
dimensionality, extent `D ≥ 3` and two distinct buffer pointers: after the first round the
new read buffer (the old `buffer[1]`) is nonzero at a cell of the grid exactly when that
cell is interior and is the centre `(D/2, ..., D/2)` or one of its `2N` axis neighbours.
The centre is interior; its neighbours are all interior exactly when `D ≥ 5`. -/
theorem first_iteration_shape_exact (cfg : Config) (s : MainState) (hD : 3 ≤ cfg.DIM)
    (halt : cfg.STEP_ALTERNATIVE = false) (hb : s.buffer0 ≠ s.buffer1) :
    (afterIterations cfg 1 (initBuffers cfg s)).buffer0 = s.buffer1 ∧
    interior cfg.DIM (cfg.DIM / 2) ∧
    ((interior cfg.DIM (cfg.DIM / 2 - 1) ∧ interior cfg.DIM (cfg.DIM / 2 + 1)) ↔
      5 ≤ cfg.DIM) ∧
    (cfg.dimension = Dimension.d1 → ∀ x, inGrid cfg.DIM x →
      ((afterIterations cfg 1 (initBuffers cfg s)).heap s.buffer1 (getOffset1 x) ≠ 0 ↔
        interior cfg.DIM x ∧
          (x = cfg.DIM / 2 ∨ x = cfg.DIM / 2 - 1 ∨ x = cfg.DIM / 2 + 1))) ∧
    (cfg.dimension = Dimension.d2 → ∀ x y, inGrid cfg.DIM x → inGrid cfg.DIM y →
      ((afterIterations cfg 1 (initBuffers cfg s)).heap s.buffer1
          (getOffset2 cfg.DIM x y) ≠ 0 ↔
        (interior cfg.DIM x ∧ interior cfg.DIM y) ∧
          ((x = cfg.DIM / 2 ∧ y = cfg.DIM / 2) ∨
            (x = cfg.DIM / 2 - 1 ∧ y = cfg.DIM / 2) ∨
            (x = cfg.DIM / 2 + 1 ∧ y = cfg.DIM / 2) ∨
            (x = cfg.DIM / 2 ∧ y = cfg.DIM / 2 - 1) ∨
            (x = cfg.DIM / 2 ∧ y = cfg.DIM / 2 + 1)))) ∧
    (cfg.dimension = Dimension.d3 → ∀ x y z,
      inGrid cfg.DIM x → inGrid cfg.DIM y → inGrid cfg.DIM z →
      ((afterIterations cfg 1 (initBuffers cfg s)).heap s.buffer1
          (getOffset3 cfg.DIM x y z) ≠ 0 ↔
        (interior cfg.DIM x ∧ interior cfg.DIM y ∧ interior cfg.DIM z) ∧
          ((x = cfg.DIM / 2 ∧ y = cfg.DIM / 2 ∧ z = cfg.DIM / 2) ∨
            (x = cfg.DIM / 2 - 1 ∧ y = cfg.DIM / 2 ∧ z = cfg.DIM / 2) ∨
            (x = cfg.DIM / 2 + 1 ∧ y = cfg.DIM / 2 ∧ z = cfg.DIM / 2) ∨
            (x = cfg.DIM / 2 ∧ y = cfg.DIM / 2 - 1 ∧ z = cfg.DIM / 2) ∨
            (x = cfg.DIM / 2 ∧ y = cfg.DIM / 2 + 1 ∧ z = cfg.DIM / 2) ∨
            (x = cfg.DIM / 2 ∧ y = cfg.DIM / 2 ∧ z = cfg.DIM / 2 - 1) ∨
            (x = cfg.DIM / 2 ∧ y = cfg.DIM / 2 ∧ z = cfg.DIM / 2 + 1)))) := by
  refine ⟨?_, ?_, ?_, ?_, ?_, ?_⟩
  · rw [afterIterations_one, iteration_buffer0, initBuffers_buffer1]
  · unfold interior
    omega
  · unfold interior
    omega
  · intro hd x hx
    exact first_iteration_d1 cfg s hd hD halt hb x hx
  · intro hd x y hx hy
    exact first_iteration_d2 cfg s hd hD halt hb x y hx hy
  · intro hd x y z hx hy hz
    exact first_iteration_d3 cfg s hd hD halt hb x y z hx hy hz

/-- The first round at extent 3: one dimension, the direct kernel.  The centre is cell 1,
cell 0 is one of its two neighbours, and after the first round the new read buffer holds 0
there. -/
theorem first_iteration_extent_three :
    (3 : Int) / 2 - 1 = 0 ∧
      (afterIterations ⟨Dimension.d1, 3, 1, false, none⟩ 1
        (initBuffers ⟨Dimension.d1, 3, 1, false, none⟩ ⟨100, 200, fun _ _ => 7, []⟩)).buffer0 =
        200 ∧
      (afterIterations ⟨Dimension.d1, 3, 1, false, none⟩ 1
        (initBuffers ⟨Dimension.d1, 3, 1, false, none⟩ ⟨100, 200, fun _ _ => 7, []⟩)).heap
          200 (getOffset1 0) = 0 := by
  refine ⟨by decide, rfl, ?_⟩
  by_contra hne
  have h := (first_iteration_d1 ⟨Dimension.d1, 3, 1, false, none⟩
    ⟨100, 200, fun _ _ => 7, []⟩ rfl (by decide) rfl (by decide) 0 (by decide)).1 hne
  exact absurd h.1 (by decide)
/-! ## Allocation and release with the offset layout -/

/-- Claim C9, the code at a failing input: offset layout with `_OFFSET_BUFFER_SIZE = 1`, the
first `malloc` fails (returns 0) and the second returns 4096.  `main` does not take its
failure branch: it zero-fills and seeds through the pointer `0 + 1 * sizeof(cell) = 4`, and
returns 0. -/
theorem main_offset_failure_undetected (h : Heap) :
    (main ⟨Dimension.d1, 3, 0, false, some 1⟩ 0 4096 h).1 = 0 ∧
      (main ⟨Dimension.d1, 3, 0, false, some 1⟩ 0 4096 h).2.trace =
        [Event.memset 4 3, Event.memset 4096 3, Event.seed 4 1, Event.free 0,
          Event.free 4096] := by
  constructor
  · rfl
  · rfl

/-- Claim C10, the code at a failing input: offset layout with `_OFFSET_BUFFER_SIZE = 1`,
one iteration, the two `malloc` calls return 1000 and 2000.  After the swap `buffer[0]` is
the second allocation, the offset is taken off it, and `free` is given 1996 and 1004. -/
theorem main_offset_release_odd (h : Heap) :
    (main ⟨Dimension.d1, 3, 1, false, some 1⟩ 1000 2000 h).1 = 0 ∧
      freed (main ⟨Dimension.d1, 3, 1, false, some 1⟩ 1000 2000 h).2.trace = [1996, 1004] := by
  constructor
  · rfl
  · rfl

/-- With the offset layout, `buffer[0]` starts `sizeof(cell) * _OFFSET_BUFFER_SIZE` bytes
past the address `malloc` returned, and the allocation is `_OFFSET_BUFFER_SIZE` bytes longer
than the cells. -/
theorem allocate_offset (cfg : Config) (k : Int) (ho : cfg.OFFSET_BUFFER = some k)
    (m0 m1 : Ptr) (h : Heap) :
    (allocate cfg m0 m1 h).buffer0 - m0 = 4 * k ∧
      mallocBytes0 cfg = 4 * SIZE cfg + k := by
  unfold allocate mallocBytes0 sizeofCell
  rw [ho]
  constructor
  · simp only
    ring
  · rfl

/-- Claim C11, the code at a failing input: offset layout with `_OFFSET_BUFFER_SIZE = 1`,
one dimension, extent 3, the first `malloc` returning 1000.  The allocation is the 13 bytes
from 1000 to 1012; `buffer[0]` starts 4 bytes, not 1 byte, past its base, and its three
cells take the bytes from 1004 to 1015, the last three of them outside the allocation. -/
theorem offset_buffer_leaves_allocation (h : Heap) :
    mallocBytes0 ⟨Dimension.d1, 3, 0, false, some 1⟩ = 13 ∧
      (allocate ⟨Dimension.d1, 3, 0, false, some 1⟩ 1000 2000 h).buffer0 - 1000 = 4 ∧
      (allocate ⟨Dimension.d1, 3, 0, false, some 1⟩ 1000 2000 h).buffer0 +
          sizeofCell * SIZE ⟨Dimension.d1, 3, 0, false, some 1⟩ = 1016 ∧
      ¬ ((allocate ⟨Dimension.d1, 3, 0, false, some 1⟩ 1000 2000 h).buffer0 +
          sizeofCell * SIZE ⟨Dimension.d1, 3, 0, false, some 1⟩ ≤
        1000 + mallocBytes0 ⟨Dimension.d1, 3, 0, false, some 1⟩) := by
  refine ⟨rfl, rfl, rfl, ?_⟩
  show ¬ ((1016 : Int) ≤ 1013)
  decide
/-! ## Bounds-checked kernels -/

theorem forLoop_some {σ : Type} (b : Int → σ → σ) (B : Int → Option σ → Option σ) :
    ∀ (n : Nat) (lo : Int) (s : σ),
      (∀ i s, lo ≤ i → i < lo + n → B i (some s) = some (b i s)) →
      forLoop B n lo (some s) = some (forLoop b n lo s) := by
  intro n
  induction n with
  | zero => intro lo s _; rfl
  | succ n ih =>
    intro lo s hB
    simp only [forLoop]
    rw [hB lo s le_rfl (by push_cast; omega)]
    exact ih (lo + 1) (b lo s) (fun i t h1 h2 => hB i t (by omega) (by push_cast; omega))

/-- A loop over optional states whose every round succeeds runs as the loop over plain
states. -/
theorem forRange_some {σ : Type} {lo hi : Int} (b : Int → σ → σ)
    (B : Int → Option σ → Option σ)
    (hB : ∀ i s, lo ≤ i → i < hi → B i (some s) = some (b i s)) (s : σ) :
    forRange lo hi B (some s) = some (forRange lo hi b s) := by
  unfold forRange
  exact forLoop_some b B _ lo s (fun i t h1 h2 => hB i t h1 (by omega))

/-- A loop whose range is empty does nothing. -/
theorem forRange_empty {σ : Type} {lo hi : Int} (b : Int → σ → σ) (s : σ) (h : hi ≤ lo) :
    forRange lo hi b s = s := by
  unfold forRange
  have e : (hi - lo).toNat = 0 := by omega
  rw [e]
  rfl

theorem readChecked_some {n i : Int} (h : Heap) (p : Ptr) (hi : inGrid n i) :
    readChecked n h p i = some (readCell h p i) := by
  unfold readChecked
  rw [if_pos hi]

theorem writeChecked_some {n i : Int} (h : Heap) (p : Ptr) (v : ℚ) (hi : inGrid n i) :
    writeChecked n h p i v = some (writeCell h p i v) := by
  unfold writeChecked
  rw [if_pos hi]

theorem addChecked_some {n i : Int} (h : Heap) (p : Ptr) (v : ℚ) (hi : inGrid n i) :
    addChecked n h p i v = some (addCell h p i v) := by
  unfold addChecked
  rw [if_pos hi]

theorem body1DChecked_some (n : Int) (r w : Ptr) (i : Int) (h : Heap)
    (h0 : inGrid n (getOffset1 i)) (h1 : inGrid n (getOffset1 (i + 1)))
    (h2 : inGrid n (getOffset1 (i - 1))) :
    body1DChecked n r w i h = some (body1D r w i h) := by
  unfold body1DChecked body1D
  simp only [readChecked_some _ _ h0, readChecked_some _ _ h1, readChecked_some _ _ h2,
    writeChecked_some _ _ _ h0, Option.bind_eq_bind, Option.some_bind]

theorem altBody1DChecked_some (n : Int) (r w : Ptr) (i : Int) (h : Heap)
    (h0 : inGrid n (getOffset1 i)) (h1 : inGrid n (getOffset1 (i + 1)))
    (h2 : inGrid n (getOffset1 (i - 1))) :
    altBody1DChecked n r w i h = some (altBody1D r w i h) := by
  unfold altBody1DChecked altBody1D
  simp only [readChecked_some _ _ h0, addChecked_some _ _ _ h0, addChecked_some _ _ _ h1,
    addChecked_some _ _ _ h2, Option.bind_eq_bind, Option.some_bind]

theorem body2DChecked_some (n D : Int) (r w : Ptr) (i j : Int) (h : Heap)
    (h0 : inGrid n (getOffset2 D i j)) (h1 : inGrid n (getOffset2 D (i + 1) j))
    (h2 : inGrid n (getOffset2 D (i - 1) j)) (h3 : inGrid n (getOffset2 D i (j + 1)))
    (h4 : inGrid n (getOffset2 D i (j - 1))) :
    body2DChecked n D r w i j h = some (body2D D r w i j h) := by
  unfold body2DChecked body2D
  simp only [readChecked_some _ _ h0, readChecked_some _ _ h1, readChecked_some _ _ h2,
    readChecked_some _ _ h3, readChecked_some _ _ h4, writeChecked_some _ _ _ h0,
    Option.bind_eq_bind, Option.some_bind]

theorem altBody2DChecked_some (n D : Int) (r w : Ptr) (i j : Int) (h : Heap)
    (h0 : inGrid n (getOffset2 D i j)) (h1 : inGrid n (getOffset2 D (i + 1) j))
    (h2 : inGrid n (getOffset2 D (i - 1) j)) (h3 : inGrid n (getOffset2 D i (j + 1)))
    (h4 : inGrid n (getOffset2 D i (j - 1))) :
    altBody2DChecked n D r w i j h = some (altBody2D D r w i j h) := by
  unfold altBody2DChecked altBody2D
  simp only [readChecked_some _ _ h0, addChecked_some _ _ _ h0, addChecked_some _ _ _ h1,
    addChecked_some _ _ _ h2, addChecked_some _ _ _ h3, addChecked_some _ _ _ h4,
    Option.bind_eq_bind, Option.some_bind]

theorem body3DChecked_some (n D : Int) (r w : Ptr) (i j k : Int) (h : Heap)
    (h0 : inGrid n (getOffset3 D i j k)) (h1 : inGrid n (getOffset3 D (i + 1) j k))
    (h2 : inGrid n (getOffset3 D (i - 1) j k)) (h3 : inGrid n (getOffset3 D i (j + 1) k))
    (h4 : inGrid n (getOffset3 D i (j - 1) k)) (h5 : inGrid n (getOffset3 D i j (k + 1)))
    (h6 : inGrid n (getOffset3 D i j (k - 1))) :
    body3DChecked n D r w i j k h = some (body3D D r w i j k h) := by
  unfold body3DChecked body3D
  simp only [readChecked_some _ _ h0, readChecked_some _ _ h1, readChecked_some _ _ h2,
    readChecked_some _ _ h3, readChecked_some _ _ h4, readChecked_some _ _ h5,
    readChecked_some _ _ h6, writeChecked_some _ _ _ h0, Option.bind_eq_bind,
    Option.some_bind]

theorem altBody3DChecked_some (n D : Int) (r w : Ptr) (i j k : Int) (h : Heap)
    (h0 : inGrid n (getOffset3 D i j k)) (h1 : inGrid n (getOffset3 D (i + 1) j k))
    (h2 : inGrid n (getOffset3 D (i - 1) j k)) (h3 : inGrid n (getOffset3 D i (j + 1) k))
    (h4 : inGrid n (getOffset3 D i (j - 1) k)) (h5 : inGrid n (getOffset3 D i j (k + 1)))
    (h6 : inGrid n (getOffset3 D i j (k - 1))) :
    altBody3DChecked n D r w i j k h = some (altBody3D D r w i j k h) := by
  unfold altBody3DChecked altBody3D
  simp only [readChecked_some _ _ h0, addChecked_some _ _ _ h0, addChecked_some _ _ _ h1,
    addChecked_some _ _ _ h2, addChecked_some _ _ _ h3, addChecked_some _ _ _ h4,
    addChecked_some _ _ _ h5, addChecked_some _ _ _ h6, Option.bind_eq_bind,
    Option.some_bind]

/-- The rounds of the kernel loops have their counter interior, so it, its successor and
its predecessor are coordinates of the grid. -/
theorem loop_inGrid {D i : Int} (h1 : 1 ≤ i) (h2 : i < D - 1) :
    inGrid D i ∧ inGrid D (i + 1) ∧ inGrid D (i - 1) := by
  unfold inGrid
  omega

/-- In one dimension every index the kernels use is inside the `D` cells. -/
theorem step1DChecked_eq (D : Int) (r w : Ptr) (h : Heap) :
    step1DChecked D D r w h = some (step1D D r w h) ∧
      stepAlt1DChecked D D r w h = some (stepAlt1D D r w h) := by
  unfold step1DChecked step1D stepAlt1DChecked stepAlt1D
  constructor
  · apply forRange_some
    intro i s h1 h2
    obtain ⟨g0, g1, g2⟩ := loop_inGrid h1 h2
    exact body1DChecked_some D r w i s g0 g1 g2
  · apply forRange_some
    intro i s h1 h2
    obtain ⟨g0, g1, g2⟩ := loop_inGrid h1 h2
    exact altBody1DChecked_some D r w i s g0 g1 g2

/-- In two dimensions every index the kernels use is inside the `D * D` cells. -/
theorem step2DChecked_eq (D : Int) (r w : Ptr) (h : Heap) :
    step2DChecked (D * D) D r w h = some (step2D D r w h) ∧
      stepAlt2DChecked (D * D) D r w h = some (stepAlt2D D r w h) := by
  unfold step2DChecked step2D stepAlt2DChecked stepAlt2D
  constructor
  · apply forRange_some
    intro i s h1 h2
    obtain ⟨g0, g1, g2⟩ := loop_inGrid h1 h2
    apply forRange_some
    intro j t h3 h4
    obtain ⟨k0, k1, k2⟩ := loop_inGrid h3 h4
    exact body2DChecked_some _ D r w i j t (getOffset2_inGrid g0 k0)
      (getOffset2_inGrid g1 k0) (getOffset2_inGrid g2 k0) (getOffset2_inGrid g0 k1)
      (getOffset2_inGrid g0 k2)
  · apply forRange_some
    intro i s h1 h2
    obtain ⟨g0, g1, g2⟩ := loop_inGrid h1 h2
    apply forRange_some
    intro j t h3 h4
    obtain ⟨k0, k1, k2⟩ := loop_inGrid h3 h4
    exact altBody2DChecked_some _ D r w i j t (getOffset2_inGrid g0 k0)
      (getOffset2_inGrid g1 k0) (getOffset2_inGrid g2 k0) (getOffset2_inGrid g0 k1)
      (getOffset2_inGrid g0 k2)

/-- In three dimensions every index the kernels use is inside the `D * D * D` cells. -/
theorem step3DChecked_eq (D : Int) (r w : Ptr) (h : Heap) :
    step3DChecked (D * D * D) D r w h = some (step3D D r w h) ∧
      stepAlt3DChecked (D * D * D) D r w h = some (stepAlt3D D r w h) := by
  unfold step3DChecked step3D stepAlt3DChecked stepAlt3D
  constructor
  · apply forRange_some
    intro i s h1 h2
    obtain ⟨g0, g1, g2⟩ := loop_inGrid h1 h2
    apply forRange_some
    intro j t h3 h4
    obtain ⟨k0, k1, k2⟩ := loop_inGrid h3 h4
    apply forRange_some
    intro k u h5 h6
    obtain ⟨l0, l1, l2⟩ := loop_inGrid h5 h6
    exact body3DChecked_some _ D r w i j k u (getOffset3_inGrid g0 k0 l0)
      (getOffset3_inGrid g1 k0 l0) (getOffset3_inGrid g2 k0 l0) (getOffset3_inGrid g0 k1 l0)
      (getOffset3_inGrid g0 k2 l0) (getOffset3_inGrid g0 k0 l1) (getOffset3_inGrid g0 k0 l2)
  · apply forRange_some
    intro i s h1 h2
    obtain ⟨g0, g1, g2⟩ := loop_inGrid h1 h2
    apply forRange_some
    intro j t h3 h4
    obtain ⟨k0, k1, k2⟩ := loop_inGrid h3 h4
    apply forRange_some
    intro k u h5 h6
    obtain ⟨l0, l1, l2⟩ := loop_inGrid h5 h6
    exact altBody3DChecked_some _ D r w i j k u (getOffset3_inGrid g0 k0 l0)
      (getOffset3_inGrid g1 k0 l0) (getOffset3_inGrid g2 k0 l0) (getOffset3_inGrid g0 k1 l0)
      (getOffset3_inGrid g0 k2 l0) (getOffset3_inGrid g0 k0 l1) (getOffset3_inGrid g0 k0 l2)

theorem stepChecked_d1 (n : Int) (cfg : Config) (hd : cfg.dimension = Dimension.d1)
    (ha : cfg.STEP_ALTERNATIVE = false) : stepChecked n cfg = step1DChecked n cfg.DIM := by
  obtain ⟨dim, D, m, alt, off⟩ := cfg
  subst hd ha
  rfl

theorem stepChecked_d1_alt (n : Int) (cfg : Config) (hd : cfg.dimension = Dimension.d1)
    (ha : cfg.STEP_ALTERNATIVE = true) : stepChecked n cfg = stepAlt1DChecked n cfg.DIM := by
  obtain ⟨dim, D, m, alt, off⟩ := cfg
  subst hd ha
  rfl

theorem stepChecked_d2 (n : Int) (cfg : Config) (hd : cfg.dimension = Dimension.d2)
    (ha : cfg.STEP_ALTERNATIVE = false) : stepChecked n cfg = step2DChecked n cfg.DIM := by
  obtain ⟨dim, D, m, alt, off⟩ := cfg
  subst hd ha
  rfl

theorem stepChecked_d2_alt (n : Int) (cfg : Config) (hd : cfg.dimension = Dimension.d2)
    (ha : cfg.STEP_ALTERNATIVE = true) : stepChecked n cfg = stepAlt2DChecked n cfg.DIM := by
  obtain ⟨dim, D, m, alt, off⟩ := cfg
  subst hd ha
  rfl

theorem stepChecked_d3 (n : Int) (cfg : Config) (hd : cfg.dimension = Dimension.d3)
    (ha : cfg.STEP_ALTERNATIVE = false) : stepChecked n cfg = step3DChecked n cfg.DIM := by
  obtain ⟨dim, D, m, alt, off⟩ := cfg
  subst hd ha
  rfl

theorem stepChecked_d3_alt (n : Int) (cfg : Config) (hd : cfg.dimension = Dimension.d3)
    (ha : cfg.STEP_ALTERNATIVE = true) : stepChecked n cfg = stepAlt3DChecked n cfg.DIM := by
  obtain ⟨dim, D, m, alt, off⟩ := cfg
  subst hd ha
  rfl

/-- Checked against the `SIZE` cells of the buffers, the kernel of every configuration runs
to its end, with the result of the unchecked kernel. -/
theorem stepChecked_eq (cfg : Config) (r w : Ptr) (h : Heap) :
    stepChecked (SIZE cfg) cfg r w h = some (step cfg r w h) := by
  cases hd : cfg.dimension <;> cases ha : cfg.STEP_ALTERNATIVE
  · rw [stepChecked_d1 _ cfg hd ha, step_d1 cfg hd ha, SIZE_d1 cfg hd]
    exact (step1DChecked_eq cfg.DIM r w h).1
  · rw [stepChecked_d1_alt _ cfg hd ha, step_d1_alt cfg hd ha, SIZE_d1 cfg hd]
    exact (step1DChecked_eq cfg.DIM r w h).2
  · rw [stepChecked_d2 _ cfg hd ha, step_d2 cfg hd ha, SIZE_d2 cfg hd]
    exact (step2DChecked_eq cfg.DIM r w h).1
  · rw [stepChecked_d2_alt _ cfg hd ha, step_d2_alt cfg hd ha, SIZE_d2 cfg hd]
    exact (step2DChecked_eq cfg.DIM r w h).2
  · rw [stepChecked_d3 _ cfg hd ha, step_d3 cfg hd ha, SIZE_d3 cfg hd]
    exact (step3DChecked_eq cfg.DIM r w h).1
  · rw [stepChecked_d3_alt _ cfg hd ha, step_d3_alt cfg hd ha, SIZE_d3 cfg hd]
    exact (step3DChecked_eq cfg.DIM r w h).2

/-- With `D ≥ 1` the seeded index is one of the `SIZE` cells. -/
theorem seedOffset_inGrid (cfg : Config) (hD : 1 ≤ cfg.DIM) :
    inGrid (SIZE cfg) (seedOffset cfg) := by
  have hc : inGrid cfg.DIM (cfg.DIM.tdiv 2) := by
    rw [tdiv_two _ hD]
    exact half_inGrid hD
  cases hd : cfg.dimension
  · rw [SIZE_d1 cfg hd, seedOffset_d1 cfg hd]
    exact hc
  · rw [SIZE_d2 cfg hd, seedOffset_d2 cfg hd]
    exact getOffset2_inGrid hc hc
  · rw [SIZE_d3 cfg hd, seedOffset_d3 cfg hd]
    exact getOffset3_inGrid hc hc hc

/-- The accesses when every index is computed exactly.  For every dimensionality, either
kernel variant and every extent `D ≥ 3`: run with every read of the read buffer and every
write of the write buffer checked against the `D^N` cells, the kernel never meets an index
out of range (it ends with the result of the unchecked kernel); and the index `main` seeds
is one of the `D^N` cells, so the checked seeding store succeeds too. -/
theorem accesses_in_range_exact (cfg : Config) (hD : 3 ≤ cfg.DIM) (r w p : Ptr) (h : Heap) :
    stepChecked (SIZE cfg) cfg r w h = some (step cfg r w h) ∧
      (0 ≤ seedOffset cfg ∧ seedOffset cfg < SIZE cfg) ∧
      seedChecked cfg h p = some (writeCell h p (seedOffset cfg) (seedValue cfg)) := by
  have hs := seedOffset_inGrid cfg (by omega)
  refine ⟨stepChecked_eq cfg r w h, hs, ?_⟩
  unfold seedChecked
  exact writeChecked_some h p _ hs

/-- With `D ≤ 2` the kernel of every configuration makes no access at all: checked against
buffers of any number `n` of cells, even none, it ends, and memory is as before. -/
theorem stepChecked_small (n : Int) (cfg : Config) (hD : cfg.DIM ≤ 2) (r w : Ptr) (h : Heap) :
    stepChecked n cfg r w h = some h ∧ step cfg r w h = h := by
  have he : cfg.DIM - 1 ≤ 1 := by omega
  cases hd : cfg.dimension <;> cases ha : cfg.STEP_ALTERNATIVE
  · rw [stepChecked_d1 _ cfg hd ha, step_d1 cfg hd ha]
    exact ⟨forRange_empty _ _ he, forRange_empty _ _ he⟩
  · rw [stepChecked_d1_alt _ cfg hd ha, step_d1_alt cfg hd ha]
    exact ⟨forRange_empty _ _ he, forRange_empty _ _ he⟩
  · rw [stepChecked_d2 _ cfg hd ha, step_d2 cfg hd ha]
    exact ⟨forRange_empty _ _ he, forRange_empty _ _ he⟩
  · rw [stepChecked_d2_alt _ cfg hd ha, step_d2_alt cfg hd ha]
    exact ⟨forRange_empty _ _ he, forRange_empty _ _ he⟩
  · rw [stepChecked_d3 _ cfg hd ha, step_d3 cfg hd ha]
    exact ⟨forRange_empty _ _ he, forRange_empty _ _ he⟩
  · rw [stepChecked_d3_alt _ cfg hd ha, step_d3_alt cfg hd ha]
    exact ⟨forRange_empty _ _ he, forRange_empty _ _ he⟩

/-- Counterexample to claim C16 as stated: one dimension, the direct kernel, extents 0, 1
and 2.  Checked against the `SIZE` cells of the buffers, the kernel step ends without
meeting an index out of range. -/
theorem small_extent_counterexample :
    stepChecked (SIZE ⟨Dimension.d1, 0, 1, false, none⟩) ⟨Dimension.d1, 0, 1, false, none⟩
        100 200 (fun _ _ => 0) ≠ none ∧
      stepChecked (SIZE ⟨Dimension.d1, 1, 1, false, none⟩) ⟨Dimension.d1, 1, 1, false, none⟩
        100 200 (fun _ _ => 0) ≠ none ∧
      stepChecked (SIZE ⟨Dimension.d1, 2, 1, false, none⟩) ⟨Dimension.d1, 2, 1, false, none⟩
        100 200 (fun _ _ => 0) ≠ none := by
  refine ⟨?_, ?_, ?_⟩
  · rw [(stepChecked_small _ ⟨Dimension.d1, 0, 1, false, none⟩ (by decide) 100 200 _).1]
    exact Option.some_ne_none _
  · rw [(stepChecked_small _ ⟨Dimension.d1, 1, 1, false, none⟩ (by decide) 100 200 _).1]
    exact Option.some_ne_none _
  · rw [(stepChecked_small _ ⟨Dimension.d1, 2, 1, false, none⟩ (by decide) 100 200 _).1]
    exact Option.some_ne_none _
/-! ## The two variants on a zeroed write buffer -/

theorem ite_congr_zero (c : Prop) [Decidable c] {a b : ℚ} (hab : c → a = b) :
    (if c then a else 0) = (if c then b else 0) := by
  split_ifs with hc
  · exact hab hc
  · rfl

theorem step1D_congr (D : Int) (r w r' w' : Ptr) (h h' : Heap) (hrw : r ≠ w)
    (hrw' : r' ≠ w') (hR : agree D (h r) (h' r')) (hW : agree D (h w) (h' w')) :
    agree D (step1D D r w h w) (step1D D r' w' h' w') := by
  intro p hp
  by_cases hi : interior D p
  · have e1 := step1D_interior D r w h hrw p hi
    have e2 := step1D_interior D r' w' h' hrw' p hi
    unfold direct1 getOffset1 at e1 e2
    rw [e1, e2, hR p hp, hR (p + 1) (interior_succ_inGrid hi),
      hR (p - 1) (interior_pred_inGrid hi)]
  · have hne : ∀ i, interior D i → p ≠ getOffset1 i := fun i h1 e => hi (e ▸ h1)
    rw [step1D_other D r w h p hne, step1D_other D r' w' h' p hne, hW p hp]

theorem stepAlt1D_congr (D : Int) (r w r' w' : Ptr) (h h' : Heap) (hrw : r ≠ w)
    (hrw' : r' ≠ w') (hR : agree D (h r) (h' r')) (hW : agree D (h w) (h' w')) :
    agree D (stepAlt1D D r w h w) (stepAlt1D D r' w' h' w') := by
  intro p hp
  have e1 := stepAlt1D_cell D r w h hrw p
  have e2 := stepAlt1D_cell D r' w' h' hrw' p
  unfold getOffset1 at e1 e2
  rw [e1, e2, hW p hp, hR p hp,
    ite_congr_zero (interior D (p + 1)) (fun hc => hR (p + 1) (interior_inGrid hc)),
    ite_congr_zero (interior D (p - 1)) (fun hc => hR (p - 1) (interior_inGrid hc))]

theorem step2D_congr (D : Int) (r w r' w' : Ptr) (h h' : Heap) (hrw : r ≠ w)
    (hrw' : r' ≠ w') (hR : agree (D * D) (h r) (h' r')) (hW : agree (D * D) (h w) (h' w')) :
    agree (D * D) (step2D D r w h w) (step2D D r' w' h' w') := by
  intro p hp
  by_cases hD : 0 < D
  · obtain ⟨x, y, hx, hy, rfl⟩ := getOffset2_surj hD hp
    by_cases hi : interior D x ∧ interior D y
    · obtain ⟨hix, hiy⟩ := hi
      rw [step2D_interior D r w h hrw x y hix hiy,
        step2D_interior D r' w' h' hrw' x y hix hiy]
      unfold direct2
      rw [hR _ hp, hR _ (getOffset2_inGrid (interior_succ_inGrid hix) hy),
        hR _ (getOffset2_inGrid (interior_pred_inGrid hix) hy),
        hR _ (getOffset2_inGrid hx (interior_succ_inGrid hiy)),
        hR _ (getOffset2_inGrid hx (interior_pred_inGrid hiy))]
    · have hne : ∀ i j, interior D i → interior D j →
          getOffset2 D x y ≠ getOffset2 D i j := by
        intro i j h1 h2 e
        obtain ⟨rfl, rfl⟩ := getOffset2_inj hy (interior_inGrid h2) e
        exact hi ⟨h1, h2⟩
      rw [step2D_other D r w h _ hne, step2D_other D r' w' h' _ hne, hW _ hp]
  · have he : D - 1 ≤ 1 := by omega
    unfold step2D
    rw [forRange_empty _ _ he, forRange_empty _ _ he]
    exact hW p hp

theorem stepAlt2D_congr (D : Int) (r w r' w' : Ptr) (h h' : Heap) (hrw : r ≠ w)
    (hrw' : r' ≠ w') (hR : agree (D * D) (h r) (h' r')) (hW : agree (D * D) (h w) (h' w')) :
    agree (D * D) (stepAlt2D D r w h w) (stepAlt2D D r' w' h' w') := by
  intro p hp
  by_cases hD : 0 < D
  · obtain ⟨x, y, hx, hy, rfl⟩ := getOffset2_surj hD hp
    rw [stepAlt2D_cell D r w h hrw x y hy, stepAlt2D_cell D r' w' h' hrw' x y hy,
      hW _ hp, hR _ hp,
      ite_congr_zero (interior D (x + 1) ∧ interior D y)
        (fun hc => hR _ (getOffset2_inGrid (interior_inGrid hc.1) hy)),
      ite_congr_zero (interior D (x - 1) ∧ interior D y)
        (fun hc => hR _ (getOffset2_inGrid (interior_inGrid hc.1) hy)),
      ite_congr_zero (interior D x ∧ interior D (y + 1))
        (fun hc => hR _ (getOffset2_inGrid hx (interior_inGrid hc.2))),
      ite_congr_zero (interior D x ∧ interior D (y - 1))
        (fun hc => hR _ (getOffset2_inGrid hx (interior_inGrid hc.2)))]
  · have he : D - 1 ≤ 1 := by omega
    unfold stepAlt2D
    rw [forRange_empty _ _ he, forRange_empty _ _ he]
    exact hW p hp

theorem step3D_congr (D : Int) (r w r' w' : Ptr) (h h' : Heap) (hrw : r ≠ w)
    (hrw' : r' ≠ w') (hR : agree (D * D * D) (h r) (h' r'))
    (hW : agree (D * D * D) (h w) (h' w')) :
    agree (D * D * D) (step3D D r w h w) (step3D D r' w' h' w') := by
  intro p hp
  by_cases hD : 0 < D
  · obtain ⟨x, y, z, hx, hy, hz, rfl⟩ := getOffset3_surj hD hp
    by_cases hi : interior D x ∧ interior D y ∧ interior D z
    · obtain ⟨hix, hiy, hiz⟩ := hi
      rw [step3D_interior D r w h hrw x y z hix hiy hiz,
        step3D_interior D r' w' h' hrw' x y z hix hiy hiz]
      unfold direct3
      rw [hR _ hp, hR _ (getOffset3_inGrid (interior_succ_inGrid hix) hy hz),
        hR _ (getOffset3_inGrid (interior_pred_inGrid hix) hy hz),
        hR _ (getOffset3_inGrid hx (interior_succ_inGrid hiy) hz),
        hR _ (getOffset3_inGrid hx (interior_pred_inGrid hiy) hz),
        hR _ (getOffset3_inGrid hx hy (interior_succ_inGrid hiz)),
        hR _ (getOffset3_inGrid hx hy (interior_pred_inGrid hiz))]
    · have hne : ∀ i j k, interior D i → interior D j → interior D k →
          getOffset3 D x y z ≠ getOffset3 D i j k := by
        intro i j k h1 h2 h3 e
        obtain ⟨rfl, rfl, rfl⟩ :=
          getOffset3_inj hy (interior_inGrid h2) hz (interior_inGrid h3) e
        exact hi ⟨h1, h2, h3⟩
      rw [step3D_other D r w h _ hne, step3D_other D r' w' h' _ hne, hW _ hp]
  · have he : D - 1 ≤ 1 := by omega
    unfold step3D
    rw [forRange_empty _ _ he, forRange_empty _ _ he]
    exact hW p hp

theorem stepAlt3D_congr (D : Int) (r w r' w' : Ptr) (h h' : Heap) (hrw : r ≠ w)
    (hrw' : r' ≠ w') (hR : agree (D * D * D) (h r) (h' r'))
    (hW : agree (D * D * D) (h w) (h' w')) :
    agree (D * D * D) (stepAlt3D D r w h w) (stepAlt3D D r' w' h' w') := by
  intro p hp
  by_cases hD : 0 < D
  · obtain ⟨x, y, z, hx, hy, hz, rfl⟩ := getOffset3_surj hD hp
    rw [stepAlt3D_cell D r w h hrw x y z hy hz, stepAlt3D_cell D r' w' h' hrw' x y z hy hz,
      hW _ hp, hR _ hp,
      ite_congr_zero (interior D (x + 1) ∧ interior D y ∧ interior D z)
        (fun hc => hR _ (getOffset3_inGrid (interior_inGrid hc.1) hy hz)),
      ite_congr_zero (interior D (x - 1) ∧ interior D y ∧ interior D z)
        (fun hc => hR _ (getOffset3_inGrid (interior_inGrid hc.1) hy hz)),
      ite_congr_zero (interior D x ∧ interior D (y + 1) ∧ interior D z)
        (fun hc => hR _ (getOffset3_inGrid hx (interior_inGrid hc.2.1) hz)),
      ite_congr_zero (interior D x ∧ interior D (y - 1) ∧ interior D z)
        (fun hc => hR _ (getOffset3_inGrid hx (interior_inGrid hc.2.1) hz)),
      ite_congr_zero (interior D x ∧ interior D y ∧ interior D (z + 1))
        (fun hc => hR _ (getOffset3_inGrid hx hy (interior_inGrid hc.2.2))),
      ite_congr_zero (interior D x ∧ interior D y ∧ interior D (z - 1))
        (fun hc => hR _ (getOffset3_inGrid hx hy (interior_inGrid hc.2.2)))]
  · have he : D - 1 ≤ 1 := by omega
    unfold stepAlt3D
    rw [forRange_empty _ _ he, forRange_empty _ _ he]
    exact hW p hp

/-- On the cells of the grid, what a kernel leaves in its write buffer is determined by
what the read and the write buffer held on the cells of the grid. -/
theorem step_congr (cfg : Config) (r w r' w' : Ptr) (h h' : Heap) (hrw : r ≠ w)
    (hrw' : r' ≠ w') (hR : agree (SIZE cfg) (h r) (h' r'))
    (hW : agree (SIZE cfg) (h w) (h' w')) :
    agree (SIZE cfg) (step cfg r w h w) (step cfg r' w' h' w') := by
  cases hd : cfg.dimension <;> cases ha : cfg.STEP_ALTERNATIVE
  · rw [step_d1 cfg hd ha]
    rw [SIZE_d1 cfg hd] at *
    exact step1D_congr _ r w r' w' h h' hrw hrw' hR hW
  · rw [step_d1_alt cfg hd ha]
    rw [SIZE_d1 cfg hd] at *
    exact stepAlt1D_congr _ r w r' w' h h' hrw hrw' hR hW
  · rw [step_d2 cfg hd ha]
    rw [SIZE_d2 cfg hd] at *
    exact step2D_congr _ r w r' w' h h' hrw hrw' hR hW
  · rw [step_d2_alt cfg hd ha]
    rw [SIZE_d2 cfg hd] at *
    exact stepAlt2D_congr _ r w r' w' h h' hrw hrw' hR hW
  · rw [step_d3 cfg hd ha]
    rw [SIZE_d3 cfg hd] at *
    exact step3D_congr _ r w r' w' h h' hrw hrw' hR hW
  · rw [step_d3_alt cfg hd ha]
    rw [SIZE_d3 cfg hd] at *
    exact stepAlt3D_congr _ r w r' w' h h' hrw hrw' hR hW

/-! ## Offset transparency -/

/-- Two runs of the initialisation and of `n` rounds of the loop of `main`, each with two
distinct buffer pointers, whatever the pointers and whatever memory held before: the two
buffers hold the same values on the cells of the grid in both runs. -/
theorem run_agree (cfg : Config) (s s' : MainState) (hs : s.buffer0 ≠ s.buffer1)
    (hs' : s'.buffer0 ≠ s'.buffer1) (n : Nat) :
    ((afterIterations cfg n (initBuffers cfg s)).buffer0 ≠
        (afterIterations cfg n (initBuffers cfg s)).buffer1 ∧
      (afterIterations cfg n (initBuffers cfg s')).buffer0 ≠
        (afterIterations cfg n (initBuffers cfg s')).buffer1) ∧
    agree (SIZE cfg)
      ((afterIterations cfg n (initBuffers cfg s)).heap
        (afterIterations cfg n (initBuffers cfg s)).buffer0)
      ((afterIterations cfg n (initBuffers cfg s')).heap
        (afterIterations cfg n (initBuffers cfg s')).buffer0) ∧
    agree (SIZE cfg)
      ((afterIterations cfg n (initBuffers cfg s)).heap
        (afterIterations cfg n (initBuffers cfg s)).buffer1)
      ((afterIterations cfg n (initBuffers cfg s')).heap
        (afterIterations cfg n (initBuffers cfg s')).buffer1) := by
  induction n with
  | zero =>
    rw [afterIterations_zero, afterIterations_zero]
    refine ⟨⟨hs, hs'⟩, ?_, ?_⟩
    · intro p hp
      rw [initBuffers_buffer0, initBuffers_buffer0,
        initBuffers_heap_buffer0 cfg s p hp.1 hp.2, initBuffers_heap_buffer0 cfg s' p hp.1 hp.2]
    · intro p hp
      rw [initBuffers_buffer1, initBuffers_buffer1,
        initBuffers_heap_buffer1 cfg s hs p hp.1 hp.2,
        initBuffers_heap_buffer1 cfg s' hs' p hp.1 hp.2]
  | succ n ih =>
    obtain ⟨⟨hne, hne'⟩, h0, h1⟩ := ih
    rw [afterIterations_succ, afterIterations_succ]
    simp only [iteration_buffer0, iteration_buffer1, iteration_heap]
    refine ⟨⟨fun e => hne e.symm, fun e => hne' e.symm⟩, ?_, ?_⟩
    · exact step_congr cfg _ _ _ _ _ _ hne hne' h0 h1
    · rw [step_other_ptr cfg _ _ _ hne, step_other_ptr cfg _ _ _ hne']
      exact h0

theorem afterIterations_withOffset (cfg : Config) (o : Option Int) (n : Nat) (s : MainState) :
    afterIterations (withOffset cfg o) n s = afterIterations cfg n s := by
  induction n with
  | zero => rw [afterIterations_zero, afterIterations_zero]
  | succ n ih =>
    rw [afterIterations_succ, afterIterations_succ, ih]
    rfl

/-- The offset layout when it leaves the two buffers apart.  For every dimensionality,
extent, kernel variant, iteration count `n` and offset size `k`, the two `malloc` calls
returning `m0` and `m1` in both runs: if the two buffer pointers are distinct in each run,
and the cells seen through them are distinct cells, as they are in this heap, then at the
end of the loop `buffer[0]` holds in each of its `SIZE` cells the same value in the run with
the offset layout as in the run without it, and so does `buffer[1]`; memory at entry may
differ between the runs.  The allocation does not make the two pointers distinct: see
`offset_buffers_can_coincide`. -/
theorem offset_transparency_of_distinct (cfg : Config) (k : Int) (n : Nat) (m0 m1 : Ptr) (h h' : Heap)
    (hoff : m0 ≠ m1) (hon : m0 + k * sizeofCell ≠ m1) :
    ∀ p, 0 ≤ p → p < SIZE cfg →
      (stateAfterLoop (withOffset cfg (some k)) n m0 m1 h).heap
          (stateAfterLoop (withOffset cfg (some k)) n m0 m1 h).buffer0 p =
        (stateAfterLoop (withOffset cfg none) n m0 m1 h').heap
          (stateAfterLoop (withOffset cfg none) n m0 m1 h').buffer0 p ∧
      (stateAfterLoop (withOffset cfg (some k)) n m0 m1 h).heap
          (stateAfterLoop (withOffset cfg (some k)) n m0 m1 h).buffer1 p =
        (stateAfterLoop (withOffset cfg none) n m0 m1 h').heap
          (stateAfterLoop (withOffset cfg none) n m0 m1 h').buffer1 p := by
  intro p hp0 hp1
  have key := run_agree cfg ⟨m0 + k * sizeofCell, m1, h, []⟩ ⟨m0, m1, h', []⟩ hon hoff n
  have e1 : stateAfterLoop (withOffset cfg (some k)) n m0 m1 h =
      afterIterations cfg n (initBuffers cfg ⟨m0 + k * sizeofCell, m1, h, []⟩) := by
    unfold stateAfterLoop
    rw [afterIterations_withOffset]
    rfl
  have e2 : stateAfterLoop (withOffset cfg none) n m0 m1 h' =
      afterIterations cfg n (initBuffers cfg ⟨m0, m1, h', []⟩) := by
    unfold stateAfterLoop
    rw [afterIterations_withOffset]
    rfl
  rw [e1, e2]
  exact ⟨key.2.1 p ⟨hp0, hp1⟩, key.2.2 p ⟨hp0, hp1⟩⟩

/-! ## The maximum principle of the direct kernels -/

/-- The accumulative one-dimensional kernel on five cells, cell by cell. -/
theorem stepAlt1D_five (r w : Ptr) (h : Heap) (hrw : r ≠ w) :
    stepAlt1D 5 r w h w 0 = h w 0 + 1 / 10 * h r 1 ∧
      stepAlt1D 5 r w h w 1 = h w 1 + 8 / 10 * h r 1 + 1 / 10 * h r 2 ∧
      stepAlt1D 5 r w h w 2 = h w 2 + 8 / 10 * h r 2 + 1 / 10 * (h r 3 + h r 1) ∧
      stepAlt1D 5 r w h w 3 = h w 3 + 8 / 10 * h r 3 + 1 / 10 * h r 2 ∧
      stepAlt1D 5 r w h w 4 = h w 4 + 1 / 10 * h r 3 := by
  have e0 := stepAlt1D_cell 5 r w h hrw 0
  have e1 := stepAlt1D_cell 5 r w h hrw 1
  have e2 := stepAlt1D_cell 5 r w h hrw 2
  have e3 := stepAlt1D_cell 5 r w h hrw 3
  have e4 := stepAlt1D_cell 5 r w h hrw 4
  simp only [getOffset1, DIFFUSE_FACTOR] at e0 e1 e2 e3 e4
  rw [if_neg (by decide), if_pos (by decide), if_neg (by decide)] at e0
  rw [if_pos (by decide), if_pos (by decide), if_neg (by decide)] at e1
  rw [if_pos (by decide), if_pos (by decide), if_pos (by decide)] at e2
  rw [if_pos (by decide), if_neg (by decide), if_pos (by decide)] at e3
  rw [if_neg (by decide), if_neg (by decide), if_pos (by decide)] at e4
  norm_num at e0 e1 e2 e3 e4
  refine ⟨?_, ?_, ?_, ?_, ?_⟩
  · rw [e0]
  · rw [e1]; ring
  · rw [e2]; ring
  · rw [e3]; ring
  · rw [e4]

/-- The direct one-dimensional kernel on five cells, cell by cell. -/
theorem step1D_five (r w : Ptr) (h : Heap) (hrw : r ≠ w) :
    step1D 5 r w h w 0 = h w 0 ∧
      step1D 5 r w h w 1 = h r 1 + 1 / 10 * (h r 2 + h r 0 - 2 * h r 1) ∧
      step1D 5 r w h w 2 = h r 2 + 1 / 10 * (h r 3 + h r 1 - 2 * h r 2) ∧
      step1D 5 r w h w 3 = h r 3 + 1 / 10 * (h r 4 + h r 2 - 2 * h r 3) ∧
      step1D 5 r w h w 4 = h w 4 := by
  have edge : ∀ x, ¬ interior 5 x → step1D 5 r w h w x = h w x :=
    fun x hx => step1D_other 5 r w h x (fun i hi e => hx (by
      unfold getOffset1 at e
      exact e ▸ hi))
  have e1 := step1D_interior 5 r w h hrw 1 (by decide)
  have e2 := step1D_interior 5 r w h hrw 2 (by decide)
  have e3 := step1D_interior 5 r w h hrw 3 (by decide)
  simp only [getOffset1, direct1, DIFFUSE_FACTOR] at e1 e2 e3
  norm_num at e1 e2 e3
  refine ⟨edge 0 (by decide), ?_, ?_, ?_, edge 4 (by decide)⟩
  · rw [e1]
  · rw [e2]
  · rw [e3]

/-- The cells of `buffer[0]` and `buffer[1]` before the first round, one dimension and
extent 5. -/
theorem initBuffers_five (alt : Bool) (s : MainState) (hb : s.buffer0 ≠ s.buffer1) :
    List.map ((initBuffers ⟨Dimension.d1, 5, 2, alt, none⟩ s).heap s.buffer0) [0, 1, 2, 3, 4] =
        [0, 0, 1000, 0, 0] ∧
      List.map ((initBuffers ⟨Dimension.d1, 5, 2, alt, none⟩ s).heap s.buffer1)
        [0, 1, 2, 3, 4] = [0, 0, 0, 0, 0] := by
  have h0 : ∀ p, 0 ≤ p → p < 5 →
      (initBuffers ⟨Dimension.d1, 5, 2, alt, none⟩ s).heap s.buffer0 p =
        if p = 2 then 1000 else 0 :=
    fun p hp0 hp1 => initBuffers_heap_buffer0 ⟨Dimension.d1, 5, 2, alt, none⟩ s p hp0 hp1
  have h1 : ∀ p, 0 ≤ p → p < 5 →
      (initBuffers ⟨Dimension.d1, 5, 2, alt, none⟩ s).heap s.buffer1 p = 0 :=
    fun p hp0 hp1 => initBuffers_heap_buffer1 ⟨Dimension.d1, 5, 2, alt, none⟩ s hb p hp0 hp1
  simp only [List.map_cons, List.map_nil]
  rw [h0 0 (by decide) (by decide), h0 1 (by decide) (by decide),
    h0 2 (by decide) (by decide), h0 3 (by decide) (by decide),
    h0 4 (by decide) (by decide), h1 0 (by decide) (by decide),
    h1 1 (by decide) (by decide), h1 2 (by decide) (by decide),
    h1 3 (by decide) (by decide), h1 4 (by decide) (by decide)]
  simp

/-- Two rounds of the accumulative kernel, one dimension and extent 5. -/
theorem accumulative_two_rounds (s : MainState) (hb : s.buffer0 ≠ s.buffer1) :
    (afterIterations ⟨Dimension.d1, 5, 2, true, none⟩ 2
        (initBuffers ⟨Dimension.d1, 5, 2, true, none⟩ s)).buffer0 = s.buffer0 ∧
      List.map
        ((afterIterations ⟨Dimension.d1, 5, 2, true, none⟩ 2
          (initBuffers ⟨Dimension.d1, 5, 2, true, none⟩ s)).heap s.buffer0)
        [0, 1, 2, 3, 4] = [10, 160, 1660, 160, 10] := by
  obtain ⟨i0, i1⟩ := initBuffers_five true s hb
  rw [afterIterations_succ, afterIterations_succ, afterIterations_zero]
  simp only [iteration_buffer0, iteration_buffer1, iteration_heap, initBuffers_buffer0,
    initBuffers_buffer1]
  rw [step_d1_alt ⟨Dimension.d1, 5, 2, true, none⟩ rfl rfl]
  refine ⟨trivial, ?_⟩
  have hb' : s.buffer1 ≠ s.buffer0 := fun e => hb e.symm
  obtain ⟨a0, a1, a2, a3, a4⟩ := stepAlt1D_five s.buffer0 s.buffer1
    (initBuffers ⟨Dimension.d1, 5, 2, true, none⟩ s).heap hb
  obtain ⟨b0, b1, b2, b3, b4⟩ := stepAlt1D_five s.buffer1 s.buffer0
    (stepAlt1D 5 s.buffer0 s.buffer1 (initBuffers ⟨Dimension.d1, 5, 2, true, none⟩ s).heap) hb'
  have keep := stepAlt1D_other_ptr 5 s.buffer0 s.buffer1
    (initBuffers ⟨Dimension.d1, 5, 2, true, none⟩ s).heap hb
  simp only [List.map_cons, List.map_nil, List.cons.injEq, and_true] at i0 i1 ⊢
  show stepAlt1D 5 s.buffer1 s.buffer0 _ s.buffer0 0 = 10 ∧
    stepAlt1D 5 s.buffer1 s.buffer0 _ s.buffer0 1 = 160 ∧
    stepAlt1D 5 s.buffer1 s.buffer0 _ s.buffer0 2 = 1660 ∧
    stepAlt1D 5 s.buffer1 s.buffer0 _ s.buffer0 3 = 160 ∧
    stepAlt1D 5 s.buffer1 s.buffer0 _ s.buffer0 4 = 10
  rw [b0, b1, b2, b3, b4, a1, a2, a3, keep, i0.1, i0.2.1, i0.2.2.1, i0.2.2.2.1, i0.2.2.2.2,
    i1.2.1, i1.2.2.1, i1.2.2.2.1]
  norm_num

/-- Two rounds of the direct kernel, one dimension and extent 5. -/
theorem direct_two_rounds (s : MainState) (hb : s.buffer0 ≠ s.buffer1) :
    (afterIterations ⟨Dimension.d1, 5, 2, false, none⟩ 2
        (initBuffers ⟨Dimension.d1, 5, 2, false, none⟩ s)).buffer0 = s.buffer0 ∧
      List.map
        ((afterIterations ⟨Dimension.d1, 5, 2, false, none⟩ 2
          (initBuffers ⟨Dimension.d1, 5, 2, false, none⟩ s)).heap s.buffer0)
        [0, 1, 2, 3, 4] = [0, 160, 660, 160, 0] := by
  obtain ⟨i0, i1⟩ := initBuffers_five false s hb
  rw [afterIterations_succ, afterIterations_succ, afterIterations_zero]
  simp only [iteration_buffer0, iteration_buffer1, iteration_heap, initBuffers_buffer0,
    initBuffers_buffer1]
  rw [step_d1 ⟨Dimension.d1, 5, 2, false, none⟩ rfl rfl]
  refine ⟨trivial, ?_⟩
  have hb' : s.buffer1 ≠ s.buffer0 := fun e => hb e.symm
  obtain ⟨a0, a1, a2, a3, a4⟩ := step1D_five s.buffer0 s.buffer1
    (initBuffers ⟨Dimension.d1, 5, 2, false, none⟩ s).heap hb
  obtain ⟨b0, b1, b2, b3, b4⟩ := step1D_five s.buffer1 s.buffer0
    (step1D 5 s.buffer0 s.buffer1 (initBuffers ⟨Dimension.d1, 5, 2, false, none⟩ s).heap) hb'
  have keep := step1D_other_ptr 5 s.buffer0 s.buffer1
    (initBuffers ⟨Dimension.d1, 5, 2, false, none⟩ s).heap hb
  simp only [List.map_cons, List.map_nil, List.cons.injEq, and_true] at i0 i1 ⊢
  show step1D 5 s.buffer1 s.buffer0 _ s.buffer0 0 = 0 ∧
    step1D 5 s.buffer1 s.buffer0 _ s.buffer0 1 = 160 ∧
    step1D 5 s.buffer1 s.buffer0 _ s.buffer0 2 = 660 ∧
    step1D 5 s.buffer1 s.buffer0 _ s.buffer0 3 = 160 ∧
    step1D 5 s.buffer1 s.buffer0 _ s.buffer0 4 = 0
  rw [b0, b1, b2, b3, b4, a0, a1, a2, a3, a4, keep, i0.1, i0.2.1, i0.2.2.1, i0.2.2.2.1,
    i0.2.2.2.2, i1.1, i1.2.2.2.2]
  norm_num

/-- The write buffer of the second kernel call when every index is computed exactly.  In
every dimensionality, for every extent `D ≥ 3` and with either kernel, the accumulative one
in particular, the two buffer pointers distinct: after the first round `buffer[1]`, the
write buffer of the second kernel call, is the `buffer[0]` of the start, the initial read
buffer, and at the seeded cell of the grid it still holds the seed, which is not `0`.  And
in one dimension with extent 5, two rounds leave `[10, 160, 1660, 160, 10]` in `buffer[0]`
with the accumulative kernel and `[0, 160, 660, 160, 0]` with the direct kernel. -/
theorem accumulative_run_differs_exact (cfg : Config) (s : MainState) (hD : 3 ≤ cfg.DIM)
    (hb : s.buffer0 ≠ s.buffer1) :
    ((afterIterations cfg 1 (initBuffers cfg s)).buffer1 = s.buffer0 ∧
      (0 ≤ seedOffset cfg ∧ seedOffset cfg < SIZE cfg) ∧
      (afterIterations cfg 1 (initBuffers cfg s)).heap s.buffer0 (seedOffset cfg) =
        seedValue cfg ∧
      seedValue cfg ≠ 0) ∧
    List.map
        ((afterIterations ⟨Dimension.d1, 5, 2, true, none⟩ 2
          (initBuffers ⟨Dimension.d1, 5, 2, true, none⟩ s)).heap
          (afterIterations ⟨Dimension.d1, 5, 2, true, none⟩ 2
            (initBuffers ⟨Dimension.d1, 5, 2, true, none⟩ s)).buffer0)
        [0, 1, 2, 3, 4] = [10, 160, 1660, 160, 10] ∧
    List.map
        ((afterIterations ⟨Dimension.d1, 5, 2, false, none⟩ 2
          (initBuffers ⟨Dimension.d1, 5, 2, false, none⟩ s)).heap
          (afterIterations ⟨Dimension.d1, 5, 2, false, none⟩ 2
            (initBuffers ⟨Dimension.d1, 5, 2, false, none⟩ s)).buffer0)
        [0, 1, 2, 3, 4] = [0, 160, 660, 160, 0] := by
  have hs := seedOffset_inGrid cfg (by omega)
  refine ⟨⟨?_, hs, ?_, (seedValue_pos cfg).ne'⟩, ?_, ?_⟩
  · rw [afterIterations_one, iteration_buffer1, initBuffers_buffer0]
  · rw [afterIterations_one, iteration_heap, initBuffers_buffer0, initBuffers_buffer1,
      step_other_ptr cfg _ _ _ hb, initBuffers_heap_buffer0 cfg s _ hs.1 hs.2, if_pos rfl]
  · rw [(accumulative_two_rounds s hb).1]
    exact (accumulative_two_rounds s hb).2
  · rw [(direct_two_rounds s hb).1]
    exact (direct_two_rounds s hb).2

/-- With the offset layout the two buffers can coincide: `_OFFSET_BUFFER_SIZE = 4`, one
dimension, extent 3, the first `malloc` returning the 16 bytes from 1000 and the second the
bytes from 1016 on, two blocks that do not overlap.  `buffer[0]` is advanced to 1016, the
value of `buffer[1]`. -/
theorem offset_buffers_can_coincide (h : Heap) :
    1000 + mallocBytes0 ⟨Dimension.d1, 3, 0, false, some 4⟩ ≤ 1016 ∧
      (allocate ⟨Dimension.d1, 3, 0, false, some 4⟩ 1000 1016 h).buffer0 =
        (allocate ⟨Dimension.d1, 3, 0, false, some 4⟩ 1000 1016 h).buffer1 := by
  constructor
  · show (1016 : Int) ≤ 1016
    decide
  · rfl

/-! ## The index arithmetic in `int` -/

/-- An exact result inside the range of `int` is the value the `int` holds. -/
theorem wrapInt_eq {v : Int} (h0 : -2147483648 ≤ v) (h1 : v ≤ 2147483647) :
    wrapInt v = v := by
  unfold wrapInt
  omega

/-- An `int` holds a value of its range. -/
theorem wrapInt_range (v : Int) : -2147483648 ≤ wrapInt v ∧ wrapInt v ≤ 2147483647 := by
  unfold wrapInt
  omega

/-- With `D * D` inside the range of `int`, the two-dimensional `getOffset` computed in
`int` is exact on the coordinates of the grid. -/
theorem getOffset2I32_eq {D x y : Int} (hx : inGrid D x) (hy : inGrid D y)
    (hS : D * D ≤ 2147483647) : getOffset2I32 D x y = getOffset2 D x y := by
  unfold inGrid at hx hy
  have h1 : 0 ≤ x * D := mul_nonneg hx.1 (by omega)
  have h2 : x * D ≤ (D - 1) * D := mul_le_mul_of_nonneg_right (by omega) (by omega)
  have h3 : (D - 1) * D = D * D - D := by ring
  unfold getOffset2I32 getOffset2 addInt mulInt
  rw [wrapInt_eq (v := x * D) (by omega) (by omega), wrapInt_eq (by omega) (by omega)]

/-- With `D * D * D` inside the range of `int`, the three-dimensional `getOffset` computed
in `int` is exact on the coordinates of the grid. -/
theorem getOffset3I32_eq {D x y z : Int} (hx : inGrid D x) (hy : inGrid D y)
    (hz : inGrid D z) (hS : D * D * D ≤ 2147483647) :
    getOffset3I32 D x y z = getOffset3 D x y z := by
  unfold inGrid at hx hy hz
  have hD : 0 ≤ D := by omega
  have hDD : 0 ≤ D * D := mul_nonneg hD hD
  have h1 : 0 ≤ x * D := mul_nonneg hx.1 hD
  have h2 : x * D ≤ (D - 1) * D := mul_le_mul_of_nonneg_right (by omega) hD
  have h3 : (D - 1) * D = D * D - D := by ring
  have h4 : 0 ≤ x * D * D := mul_nonneg h1 hD
  have h5 : x * D * D ≤ (D * D - D) * D :=
    mul_le_mul_of_nonneg_right (by omega) hD
  have h6 : (D * D - D) * D = D * D * D - D * D := by ring
  have h7 : 0 ≤ y * D := mul_nonneg hy.1 hD
  have h8 : y * D ≤ (D - 1) * D := mul_le_mul_of_nonneg_right (by omega) hD
  have h9 : D * D * 1 ≤ D * D * D := mul_le_mul_of_nonneg_left (by omega) hDD
  have h10 : D * D * 1 = D * D := mul_one _
  unfold getOffset3I32 getOffset3 addInt mulInt
  rw [wrapInt_eq (v := x * D) (by omega) (by omega),
    wrapInt_eq (v := x * D * D) (by omega) (by omega),
    wrapInt_eq (v := y * D) (by omega) (by omega),
    wrapInt_eq (v := x * D * D + y * D) (by omega) (by omega),
    wrapInt_eq (by omega) (by omega)]

/-! ## Loops whose bodies agree -/

theorem forLoop_congr {σ : Type} (b c : Int → σ → σ) :
    ∀ (n : Nat) (lo : Int) (s : σ),
      (∀ i t, lo ≤ i → i < lo + n → b i t = c i t) → forLoop b n lo s = forLoop c n lo s := by
  intro n
  induction n with
  | zero => intro lo s _; rfl
  | succ n ih =>
    intro lo s hb
    simp only [forLoop]
    rw [hb lo s le_rfl (by push_cast; omega)]
    apply ih
    intro i t h1 h2
    exact hb i t (by omega) (by push_cast; omega)

/-- Two loops over the same range whose bodies agree on every round of the range end in the
same state. -/
theorem forRange_congr {σ : Type} {lo hi : Int} {b c : Int → σ → σ}
    (hb : ∀ i t, lo ≤ i → i < hi → b i t = c i t) (s : σ) :
    forRange lo hi b s = forRange lo hi c s := by
  unfold forRange
  apply forLoop_congr
  intro i t h1 h2
  exact hb i t h1 (by omega)

/-! ## The kernels in `int` arithmetic below the overflow bound -/

theorem body2DI32_eq {D i j : Int} (hS : D * D ≤ 2147483647) (hi1 : 1 ≤ i) (hi2 : i < D - 1)
    (hj1 : 1 ≤ j) (hj2 : j < D - 1) (r w : Ptr) (h : Heap) :
    body2DI32 D r w i j h = body2D D r w i j h := by
  obtain ⟨a0, a1, a2⟩ := loop_inGrid hi1 hi2
  obtain ⟨b0, b1, b2⟩ := loop_inGrid hj1 hj2
  unfold body2DI32 body2D
  rw [getOffset2I32_eq a0 b0 hS, getOffset2I32_eq a1 b0 hS, getOffset2I32_eq a2 b0 hS,
    getOffset2I32_eq a0 b1 hS, getOffset2I32_eq a0 b2 hS]

theorem altBody2DI32_eq {D i j : Int} (hS : D * D ≤ 2147483647) (hi1 : 1 ≤ i)
    (hi2 : i < D - 1) (hj1 : 1 ≤ j) (hj2 : j < D - 1) (r w : Ptr) (h : Heap) :
    altBody2DI32 D r w i j h = altBody2D D r w i j h := by
  obtain ⟨a0, a1, a2⟩ := loop_inGrid hi1 hi2
  obtain ⟨b0, b1, b2⟩ := loop_inGrid hj1 hj2
  unfold altBody2DI32 altBody2D
  rw [getOffset2I32_eq a0 b0 hS, getOffset2I32_eq a1 b0 hS, getOffset2I32_eq a2 b0 hS,
    getOffset2I32_eq a0 b1 hS, getOffset2I32_eq a0 b2 hS]

theorem body3DI32_eq {D i j k : Int} (hS : D * D * D ≤ 2147483647) (hi1 : 1 ≤ i)
    (hi2 : i < D - 1) (hj1 : 1 ≤ j) (hj2 : j < D - 1) (hk1 : 1 ≤ k) (hk2 : k < D - 1)
    (r w : Ptr) (h : Heap) :
    body3DI32 D r w i j k h = body3D D r w i j k h := by
  obtain ⟨a0, a1, a2⟩ := loop_inGrid hi1 hi2
  obtain ⟨b0, b1, b2⟩ := loop_inGrid hj1 hj2
  obtain ⟨c0, c1, c2⟩ := loop_inGrid hk1 hk2
  unfold body3DI32 body3D
  rw [getOffset3I32_eq a0 b0 c0 hS, getOffset3I32_eq a1 b0 c0 hS,
    getOffset3I32_eq a2 b0 c0 hS, getOffset3I32_eq a0 b1 c0 hS,
    getOffset3I32_eq a0 b2 c0 hS, getOffset3I32_eq a0 b0 c1 hS,
    getOffset3I32_eq a0 b0 c2 hS]

theorem altBody3DI32_eq {D i j k : Int} (hS : D * D * D ≤ 2147483647) (hi1 : 1 ≤ i)
    (hi2 : i < D - 1) (hj1 : 1 ≤ j) (hj2 : j < D - 1) (hk1 : 1 ≤ k) (hk2 : k < D - 1)
    (r w : Ptr) (h : Heap) :
    altBody3DI32 D r w i j k h = altBody3D D r w i j k h := by
  obtain ⟨a0, a1, a2⟩ := loop_inGrid hi1 hi2
  obtain ⟨b0, b1, b2⟩ := loop_inGrid hj1 hj2
  obtain ⟨c0, c1, c2⟩ := loop_inGrid hk1 hk2
  unfold altBody3DI32 altBody3D
  rw [getOffset3I32_eq a0 b0 c0 hS, getOffset3I32_eq a1 b0 c0 hS,
    getOffset3I32_eq a2 b0 c0 hS, getOffset3I32_eq a0 b1 c0 hS,
    getOffset3I32_eq a0 b2 c0 hS, getOffset3I32_eq a0 b0 c1 hS,
    getOffset3I32_eq a0 b0 c2 hS]

/-- Below the overflow bound the kernel computed in `int` is the kernel computed exactly, in
every dimensionality and for both variants. -/
theorem stepI32_eq (cfg : Config) (hS : SIZE cfg ≤ 2147483647) (r w : Ptr) (h : Heap) :
    stepI32 cfg r w h = step cfg r w h := by
  obtain ⟨dim, D, n, alt, off⟩ := cfg
  cases dim <;> cases alt
  · rfl
  · rfl
  · have hS2 : D * D ≤ 2147483647 := hS
    show step2DI32 D r w h = step2D D r w h
    unfold step2DI32 step2D
    apply forRange_congr
    intro i t hi1 hi2
    apply forRange_congr
    intro j u hj1 hj2
    exact body2DI32_eq hS2 hi1 hi2 hj1 hj2 r w u
  · have hS2 : D * D ≤ 2147483647 := hS
    show stepAlt2DI32 D r w h = stepAlt2D D r w h
    unfold stepAlt2DI32 stepAlt2D
    apply forRange_congr
    intro i t hi1 hi2
    apply forRange_congr
    intro j u hj1 hj2
    exact altBody2DI32_eq hS2 hi1 hi2 hj1 hj2 r w u
  · have hS3 : D * D * D ≤ 2147483647 := hS
    show step3DI32 D r w h = step3D D r w h
    unfold step3DI32 step3D
    apply forRange_congr
    intro i t hi1 hi2
    apply forRange_congr
    intro j u hj1 hj2
    apply forRange_congr
    intro k v hk1 hk2
    exact body3DI32_eq hS3 hi1 hi2 hj1 hj2 hk1 hk2 r w v
  · have hS3 : D * D * D ≤ 2147483647 := hS
    show stepAlt3DI32 D r w h = stepAlt3D D r w h
    unfold stepAlt3DI32 stepAlt3D
    apply forRange_congr
    intro i t hi1 hi2
    apply forRange_congr
    intro j u hj1 hj2
    apply forRange_congr
    intro k v hk1 hk2
    exact altBody3DI32_eq hS3 hi1 hi2 hj1 hj2 hk1 hk2 r w v

/-- Below the overflow bound, and with `D ≥ 1`, the seeded index computed in `int` is the
exact one. -/
theorem seedOffsetI32_eq (cfg : Config) (hD : 1 ≤ cfg.DIM) (hS : SIZE cfg ≤ 2147483647) :
    seedOffsetI32 cfg = seedOffset cfg := by
  have hc : inGrid cfg.DIM (cfg.DIM.tdiv 2) := by
    rw [tdiv_two _ hD]
    exact half_inGrid hD
  obtain ⟨dim, D, n, alt, off⟩ := cfg
  cases dim
  · rfl
  · exact getOffset2I32_eq hc hc hS
  · exact getOffset3I32_eq hc hc hc hS

theorem initBuffersI32_eq (cfg : Config) (hD : 1 ≤ cfg.DIM) (hS : SIZE cfg ≤ 2147483647)
    (s : MainState) : initBuffersI32 cfg s = initBuffers cfg s := by
  unfold initBuffersI32 initBuffers
  rw [seedOffsetI32_eq cfg hD hS]

theorem iterationI32_eq (cfg : Config) (hS : SIZE cfg ≤ 2147483647) (s : MainState) :
    iterationI32 cfg s = iteration cfg s := by
  unfold iterationI32 iteration
  rw [stepI32_eq cfg hS]

/-- Below the overflow bound the loop of `main` with its kernel computed in `int` is the
loop computed exactly. -/
theorem afterIterationsI32_eq (cfg : Config) (hS : SIZE cfg ≤ 2147483647) (n : Nat)
    (s : MainState) : afterIterationsI32 cfg n s = afterIterations cfg n s := by
  unfold afterIterationsI32 afterIterations mainLoopI32 mainLoop
  apply forRange_congr
  intro i t _ _
  exact iterationI32_eq _ hS t

theorem afterIterationsI32_zero (cfg : Config) (s : MainState) :
    afterIterationsI32 cfg 0 s = s := by
  simp [afterIterationsI32, mainLoopI32, forRange, forLoop]

theorem afterIterationsI32_succ (cfg : Config) (n : Nat) (s : MainState) :
    afterIterationsI32 cfg (n + 1) s = iterationI32 cfg (afterIterationsI32 cfg n s) := by
  simp only [afterIterationsI32, mainLoopI32, forRange, sub_zero, Int.toNat_ofNat,
    iterationI32, stepI32]
  rw [forLoop_succ_last]

theorem body2DCheckedI32_eq {D i j : Int} (hS : D * D ≤ 2147483647) (hi1 : 1 ≤ i)
    (hi2 : i < D - 1) (hj1 : 1 ≤ j) (hj2 : j < D - 1) (n : Int) (r w : Ptr) (h : Heap) :
    body2DCheckedI32 n D r w i j h = body2DChecked n D r w i j h := by
  obtain ⟨a0, a1, a2⟩ := loop_inGrid hi1 hi2
  obtain ⟨b0, b1, b2⟩ := loop_inGrid hj1 hj2
  unfold body2DCheckedI32 body2DChecked
  rw [getOffset2I32_eq a0 b0 hS, getOffset2I32_eq a1 b0 hS, getOffset2I32_eq a2 b0 hS,
    getOffset2I32_eq a0 b1 hS, getOffset2I32_eq a0 b2 hS]

theorem altBody2DCheckedI32_eq {D i j : Int} (hS : D * D ≤ 2147483647) (hi1 : 1 ≤ i)
    (hi2 : i < D - 1) (hj1 : 1 ≤ j) (hj2 : j < D - 1) (n : Int) (r w : Ptr) (h : Heap) :
    altBody2DCheckedI32 n D r w i j h = altBody2DChecked n D r w i j h := by
  obtain ⟨a0, a1, a2⟩ := loop_inGrid hi1 hi2
  obtain ⟨b0, b1, b2⟩ := loop_inGrid hj1 hj2
  unfold altBody2DCheckedI32 altBody2DChecked
  rw [getOffset2I32_eq a0 b0 hS, getOffset2I32_eq a1 b0 hS, getOffset2I32_eq a2 b0 hS,
    getOffset2I32_eq a0 b1 hS, getOffset2I32_eq a0 b2 hS]

theorem body3DCheckedI32_eq {D i j k : Int} (hS : D * D * D ≤ 2147483647) (hi1 : 1 ≤ i)
    (hi2 : i < D - 1) (hj1 : 1 ≤ j) (hj2 : j < D - 1) (hk1 : 1 ≤ k) (hk2 : k < D - 1)
    (n : Int) (r w : Ptr) (h : Heap) :
    body3DCheckedI32 n D r w i j k h = body3DChecked n D r w i j k h := by
  obtain ⟨a0, a1, a2⟩ := loop_inGrid hi1 hi2
  obtain ⟨b0, b1, b2⟩ := loop_inGrid hj1 hj2
  obtain ⟨c0, c1, c2⟩ := loop_inGrid hk1 hk2
  unfold body3DCheckedI32 body3DChecked
  rw [getOffset3I32_eq a0 b0 c0 hS, getOffset3I32_eq a1 b0 c0 hS,
    getOffset3I32_eq a2 b0 c0 hS, getOffset3I32_eq a0 b1 c0 hS,
    getOffset3I32_eq a0 b2 c0 hS, getOffset3I32_eq a0 b0 c1 hS,
    getOffset3I32_eq a0 b0 c2 hS]

theorem altBody3DCheckedI32_eq {D i j k : Int} (hS : D * D * D ≤ 2147483647) (hi1 : 1 ≤ i)
    (hi2 : i < D - 1) (hj1 : 1 ≤ j) (hj2 : j < D - 1) (hk1 : 1 ≤ k) (hk2 : k < D - 1)
    (n : Int) (r w : Ptr) (h : Heap) :
    altBody3DCheckedI32 n D r w i j k h = altBody3DChecked n D r w i j k h := by
  obtain ⟨a0, a1, a2⟩ := loop_inGrid hi1 hi2
  obtain ⟨b0, b1, b2⟩ := loop_inGrid hj1 hj2
  obtain ⟨c0, c1, c2⟩ := loop_inGrid hk1 hk2
  unfold altBody3DCheckedI32 altBody3DChecked
  rw [getOffset3I32_eq a0 b0 c0 hS, getOffset3I32_eq a1 b0 c0 hS,
    getOffset3I32_eq a2 b0 c0 hS, getOffset3I32_eq a0 b1 c0 hS,
    getOffset3I32_eq a0 b2 c0 hS, getOffset3I32_eq a0 b0 c1 hS,
    getOffset3I32_eq a0 b0 c2 hS]

/-- Two bounds-checked loop bodies that agree on every heap agree on every earlier
outcome. -/
theorem bind_congr_heap {f g : Heap → Option Heap} (hfg : ∀ v, f v = g v) (o : Option Heap) :
    o.bind f = o.bind g := by
  cases o with
  | none => rfl
  | some v => exact hfg v

/-- Below the overflow bound the bounds-checked kernel computed in `int` is the
bounds-checked kernel computed exactly. -/
theorem stepCheckedI32_eq (n : Int) (cfg : Config) (hS : SIZE cfg ≤ 2147483647) (r w : Ptr)
    (h : Heap) : stepCheckedI32 n cfg r w h = stepChecked n cfg r w h := by
  obtain ⟨dim, D, m, alt, off⟩ := cfg
  cases dim <;> cases alt
  · rfl
  · rfl
  · have hS2 : D * D ≤ 2147483647 := hS
    show step2DCheckedI32 n D r w h = step2DChecked n D r w h
    unfold step2DCheckedI32 step2DChecked
    apply forRange_congr
    intro i t hi1 hi2
    apply forRange_congr
    intro j u hj1 hj2
    exact bind_congr_heap (body2DCheckedI32_eq hS2 hi1 hi2 hj1 hj2 n r w) u
  · have hS2 : D * D ≤ 2147483647 := hS
    show stepAlt2DCheckedI32 n D r w h = stepAlt2DChecked n D r w h
    unfold stepAlt2DCheckedI32 stepAlt2DChecked
    apply forRange_congr
    intro i t hi1 hi2
    apply forRange_congr
    intro j u hj1 hj2
    exact bind_congr_heap (altBody2DCheckedI32_eq hS2 hi1 hi2 hj1 hj2 n r w) u
  · have hS3 : D * D * D ≤ 2147483647 := hS
    show step3DCheckedI32 n D r w h = step3DChecked n D r w h
    unfold step3DCheckedI32 step3DChecked
    apply forRange_congr
    intro i t hi1 hi2
    apply forRange_congr
    intro j u hj1 hj2
    apply forRange_congr
    intro k v hk1 hk2
    exact bind_congr_heap (body3DCheckedI32_eq hS3 hi1 hi2 hj1 hj2 hk1 hk2 n r w) v
  · have hS3 : D * D * D ≤ 2147483647 := hS
    show stepAlt3DCheckedI32 n D r w h = stepAlt3DChecked n D r w h
    unfold stepAlt3DCheckedI32 stepAlt3DChecked
    apply forRange_congr
    intro i t hi1 hi2
    apply forRange_congr
    intro j u hj1 hj2
    apply forRange_congr
    intro k v hk1 hk2
    exact bind_congr_heap (altBody3DCheckedI32_eq hS3 hi1 hi2 hj1 hj2 hk1 hk2 n r w) v

theorem seedCheckedI32_eq (cfg : Config) (hD : 1 ≤ cfg.DIM) (hS : SIZE cfg ≤ 2147483647)
    (h : Heap) (p : Ptr) : seedCheckedI32 cfg h p = seedChecked cfg h p := by
  unfold seedCheckedI32 seedChecked
  rw [seedOffsetI32_eq cfg hD hS]

/-- With `D ≤ 2` the kernel computed in `int` makes no access either: its loops are the same
empty loops. -/
theorem stepCheckedI32_small (n : Int) (cfg : Config) (hD : cfg.DIM ≤ 2) (r w : Ptr)
    (h : Heap) : stepCheckedI32 n cfg r w h = some h ∧ stepI32 cfg r w h = h := by
  have he : cfg.DIM - 1 ≤ 1 := by omega
  obtain ⟨dim, D, m, alt, off⟩ := cfg
  cases dim <;> cases alt <;> exact ⟨forRange_empty _ _ he, forRange_empty _ _ he⟩

/-! ## The initial state with the seeded index computed in `int` -/

theorem initBuffersI32_buffer0 (cfg : Config) (s : MainState) :
    (initBuffersI32 cfg s).buffer0 = s.buffer0 := rfl

theorem initBuffersI32_buffer1 (cfg : Config) (s : MainState) :
    (initBuffersI32 cfg s).buffer1 = s.buffer1 := rfl

/-- After the zero-fill and the seeding, whatever index the seeding store used, a cell of
`buffer[0]` among its `SIZE` cells holds the seed if its index is the seeded one and `0` if
not. -/
theorem initBuffersI32_heap_buffer0 (cfg : Config) (s : MainState) (p : Int) (hp0 : 0 ≤ p)
    (hp1 : p < SIZE cfg) :
    (initBuffersI32 cfg s).heap s.buffer0 p =
      if p = seedOffsetI32 cfg then seedValue cfg else 0 := by
  unfold initBuffersI32
  simp only
  rw [writeCell_apply]
  split_ifs with h
  · rfl
  · rw [memset_apply, memset_apply]
    simp [hp0, hp1]

/-! ## What the kernels computed in `int` leave alone -/

theorem body2DI32_other_ptr (D : Int) (r w : Ptr) (i j : Int) (h : Heap) {q : Ptr}
    (hq : q ≠ w) : body2DI32 D r w i j h q = h q :=
  writeCell_other_ptr h w _ _ hq

theorem altBody2DI32_other_ptr (D : Int) (r w : Ptr) (i j : Int) (h : Heap) {q : Ptr}
    (hq : q ≠ w) : altBody2DI32 D r w i j h q = h q := by
  unfold altBody2DI32
  simp only [addCell_other_ptr _ _ _ _ hq]

/-- The two-dimensional kernels computed in `int` leave every buffer but the write buffer
alone, at every extent. -/
theorem step2DI32_other_ptr (D : Int) (r w : Ptr) (h : Heap) {q : Ptr} (hq : q ≠ w) :
    step2DI32 D r w h q = h q ∧ stepAlt2DI32 D r w h q = h q := by
  unfold step2DI32 stepAlt2DI32
  constructor
  · apply forRange_inv (fun (t : Heap) => t q = h q) _ rfl
    intro i t _ _ ht
    apply forRange_inv (fun (t : Heap) => t q = h q) _ ht
    intro j u _ _ hu
    rw [body2DI32_other_ptr D r w i j u hq, hu]
  · apply forRange_inv (fun (t : Heap) => t q = h q) _ rfl
    intro i t _ _ ht
    apply forRange_inv (fun (t : Heap) => t q = h q) _ ht
    intro j u _ _ hu
    rw [altBody2DI32_other_ptr D r w i j u hq, hu]

/-- The direct two-dimensional kernel computed in `int` writes through `int` indices only:
a cell whose index is beyond the range of `int` keeps its value, at every extent. -/
theorem step2DI32_beyond (D : Int) (r w : Ptr) (h : Heap) (p : Int) (hp : 2147483647 < p) :
    step2DI32 D r w h w p = h w p := by
  unfold step2DI32
  apply forRange_inv (fun (t : Heap) => t w p = h w p) _ rfl
  intro i t _ _ ht
  apply forRange_inv (fun (t : Heap) => t w p = h w p) _ ht
  intro j u _ _ hu
  have hne : p ≠ getOffset2I32 D i j := by
    have := wrapInt_range (mulInt i D + j)
    unfold getOffset2I32 addInt
    omega
  unfold body2DI32
  rw [writeCell_apply, if_neg hne, hu]

/-! ## Small extents -/

/-- Claim C16, as amended.  For an extent `D` of 0, 1 or 2, in every dimensionality and
with either variant, a kernel step makes no access out of range, because it makes no memory
access at all: its loops are empty, so even checked against buffers of no cells it ends, and
it leaves memory as it was.  This holds with the indices computed in `int` and with the
indices computed exactly. -/
theorem small_extent_no_access (cfg : Config) (hD : cfg.DIM = 0 ∨ cfg.DIM = 1 ∨ cfg.DIM = 2)
    (r w : Ptr) (h : Heap) :
    ((∀ n : Int, stepCheckedI32 n cfg r w h = some h) ∧ stepI32 cfg r w h = h) ∧
      ((∀ n : Int, stepChecked n cfg r w h = some h) ∧ step cfg r w h = h) :=
  ⟨⟨fun n => (stepCheckedI32_small n cfg (by omega) r w h).1,
      (stepCheckedI32_small 0 cfg (by omega) r w h).2⟩,
    ⟨fun n => (stepChecked_small n cfg (by omega) r w h).1,
      (stepChecked_small 0 cfg (by omega) r w h).2⟩⟩

/-- Witness for the amended claim C16: three dimensions, extent 2, the accumulative kernel,
checked against buffers of no cells. -/
theorem small_extent_no_access_witness :
    ((2 : Int) = 0 ∨ (2 : Int) = 1 ∨ (2 : Int) = 2) ∧
      stepCheckedI32 0 ⟨Dimension.d3, 2, 1, true, none⟩ 100 200 (fun _ _ => 0) =
        some (fun _ _ => 0) :=
  ⟨by decide,
    (small_extent_no_access ⟨Dimension.d3, 2, 1, true, none⟩ (by decide) 100 200
      (fun _ _ => 0)).1.1 0⟩

/-! ## The offset layout can make the two buffers one -/

/-- Claim C6, the code at a failing input: offset layout with `_OFFSET_BUFFER_SIZE = 4`, one
dimension, extent 3, two iterations, the first `malloc` returning the 16 bytes from 1000 and
the second a block that starts at 1016, right behind them.  Both allocations succeeded and
the two blocks do not overlap, but `buffer[0] += 4` moves `buffer[0]` by 16 bytes to 1016,
the value of `buffer[1]`: `main` goes on, returns 0, and each of its two kernel calls has
the pointer 1016 as read buffer and as write buffer. -/
theorem main_offset_same_buffer (h : Heap) :
    1000 + mallocBytes0 ⟨Dimension.d1, 3, 2, false, some 4⟩ ≤ 1016 ∧
      (main ⟨Dimension.d1, 3, 2, false, some 4⟩ 1000 1016 h).1 = 0 ∧
      kernelCalls (main ⟨Dimension.d1, 3, 2, false, some 4⟩ 1000 1016 h).2.trace =
        [(1016, 1016), (1016, 1016)] := by
  refine ⟨?_, rfl, rfl⟩
  show (1016 : Int) ≤ 1016
  decide

/-- Without the offset layout, the two allocations successful: `main` returns 0, the kernel
calls of its loop alternate the two pointers `malloc` returned, and no call has the same
pointer as read and as write buffer, the addresses of two live blocks being distinct. -/
theorem main_swap_without_offset (cfg : Config) (n : Nat) (m0 m1 : Ptr) (h : Heap)
    (ho : cfg.OFFSET_BUFFER = none) (hn : cfg.ITERATIONS = n) (h0 : m0 ≠ 0) (h1 : m1 ≠ 0)
    (h01 : m0 ≠ m1) :
    (main cfg m0 m1 h).1 = 0 ∧
      kernelCalls (main cfg m0 m1 h).2.trace =
        (List.range n).map (fun k => if k % 2 = 0 then (m0, m1) else (m1, m0)) ∧
      ∀ c ∈ kernelCalls (main cfg m0 m1 h).2.trace, c.1 ≠ c.2 := by
  have hal : allocate cfg m0 m1 h = ⟨m0, m1, h, []⟩ := by
    unfold allocate
    rw [ho]
  have hm : main cfg m0 m1 h =
      (0, release cfg (mainLoop cfg (initBuffers cfg ⟨m0, m1, h, []⟩))) := by
    unfold main
    rw [hal]
    exact if_neg (by simp [h0, h1])
  have hr : ∀ t : MainState, kernelCalls (release cfg t).trace = kernelCalls t.trace := by
    intro t
    unfold release
    simp only
    rw [kernelCalls_append]
    simp [kernelCalls]
  have hcalls : kernelCalls (main cfg m0 m1 h).2.trace =
      (List.range n).map (fun k => if k % 2 = 0 then (m0, m1) else (m1, m0)) := by
    rw [hm, hr, mainLoop_eq cfg n hn, afterIterations_calls, initBuffers_trace,
      kernelCalls_append]
    simp only [kernelCalls, List.append_nil, List.nil_append]
    apply List.map_congr_left
    intro a _
    have hbuf := afterIterations_buffers cfg (initBuffers cfg ⟨m0, m1, h, []⟩) a
    rw [hbuf.1, hbuf.2, initBuffers_buffer0, initBuffers_buffer1]
    split_ifs <;> rfl
  refine ⟨by rw [hm], hcalls, ?_⟩
  intro c hc
  rw [hcalls, List.mem_map] at hc
  obtain ⟨k, _, rfl⟩ := hc
  split_ifs
  · exact h01
  · exact fun e => h01 e.symm

/-- The direct one-dimensional kernel at extent 3 is one round of its loop, the round of
cell 1. -/
theorem step1D_three (r w : Ptr) (h : Heap) : step1D 3 r w h = body1D r w 1 h := by
  simp [step1D, forRange, forLoop]

/-- Claim C12, the code at a failing input: `_OFFSET_BUFFER_SIZE = 4`, one dimension, extent
3, the direct kernel, one iteration, the first `malloc` returning the 16 bytes from 1000 and
the second a block that starts at 1016, right behind them, in both runs.  With the offset
layout `buffer[0]` is moved to 1016, the value of `buffer[1]`, the kernel step reads and
writes the same cells, and `buffer[1]` ends as `[0, 800, 0]`; without the offset layout it
ends as `[0, 1000, 0]`.  Both runs return 0. -/
theorem main_offset_changes_result (h : Heap) :
    1000 + mallocBytes0 ⟨Dimension.d1, 3, 1, false, some 4⟩ ≤ 1016 ∧
      ((main ⟨Dimension.d1, 3, 1, false, some 4⟩ 1000 1016 h).1 = 0 ∧
        (main ⟨Dimension.d1, 3, 1, false, none⟩ 1000 1016 h).1 = 0) ∧
      List.map
          ((main ⟨Dimension.d1, 3, 1, false, some 4⟩ 1000 1016 h).2.heap
            (main ⟨Dimension.d1, 3, 1, false, some 4⟩ 1000 1016 h).2.buffer1)
          [0, 1, 2] = [0, 800, 0] ∧
      List.map
          ((main ⟨Dimension.d1, 3, 1, false, none⟩ 1000 1016 h).2.heap
            (main ⟨Dimension.d1, 3, 1, false, none⟩ 1000 1016 h).2.buffer1)
          [0, 1, 2] = [0, 1000, 0] := by
  have on1 : (main ⟨Dimension.d1, 3, 1, false, some 4⟩ 1000 1016 h).2.buffer1 = 1016 := rfl
  have on2 : (main ⟨Dimension.d1, 3, 1, false, some 4⟩ 1000 1016 h).2.heap =
      step1D 3 1016 1016
        (initBuffers ⟨Dimension.d1, 3, 1, false, some 4⟩ ⟨1016, 1016, h, []⟩).heap := rfl
  have off1 : (main ⟨Dimension.d1, 3, 1, false, none⟩ 1000 1016 h).2.buffer1 = 1000 := rfl
  have off2 : (main ⟨Dimension.d1, 3, 1, false, none⟩ 1000 1016 h).2.heap =
      step1D 3 1000 1016
        (initBuffers ⟨Dimension.d1, 3, 1, false, none⟩ ⟨1000, 1016, h, []⟩).heap := rfl
  have von : ∀ p : Int, 0 ≤ p → p < 3 →
      (initBuffers ⟨Dimension.d1, 3, 1, false, some 4⟩ ⟨1016, 1016, h, []⟩).heap 1016 p =
        if p = 1 then 1000 else 0 := fun p hp0 hp1 =>
    initBuffers_heap_buffer0 ⟨Dimension.d1, 3, 1, false, some 4⟩ ⟨1016, 1016, h, []⟩ p hp0 hp1
  have voff : ∀ p : Int, 0 ≤ p → p < 3 →
      (initBuffers ⟨Dimension.d1, 3, 1, false, none⟩ ⟨1000, 1016, h, []⟩).heap 1000 p =
        if p = 1 then 1000 else 0 := fun p hp0 hp1 =>
    initBuffers_heap_buffer0 ⟨Dimension.d1, 3, 1, false, none⟩ ⟨1000, 1016, h, []⟩ p hp0 hp1
  refine ⟨?_, ⟨rfl, rfl⟩, ?_, ?_⟩
  · show (1016 : Int) ≤ 1016
    decide
  · rw [on1, on2, step1D_three]
    have e0 := von 0 (by decide) (by decide)
    have e1 := von 1 (by decide) (by decide)
    have e2 := von 2 (by decide) (by decide)
    rw [if_neg (by decide)] at e0 e2
    rw [if_pos rfl] at e1
    simp only [List.map, body1D_apply, direct1, getOffset1]
    norm_num [DIFFUSE_FACTOR, e0, e1, e2]
  · rw [off1, off2, step1D_other_ptr 3 1000 1016 _ (by decide)]
    simp only [List.map]
    rw [voff 0 (by decide) (by decide), voff 1 (by decide) (by decide),
      voff 2 (by decide) (by decide)]
    norm_num

/-! ## The initial state, the seeded index computed in `int` -/

/-- After the zero-fill and the seeding, whatever index the seeding store used, `buffer[1]`
is `0` on its `SIZE` cells. -/
theorem initBuffersI32_heap_buffer1 (cfg : Config) (s : MainState)
    (hb : s.buffer0 ≠ s.buffer1) (p : Int) (hp0 : 0 ≤ p) (hp1 : p < SIZE cfg) :
    (initBuffersI32 cfg s).heap s.buffer1 p = 0 := by
  unfold initBuffersI32
  simp only
  rw [writeCell_other_ptr _ _ _ _ (fun e => hb e.symm), memset_apply]
  simp [hp0, hp1]

/-- Two dimensions, extent 65536: `(x*_DIM) + y` at the centre is 2147516416, beyond the
range of `int`, and the `int` the program computes is -2147450880. -/
theorem seedOffsetI32_65536 :
    seedOffset ⟨Dimension.d2, 65536, 1, false, none⟩ = 2147516416 ∧
      seedOffsetI32 ⟨Dimension.d2, 65536, 1, false, none⟩ = -2147450880 ∧
      seedOffsetI32 ⟨Dimension.d2, 65536, 1, true, none⟩ = -2147450880 ∧
      SIZE ⟨Dimension.d2, 65536, 1, false, none⟩ = 4294967296 ∧
      SIZE ⟨Dimension.d2, 65536, 1, true, none⟩ = 4294967296 := by
  refine ⟨?_, ?_, ?_, ?_, ?_⟩ <;> decide

/-- Claim C8, as amended.  For every dimensionality and every extent `D ≥ 1` with
`D^N ≤ 2147483647`, so that `getOffset(D/2, ..., D/2)` does not overflow `int`, and with
two distinct buffer pointers: after the zero-fill and the seeding of `main`, `buffer[1]` is
`0` on all `D^N` cells, and `buffer[0]` is `0` on all `D^N` cells but one, the cell
`getOffset(D/2, ..., D/2)`, which holds 1000 in one dimension and 10000 in two and three;
that cell is one of the `D^N` cells.  The two pointers are as before. -/
theorem initial_state (cfg : Config) (s : MainState) (hD : 1 ≤ cfg.DIM)
    (hS : SIZE cfg ≤ 2147483647) (hb : s.buffer0 ≠ s.buffer1) :
    (initBuffersI32 cfg s).buffer0 = s.buffer0 ∧
    (initBuffersI32 cfg s).buffer1 = s.buffer1 ∧
    (cfg.dimension = Dimension.d1 →
      (0 ≤ getOffset1 (cfg.DIM / 2) ∧ getOffset1 (cfg.DIM / 2) < cfg.DIM ^ 1) ∧
      ∀ p, 0 ≤ p → p < cfg.DIM ^ 1 →
        (initBuffersI32 cfg s).heap s.buffer1 p = 0 ∧
        (initBuffersI32 cfg s).heap s.buffer0 p =
          if p = getOffset1 (cfg.DIM / 2) then 1000 else 0) ∧
    (cfg.dimension = Dimension.d2 →
      (0 ≤ getOffset2I32 cfg.DIM (cfg.DIM / 2) (cfg.DIM / 2) ∧
        getOffset2I32 cfg.DIM (cfg.DIM / 2) (cfg.DIM / 2) < cfg.DIM ^ 2) ∧
      ∀ p, 0 ≤ p → p < cfg.DIM ^ 2 →
        (initBuffersI32 cfg s).heap s.buffer1 p = 0 ∧
        (initBuffersI32 cfg s).heap s.buffer0 p =
          if p = getOffset2I32 cfg.DIM (cfg.DIM / 2) (cfg.DIM / 2) then 10000 else 0) ∧
    (cfg.dimension = Dimension.d3 →
      (0 ≤ getOffset3I32 cfg.DIM (cfg.DIM / 2) (cfg.DIM / 2) (cfg.DIM / 2) ∧
        getOffset3I32 cfg.DIM (cfg.DIM / 2) (cfg.DIM / 2) (cfg.DIM / 2) < cfg.DIM ^ 3) ∧
      ∀ p, 0 ≤ p → p < cfg.DIM ^ 3 →
        (initBuffersI32 cfg s).heap s.buffer1 p = 0 ∧
        (initBuffersI32 cfg s).heap s.buffer0 p =
          if p = getOffset3I32 cfg.DIM (cfg.DIM / 2) (cfg.DIM / 2) (cfg.DIM / 2)
          then 10000 else 0) := by
  have hc := half_inGrid hD
  have old := initial_state_exact cfg s hD hb
  rw [initBuffersI32_eq cfg hD hS]
  refine ⟨old.1, old.2.1, old.2.2.1, ?_, ?_⟩
  · intro hdim
    rw [getOffset2I32_eq hc hc (by rw [← SIZE_d2 cfg hdim]; exact hS)]
    exact old.2.2.2.1 hdim
  · intro hdim
    rw [getOffset3I32_eq hc hc hc (by rw [← SIZE_d3 cfg hdim]; exact hS)]
    exact old.2.2.2.2 hdim

/-- Witness for the amended claim C8: two dimensions, extent 5, the pointers 100 and 200;
the centre is cell 12. -/
theorem initial_state_witness :
    (1 : Int) ≤ 5 ∧ SIZE ⟨Dimension.d2, 5, 1, false, none⟩ ≤ 2147483647 ∧
      (100 : Ptr) ≠ 200 ∧
      (initBuffersI32 ⟨Dimension.d2, 5, 1, false, none⟩
        ⟨100, 200, fun _ _ => 7, []⟩).heap 100 12 = 10000 :=
  ⟨by decide, by decide, by decide,
    ((((initial_state ⟨Dimension.d2, 5, 1, false, none⟩ ⟨100, 200, fun _ _ => 7, []⟩
      (by decide) (by decide) (by decide)).2.2.2.1 rfl).2 12 (by decide) (by decide)).2).trans
      (by decide)⟩

/-- Counterexample to claim C8 as stated: two dimensions, extent 65536.  The index the
program seeds is `getOffset(32768, 32768)` computed in `int`, which is -2147450880 and not
one of the `D^2 = 4294967296` cells; after the zero-fill and the seeding every one of the
`D^2` cells of `buffer[0]` is `0`, the cell in row 32768 and column 32768 among them. -/
theorem initial_state_counterexample :
    seedOffsetI32 ⟨Dimension.d2, 65536, 1, false, none⟩ = -2147450880 ∧
      SIZE ⟨Dimension.d2, 65536, 1, false, none⟩ = 65536 ^ 2 ∧
      (∀ p, 0 ≤ p → p < SIZE ⟨Dimension.d2, 65536, 1, false, none⟩ →
        (initBuffersI32 ⟨Dimension.d2, 65536, 1, false, none⟩
          ⟨100, 200, fun _ _ => 7, []⟩).heap 100 p = 0) ∧
      (initBuffersI32 ⟨Dimension.d2, 65536, 1, false, none⟩
        ⟨100, 200, fun _ _ => 7, []⟩).heap 100 (getOffset2 65536 32768 32768) = 0 := by
  have hseed := seedOffsetI32_65536.2.1
  have hall : ∀ p, 0 ≤ p → p < SIZE ⟨Dimension.d2, 65536, 1, false, none⟩ →
      (initBuffersI32 ⟨Dimension.d2, 65536, 1, false, none⟩
        ⟨100, 200, fun _ _ => 7, []⟩).heap 100 p = 0 := by
    intro p hp0 hp1
    have e := initBuffersI32_heap_buffer0 ⟨Dimension.d2, 65536, 1, false, none⟩
      ⟨100, 200, fun _ _ => 7, []⟩ p hp0 hp1
    rw [hseed, if_neg (by omega)] at e
    exact e
  exact ⟨hseed, by decide, hall, hall _ (by decide) (by decide)⟩

/-! ## The accesses, every index computed in `int` -/

/-- Claim C15, as amended.  For every dimensionality, either kernel variant and every extent
`D ≥ 3` with `D^N ≤ 2147483647`, so that no index computation overflows `int`: run with
every read of the read buffer and every write of the write buffer checked against the `D^N`
cells, the kernel never meets an index out of range (it ends with the result of the
unchecked kernel); and the index `main` seeds is one of the `D^N` cells, so the checked
seeding store succeeds too. -/
theorem accesses_in_range (cfg : Config) (hD : 3 ≤ cfg.DIM) (hS : SIZE cfg ≤ 2147483647)
    (r w p : Ptr) (h : Heap) :
    stepCheckedI32 (SIZE cfg) cfg r w h = some (stepI32 cfg r w h) ∧
      (0 ≤ seedOffsetI32 cfg ∧ seedOffsetI32 cfg < SIZE cfg) ∧
      seedCheckedI32 cfg h p = some (writeCell h p (seedOffsetI32 cfg) (seedValue cfg)) := by
  rw [stepCheckedI32_eq _ cfg hS, stepI32_eq cfg hS, seedCheckedI32_eq cfg (by omega) hS,
    seedOffsetI32_eq cfg (by omega) hS]
  exact accesses_in_range_exact cfg hD r w p h

/-- Witness for the amended claim C15: three dimensions, extent 3, the accumulative
kernel. -/
theorem accesses_in_range_witness :
    (3 : Int) ≤ 3 ∧ SIZE ⟨Dimension.d3, 3, 1, true, none⟩ ≤ 2147483647 ∧
      stepCheckedI32 (SIZE ⟨Dimension.d3, 3, 1, true, none⟩)
          ⟨Dimension.d3, 3, 1, true, none⟩ 100 200 (fun _ _ => 0) =
        some (stepI32 ⟨Dimension.d3, 3, 1, true, none⟩ 100 200 (fun _ _ => 0)) :=
  ⟨by decide, by decide,
    (accesses_in_range ⟨Dimension.d3, 3, 1, true, none⟩ (by decide) (by decide) 100 200 100
      (fun _ _ => 0)).1⟩

/-- Counterexample to claim C15 as stated: two dimensions, extent 65536.  The index `main`
seeds, `getOffset(32768, 32768)` computed in `int`, is -2147450880, below `0`, and the
seeding store checked against the `D^2` cells takes its out-of-range branch. -/
theorem accesses_in_range_counterexample :
    seedOffsetI32 ⟨Dimension.d2, 65536, 1, false, none⟩ = -2147450880 ∧
      seedOffsetI32 ⟨Dimension.d2, 65536, 1, false, none⟩ < 0 ∧
      seedCheckedI32 ⟨Dimension.d2, 65536, 1, false, none⟩ (fun _ _ => 0) 100 = none := by
  refine ⟨seedOffsetI32_65536.2.1, ?_, ?_⟩
  · rw [seedOffsetI32_65536.2.1]
    decide
  · unfold seedCheckedI32 writeChecked
    rw [seedOffsetI32_65536.2.1]
    exact if_neg (by decide)

/-! ## The accumulative run, every index computed in `int` -/

/-- Claim C14, as amended.  In every dimensionality, for every extent `D ≥ 3` with
`D^N ≤ 2147483647`, so that no index computation overflows `int`, and with either kernel,
the accumulative one in particular, the two buffer pointers distinct: after the first round
`buffer[1]`, the write buffer of the second kernel call, is the `buffer[0]` of the start,
the initial read buffer, and at the seeded cell of the grid it still holds the seed, which
is not `0`.  And in one dimension with extent 5, two rounds leave
`[10, 160, 1660, 160, 10]` in `buffer[0]` with the accumulative kernel and
`[0, 160, 660, 160, 0]` with the direct kernel. -/
theorem accumulative_run_differs (cfg : Config) (s : MainState) (hD : 3 ≤ cfg.DIM)
    (hS : SIZE cfg ≤ 2147483647) (hb : s.buffer0 ≠ s.buffer1) :
    ((afterIterationsI32 cfg 1 (initBuffersI32 cfg s)).buffer1 = s.buffer0 ∧
      (0 ≤ seedOffsetI32 cfg ∧ seedOffsetI32 cfg < SIZE cfg) ∧
      (afterIterationsI32 cfg 1 (initBuffersI32 cfg s)).heap s.buffer0 (seedOffsetI32 cfg) =
        seedValue cfg ∧
      seedValue cfg ≠ 0) ∧
    List.map
        ((afterIterationsI32 ⟨Dimension.d1, 5, 2, true, none⟩ 2
          (initBuffersI32 ⟨Dimension.d1, 5, 2, true, none⟩ s)).heap
          (afterIterationsI32 ⟨Dimension.d1, 5, 2, true, none⟩ 2
            (initBuffersI32 ⟨Dimension.d1, 5, 2, true, none⟩ s)).buffer0)
        [0, 1, 2, 3, 4] = [10, 160, 1660, 160, 10] ∧
    List.map
        ((afterIterationsI32 ⟨Dimension.d1, 5, 2, false, none⟩ 2
          (initBuffersI32 ⟨Dimension.d1, 5, 2, false, none⟩ s)).heap
          (afterIterationsI32 ⟨Dimension.d1, 5, 2, false, none⟩ 2
            (initBuffersI32 ⟨Dimension.d1, 5, 2, false, none⟩ s)).buffer0)
        [0, 1, 2, 3, 4] = [0, 160, 660, 160, 0] := by
  rw [initBuffersI32_eq cfg (by omega) hS, afterIterationsI32_eq cfg hS,
    seedOffsetI32_eq cfg (by omega) hS,
    initBuffersI32_eq ⟨Dimension.d1, 5, 2, true, none⟩ (by decide) (by decide),
    afterIterationsI32_eq ⟨Dimension.d1, 5, 2, true, none⟩ (by decide),
    initBuffersI32_eq ⟨Dimension.d1, 5, 2, false, none⟩ (by decide) (by decide),
    afterIterationsI32_eq ⟨Dimension.d1, 5, 2, false, none⟩ (by decide)]
  exact accumulative_run_differs_exact cfg s hD hb

/-- Witness for the amended claim C14: one dimension, extent 5, the pointers 100 and
200. -/
theorem accumulative_run_differs_witness :
    (3 : Int) ≤ 5 ∧ SIZE ⟨Dimension.d1, 5, 2, true, none⟩ ≤ 2147483647 ∧
      (100 : Ptr) ≠ 200 ∧
      List.map
        ((afterIterationsI32 ⟨Dimension.d1, 5, 2, true, none⟩ 2
          (initBuffersI32 ⟨Dimension.d1, 5, 2, true, none⟩
            ⟨100, 200, fun _ _ => 7, []⟩)).heap
          (afterIterationsI32 ⟨Dimension.d1, 5, 2, true, none⟩ 2
            (initBuffersI32 ⟨Dimension.d1, 5, 2, true, none⟩
              ⟨100, 200, fun _ _ => 7, []⟩)).buffer0)
        [0, 1, 2, 3, 4] = [10, 160, 1660, 160, 10] :=
  ⟨by decide, by decide, by decide,
    (accumulative_run_differs ⟨Dimension.d1, 5, 2, true, none⟩ ⟨100, 200, fun _ _ => 7, []⟩
      (by decide) (by decide) (by decide)).2.1⟩

theorem iterationI32_buffer0 (cfg : Config) (s : MainState) :
    (iterationI32 cfg s).buffer0 = s.buffer1 := rfl

theorem iterationI32_buffer1 (cfg : Config) (s : MainState) :
    (iterationI32 cfg s).buffer1 = s.buffer0 := rfl

theorem iterationI32_heap (cfg : Config) (s : MainState) :
    (iterationI32 cfg s).heap = stepI32 cfg s.buffer0 s.buffer1 s.heap := rfl

theorem stepI32_d2 (D n : Int) (off : Option Int) (r w : Ptr) (h : Heap) :
    stepI32 ⟨Dimension.d2, D, n, false, off⟩ r w h = step2DI32 D r w h := rfl

theorem stepI32_d2_alt (D n : Int) (off : Option Int) (r w : Ptr) (h : Heap) :
    stepI32 ⟨Dimension.d2, D, n, true, off⟩ r w h = stepAlt2DI32 D r w h := rfl

/-- Counterexample to claim C14 as stated: two dimensions, extent 65536, the accumulative
kernel.  The seeding store went to the index -2147450880, so after the first round the
write buffer of the second kernel call, the `buffer[0]` of the start, is `0` on every one
of its `D^2` cells: it holds no seed at the centre. -/
theorem accumulative_run_differs_counterexample :
    (afterIterationsI32 ⟨Dimension.d2, 65536, 2, true, none⟩ 1
        (initBuffersI32 ⟨Dimension.d2, 65536, 2, true, none⟩
          ⟨100, 200, fun _ _ => 7, []⟩)).buffer1 = 100 ∧
      seedOffsetI32 ⟨Dimension.d2, 65536, 2, true, none⟩ = -2147450880 ∧
      (∀ p, 0 ≤ p → p < SIZE ⟨Dimension.d2, 65536, 2, true, none⟩ →
        (afterIterationsI32 ⟨Dimension.d2, 65536, 2, true, none⟩ 1
          (initBuffersI32 ⟨Dimension.d2, 65536, 2, true, none⟩
            ⟨100, 200, fun _ _ => 7, []⟩)).heap 100 p = 0) ∧
      (afterIterationsI32 ⟨Dimension.d2, 65536, 2, true, none⟩ 1
        (initBuffersI32 ⟨Dimension.d2, 65536, 2, true, none⟩
          ⟨100, 200, fun _ _ => 7, []⟩)).heap 100 (getOffset2 65536 32768 32768) = 0 := by
  have hseed : seedOffsetI32 ⟨Dimension.d2, 65536, 2, true, none⟩ = -2147450880 := by
    decide
  have hheap : (afterIterationsI32 ⟨Dimension.d2, 65536, 2, true, none⟩ 1
        (initBuffersI32 ⟨Dimension.d2, 65536, 2, true, none⟩
          ⟨100, 200, fun _ _ => 7, []⟩)).heap =
      stepAlt2DI32 65536 100 200
        (initBuffersI32 ⟨Dimension.d2, 65536, 2, true, none⟩
          ⟨100, 200, fun _ _ => 7, []⟩).heap := by
    rw [afterIterationsI32_succ, afterIterationsI32_zero, iterationI32_heap, stepI32_d2_alt,
      initBuffersI32_buffer0, initBuffersI32_buffer1]
  have hall : ∀ p, 0 ≤ p → p < SIZE ⟨Dimension.d2, 65536, 2, true, none⟩ →
      (afterIterationsI32 ⟨Dimension.d2, 65536, 2, true, none⟩ 1
        (initBuffersI32 ⟨Dimension.d2, 65536, 2, true, none⟩
          ⟨100, 200, fun _ _ => 7, []⟩)).heap 100 p = 0 := by
    intro p hp0 hp1
    have e := initBuffersI32_heap_buffer0 ⟨Dimension.d2, 65536, 2, true, none⟩
      ⟨100, 200, fun _ _ => 7, []⟩ p hp0 hp1
    rw [hseed, if_neg (by omega)] at e
    rw [hheap, (step2DI32_other_ptr 65536 100 200 _ (show (100 : Ptr) ≠ 200 by decide)).2]
    exact e
  refine ⟨?_, hseed, hall, hall _ (by decide) (by decide)⟩
  rw [afterIterationsI32_succ, afterIterationsI32_zero, iterationI32_buffer1,
    initBuffersI32_buffer0]

/-! ## Boundary cells, every index computed in `int` -/

/-- Claim C3, as amended.  With the direct kernel, any dimensionality, extent `D ≥ 3` with
`D^N ≤ 2147483647`, so that no index computation overflows `int`, and two distinct buffer
pointers: after the zero-fill and seeding of `main` and any number `n` of rounds of its
loop, every boundary cell of `buffer[0]` and of `buffer[1]` is `0`; and a call of the direct
kernel does not change a boundary cell of its write buffer. -/
theorem boundary_invariance_direct (cfg : Config) (s : MainState) (n : Nat)
    (hD : 3 ≤ cfg.DIM) (hS : SIZE cfg ≤ 2147483647) (halt : cfg.STEP_ALTERNATIVE = false)
    (hb : s.buffer0 ≠ s.buffer1) :
    (∀ p, boundaryIndex cfg p →
      (afterIterationsI32 cfg n (initBuffersI32 cfg s)).heap
          (afterIterationsI32 cfg n (initBuffersI32 cfg s)).buffer0 p = 0 ∧
        (afterIterationsI32 cfg n (initBuffersI32 cfg s)).heap
          (afterIterationsI32 cfg n (initBuffersI32 cfg s)).buffer1 p = 0) ∧
    (∀ (r w : Ptr) (h : Heap) (p : Int), boundaryIndex cfg p →
      stepI32 cfg r w h w p = h w p) := by
  have old := boundary_invariance_exact cfg s n hD halt hb
  rw [initBuffersI32_eq cfg (by omega) hS, afterIterationsI32_eq cfg hS]
  refine ⟨old.1, ?_⟩
  intro r w h p hp
  rw [stepI32_eq cfg hS]
  exact old.2 r w h p hp

/-- Witness for the amended claim C3: two dimensions, extent 5, two rounds; cell 4 is the
cell in row 0 and column 4. -/
theorem boundary_invariance_direct_witness :
    (3 : Int) ≤ 5 ∧ SIZE ⟨Dimension.d2, 5, 2, false, none⟩ ≤ 2147483647 ∧
      (100 : Ptr) ≠ 200 ∧
      (afterIterationsI32 ⟨Dimension.d2, 5, 2, false, none⟩ 2
        (initBuffersI32 ⟨Dimension.d2, 5, 2, false, none⟩ ⟨100, 200, fun _ _ => 7, []⟩)).heap
          (afterIterationsI32 ⟨Dimension.d2, 5, 2, false, none⟩ 2
            (initBuffersI32 ⟨Dimension.d2, 5, 2, false, none⟩
              ⟨100, 200, fun _ _ => 7, []⟩)).buffer0 4 = 0 :=
  ⟨by decide, by decide, by decide,
    ((boundary_invariance_direct ⟨Dimension.d2, 5, 2, false, none⟩
      ⟨100, 200, fun _ _ => 7, []⟩ 2 (by decide) (by decide) rfl (by decide)).1 4
        ⟨0, 4, by decide, by decide, by decide, rfl⟩).1⟩

/-- Counterexample to claim C3 as stated, in two parts.  The accumulative kernel: one
dimension, extent 3, one round; index `0` is a boundary cell, and after the round
`buffer[0]` holds 100 there.  An extent beyond the range of `int`: three dimensions, extent
2048, the direct kernel, no round made; `getOffset(1024, 1024, 1024)` computed in `int` is
2098176, the index of the boundary cell `(0, 1024, 1024)`, and after the zero-fill and the
seeding `buffer[0]` holds 10000 there. -/
theorem boundary_invariance_counterexample :
    (boundaryIndex ⟨Dimension.d1, 3, 1, true, none⟩ 0 ∧
      (afterIterationsI32 ⟨Dimension.d1, 3, 1, true, none⟩ 1
        (initBuffersI32 ⟨Dimension.d1, 3, 1, true, none⟩ ⟨100, 200, fun _ _ => 0, []⟩)).heap
          (afterIterationsI32 ⟨Dimension.d1, 3, 1, true, none⟩ 1
            (initBuffersI32 ⟨Dimension.d1, 3, 1, true, none⟩
              ⟨100, 200, fun _ _ => 0, []⟩)).buffer0 0 = 100) ∧
    (boundaryIndex ⟨Dimension.d3, 2048, 0, false, none⟩ 2098176 ∧
      getOffset3 2048 0 1024 1024 = 2098176 ∧
      seedOffsetI32 ⟨Dimension.d3, 2048, 0, false, none⟩ = 2098176 ∧
      (afterIterationsI32 ⟨Dimension.d3, 2048, 0, false, none⟩ 0
        (initBuffersI32 ⟨Dimension.d3, 2048, 0, false, none⟩
          ⟨100, 200, fun _ _ => 0, []⟩)).heap
          (afterIterationsI32 ⟨Dimension.d3, 2048, 0, false, none⟩ 0
            (initBuffersI32 ⟨Dimension.d3, 2048, 0, false, none⟩
              ⟨100, 200, fun _ _ => 0, []⟩)).buffer0 2098176 = 10000) := by
  constructor
  · rw [initBuffersI32_eq ⟨Dimension.d1, 3, 1, true, none⟩ (by decide) (by decide),
      afterIterationsI32_eq ⟨Dimension.d1, 3, 1, true, none⟩ (by decide)]
    exact ⟨accumulative_reaches_boundary.1, accumulative_reaches_boundary.2.1⟩
  · have hseed : seedOffsetI32 ⟨Dimension.d3, 2048, 0, false, none⟩ = 2098176 := by decide
    refine ⟨⟨0, 1024, 1024, by decide, by decide, by decide, by decide, by decide⟩,
      by decide, hseed, ?_⟩
    rw [afterIterationsI32_zero, initBuffersI32_buffer0]
    have e := initBuffersI32_heap_buffer0 ⟨Dimension.d3, 2048, 0, false, none⟩
      ⟨100, 200, fun _ _ => 0, []⟩ 2098176 (by decide) (by decide)
    rw [hseed, if_pos rfl] at e
    exact e

/-! ## The first iteration, every index computed in `int` -/

/-- Claim C5, as amended.  With the direct kernel, any dimensionality, extent `D ≥ 3` with
`D^N ≤ 2147483647`, so that no index computation overflows `int`, and two distinct buffer
pointers: after the first round the new read buffer (the old `buffer[1]`) is nonzero at a
cell of the grid exactly when that cell is interior and is the centre `(D/2, ..., D/2)` or
one of its `2N` axis neighbours.  The centre is interior; its neighbours are all interior
exactly when `D ≥ 5`. -/
theorem first_iteration_shape (cfg : Config) (s : MainState) (hD : 3 ≤ cfg.DIM)
    (hS : SIZE cfg ≤ 2147483647) (halt : cfg.STEP_ALTERNATIVE = false)
    (hb : s.buffer0 ≠ s.buffer1) :
    (afterIterationsI32 cfg 1 (initBuffersI32 cfg s)).buffer0 = s.buffer1 ∧
    interior cfg.DIM (cfg.DIM / 2) ∧
    ((interior cfg.DIM (cfg.DIM / 2 - 1) ∧ interior cfg.DIM (cfg.DIM / 2 + 1)) ↔
      5 ≤ cfg.DIM) ∧
    (cfg.dimension = Dimension.d1 → ∀ x, inGrid cfg.DIM x →
      ((afterIterationsI32 cfg 1 (initBuffersI32 cfg s)).heap s.buffer1 (getOffset1 x) ≠ 0 ↔
        interior cfg.DIM x ∧
          (x = cfg.DIM / 2 ∨ x = cfg.DIM / 2 - 1 ∨ x = cfg.DIM / 2 + 1))) ∧
    (cfg.dimension = Dimension.d2 → ∀ x y, inGrid cfg.DIM x → inGrid cfg.DIM y →
      ((afterIterationsI32 cfg 1 (initBuffersI32 cfg s)).heap s.buffer1
          (getOffset2 cfg.DIM x y) ≠ 0 ↔
        (interior cfg.DIM x ∧ interior cfg.DIM y) ∧
          ((x = cfg.DIM / 2 ∧ y = cfg.DIM / 2) ∨
            (x = cfg.DIM / 2 - 1 ∧ y = cfg.DIM / 2) ∨
            (x = cfg.DIM / 2 + 1 ∧ y = cfg.DIM / 2) ∨
            (x = cfg.DIM / 2 ∧ y = cfg.DIM / 2 - 1) ∨
            (x = cfg.DIM / 2 ∧ y = cfg.DIM / 2 + 1)))) ∧
    (cfg.dimension = Dimension.d3 → ∀ x y z,
      inGrid cfg.DIM x → inGrid cfg.DIM y → inGrid cfg.DIM z →
      ((afterIterationsI32 cfg 1 (initBuffersI32 cfg s)).heap s.buffer1
          (getOffset3 cfg.DIM x y z) ≠ 0 ↔
        (interior cfg.DIM x ∧ interior cfg.DIM y ∧ interior cfg.DIM z) ∧
          ((x = cfg.DIM / 2 ∧ y = cfg.DIM / 2 ∧ z = cfg.DIM / 2) ∨
            (x = cfg.DIM / 2 - 1 ∧ y = cfg.DIM / 2 ∧ z = cfg.DIM / 2) ∨
            (x = cfg.DIM / 2 + 1 ∧ y = cfg.DIM / 2 ∧ z = cfg.DIM / 2) ∨
            (x = cfg.DIM / 2 ∧ y = cfg.DIM / 2 - 1 ∧ z = cfg.DIM / 2) ∨
            (x = cfg.DIM / 2 ∧ y = cfg.DIM / 2 + 1 ∧ z = cfg.DIM / 2) ∨
            (x = cfg.DIM / 2 ∧ y = cfg.DIM / 2 ∧ z = cfg.DIM / 2 - 1) ∨
            (x = cfg.DIM / 2 ∧ y = cfg.DIM / 2 ∧ z = cfg.DIM / 2 + 1)))) := by
  rw [initBuffersI32_eq cfg (by omega) hS, afterIterationsI32_eq cfg hS]
  exact first_iteration_shape_exact cfg s hD halt hb

/-- Witness for the amended claim C5: two dimensions, extent 5, the pointers 100 and
200. -/
theorem first_iteration_shape_witness :
    (3 : Int) ≤ 5 ∧ SIZE ⟨Dimension.d2, 5, 1, false, none⟩ ≤ 2147483647 ∧
      (100 : Ptr) ≠ 200 ∧
      (afterIterationsI32 ⟨Dimension.d2, 5, 1, false, none⟩ 1
        (initBuffersI32 ⟨Dimension.d2, 5, 1, false, none⟩
          ⟨100, 200, fun _ _ => 7, []⟩)).buffer0 = 200 :=
  ⟨by decide, by decide, by decide,
    (first_iteration_shape ⟨Dimension.d2, 5, 1, false, none⟩ ⟨100, 200, fun _ _ => 7, []⟩
      (by decide) (by decide) rfl (by decide)).1⟩

/-- Counterexample to claim C5 as stated, in two parts.  A small extent: one dimension,
extent 3, the direct kernel; the centre is cell 1, cell 0 is one of its two neighbours, and
after the first round the new read buffer holds 0 there.  An extent beyond the range of
`int`: two dimensions, extent 65536, the direct kernel; the centre is the cell in row 32768
and column 32768, the cell 2147516416 of the buffer, an index no `int` holds, and after the
first round the new read buffer holds 0 there. -/
theorem first_iteration_shape_counterexample :
    ((3 : Int) / 2 - 1 = 0 ∧
      (afterIterationsI32 ⟨Dimension.d1, 3, 1, false, none⟩ 1
        (initBuffersI32 ⟨Dimension.d1, 3, 1, false, none⟩
          ⟨100, 200, fun _ _ => 7, []⟩)).buffer0 = 200 ∧
      (afterIterationsI32 ⟨Dimension.d1, 3, 1, false, none⟩ 1
        (initBuffersI32 ⟨Dimension.d1, 3, 1, false, none⟩ ⟨100, 200, fun _ _ => 7, []⟩)).heap
          200 (getOffset1 0) = 0) ∧
    ((65536 : Int) / 2 = 32768 ∧ getOffset2 65536 32768 32768 = 2147516416 ∧
      (afterIterationsI32 ⟨Dimension.d2, 65536, 1, false, none⟩ 1
        (initBuffersI32 ⟨Dimension.d2, 65536, 1, false, none⟩
          ⟨100, 200, fun _ _ => 7, []⟩)).buffer0 = 200 ∧
      (afterIterationsI32 ⟨Dimension.d2, 65536, 1, false, none⟩ 1
        (initBuffersI32 ⟨Dimension.d2, 65536, 1, false, none⟩
          ⟨100, 200, fun _ _ => 7, []⟩)).heap 200 (getOffset2 65536 32768 32768) = 0) := by
  constructor
  · rw [initBuffersI32_eq ⟨Dimension.d1, 3, 1, false, none⟩ (by decide) (by decide),
      afterIterationsI32_eq ⟨Dimension.d1, 3, 1, false, none⟩ (by decide)]
    exact first_iteration_extent_three
  · refine ⟨by decide, by decide, ?_, ?_⟩
    · rw [afterIterationsI32_succ, afterIterationsI32_zero, iterationI32_buffer0,
        initBuffersI32_buffer1]
    · rw [afterIterationsI32_succ, afterIterationsI32_zero, iterationI32_heap, stepI32_d2,
        initBuffersI32_buffer0, initBuffersI32_buffer1,
        step2DI32_beyond 65536 100 200 _ _ (by decide)]
      exact initBuffersI32_heap_buffer1 ⟨Dimension.d2, 65536, 1, false, none⟩
        ⟨100, 200, fun _ _ => 7, []⟩ (by decide) _ (by decide) (by decide)

/-! ## The overflow bound is sharp -/

/-- At the first extents with `D^N > 2147483647`, 46341 in two dimensions and 1291 in
three, a kernel round already forms an index that overflows: the last round reads its
neighbour in row `D - 1`, whose exact index is beyond the range of `int`, and the index
computed in `int` is negative.  At the extents just below, `D^N` is within the range. -/
theorem overflow_threshold :
    (interior 46341 46339 ∧ 2147483647 < getOffset2 46341 (46339 + 1) 46339 ∧
      getOffset2I32 46341 (46339 + 1) 46339 < 0) ∧
    (interior 1291 1289 ∧ 2147483647 < getOffset3 1291 (1289 + 1) 1289 1289 ∧
      getOffset3I32 1291 (1289 + 1) 1289 1289 < 0) ∧
    ((46340 : Int) * 46340 ≤ 2147483647 ∧ (1290 : Int) * 1290 * 1290 ≤ 2147483647) := by
  decide

end CacheBenchmark
